import Mathlib

/-! The GDB stub of TRAP (`GDBStub.hpp`, branch hpps09)

A shallow embedding of `GDBStub<issueWidth>`: the byte codec
(`valueToBytes`, `bytesToValue`), the controller state, the request handlers
and the instruction-boundary hook `newIssue`.

Conventions of the embedding.

* `issueWidth` is an unsigned integer type of `wordBytes` bytes; its values are
  natural numbers. The bit operations of the codec are the ones of the source;
  the source computes its masks and shifts at the width of `int`, so the codec
  is exact for word sizes up to that width.
* An integer copied between `issueWidth` and an `unsigned int` member (a
  register index, the address in an info pair) is not truncated: `issueWidth`
  is taken no wider than `unsigned int`. Address arithmetic (`req.address + i`)
  is exact, the width of `GDBRequest::address` not being in the source.
* `std::vector<char>` is a list of integers, each the value of one `char`:
  `-128..127` where plain `char` is signed, `0..255` where it is not.
* A `double` is an IEEE 754 binary64 value (`Dbl`): every product,
  difference and comparison of the source is the binary64 one, rounded to the
  nearest value with ties to even, each operation rounded on its own; NaN and
  the infinities are values.
* The collaborators whose code is outside `GDBStub.hpp` (the processor ABI,
  the breakpoint manager, the connection manager, the SystemC kernel) are
  parameters (`ABIIf`, `BreakpointManager`, `Env`); every call the stub makes
  to the connection manager, the kernel or the ABI is appended to `Stub.log`
  in the order of the calls.
* The pause event is an `sc_event`: it has at most one pending notification,
  and of a pending one and a new one the earlier stays. A `Kernel` holds the
  stub together with the virtual time in picoseconds and the time of that
  pending notification; the conversion `sc_time(d, SC_PS)` of a `double` is a
  parameter (`Env.scTime`).
* The stub blocks in `connManager.processRequest()`. A `Config` records where
  the simulator thread is (`Loc`): outside `newIssue`, or blocked in one of the
  `while(this->waitForRequest());` loops. Each call of `newIssue` up to its
  first blocking read, each request handler, each write of the listener thread
  and each callback of the pause event is one atomic step.
-/

namespace GDBStub

/-! ## Byte codec -/

/-- The conversion `(char)x` of an integer to plain `char`. -/
def toChar (charSigned : Bool) (x : Nat) : Int :=
  if charSigned && decide (128 ≤ x % 256) then ((x % 256 : Nat) : Int) - 256 else ((x % 256 : Nat) : Int)

/-- The expression `(value & (0x0FF << 8*i)) >> 8*i` of `valueToBytes`. -/
def byteAt (value i : Nat) : Nat :=
  (value &&& (0x0FF <<< (8 * i))) >>> (8 * i)

/-- Source: `valueToBytes(byteHolder, value)` for a `ValueType` of `size` bytes:
pushes the bytes of `value` from the least significant one when
`matchEndian()` answers true, from the most significant one otherwise. -/
def valueToBytes (charSigned matchEndian : Bool) (size : Nat) (byteHolder : List Int)
    (value : Nat) : List Int :=
  if matchEndian then
    byteHolder ++ (List.range size).map (fun i => toChar charSigned (byteAt value i))
  else
    byteHolder ++ (List.range size).reverse.map (fun i => toChar charSigned (byteAt value i))

/-- The conversion of an `int` to `issueWidth` (unsigned, `wordBytes` bytes). -/
def wordOfInt (wordBytes : Nat) (x : Int) : Nat :=
  (x % (2 : Int) ^ (8 * wordBytes)).toNat

/-- The inner loop of `bytesToValue`: `buf |= (byteHolder[i + k] << 8*k)` for
the `n` remaining values of `k`. `none`: an index past the end of the vector
is read. -/
def assembleWord (wordBytes : Nat) (byteHolder : List Int) (i : Nat) :
    Nat → Nat → Nat → Option Nat
  | 0, _, buf => some buf
  | n + 1, k, buf =>
    match byteHolder[i + k]? with
    | none => none
    | some b => assembleWord wordBytes byteHolder i n (k + 1)
        (buf ||| wordOfInt wordBytes (b * (2 : Int) ^ (8 * k)))

/-- The outer loop of `bytesToValue`, `for(i; i < byteHolder.size(); i += sizeof(issueWidth))`,
run for at most `fuel` iterations. -/
def bytesToValueLoop (wordBytes : Nat) (byteHolder : List Int) :
    Nat → Nat → List Nat → Option (List Nat)
  | 0, i, values => if i < byteHolder.length then none else some values
  | fuel + 1, i, values =>
    if i < byteHolder.length then
      match assembleWord wordBytes byteHolder i wordBytes 0 0 with
      | none => none
      | some buf => bytesToValueLoop wordBytes byteHolder fuel (i + wordBytes) (values ++ [buf])
    else some values

/-- Source: `bytesToValue(byteHolder, values)` with `values` empty at the call, as in
`writeRegisters`. `none`: an index past the end of `byteHolder` is read (for a
word size of at least one byte the loop ends within `byteHolder.size()`
iterations). -/
def bytesToValue (wordBytes : Nat) (byteHolder : List Int) : Option (List Nat) :=
  bytesToValueLoop wordBytes byteHolder byteHolder.length 0 []


/-! ## The type `double` -/

/-- A C++ `double`, IEEE 754 binary64: a NaN, an infinity with its sign, or a
finite value with its sign and the number `k` its exponent field and fraction
spell together, `k = exponent * 2^52 + fraction`. The value of `fin neg k` is
`fraction * 2^(-1074)` when the exponent field is 0 and
`(2^52 + fraction) * 2^(exponent - 1075)` otherwise; `k` below `2047 * 2^52`
for every finite value. -/
inductive Dbl
  | nan
  | inf (neg : Bool)
  | fin (neg : Bool) (k : Nat)
  deriving DecidableEq

/-- The bits of `n` counted by halving, for at most `fuel` halvings. -/
def Dbl.bitsAux : Nat → Nat → Nat
  | 0, _ => 0
  | fuel + 1, n => if n = 0 then 0 else Dbl.bitsAux fuel (n / 2) + 1

/-- The number of bits of `p`: the least `n` with `p < 2^n`. -/
def Dbl.bitLength (p : Nat) : Nat := Dbl.bitsAux p p

/-- The significand `m` and the exponent `e` of the finite value `k` spells:
the value is `m * 2^e`. -/
def Dbl.decode (k : Nat) : Nat × Int :=
  if k / 2 ^ 52 = 0 then (k % 2 ^ 52, -1074)
  else (2 ^ 52 + k % 2 ^ 52, ((k / 2 ^ 52 : Nat) : Int) - 1075)

/-- The quotient `p / 2^d` rounded to the nearest integer, a tie to the even
one. -/
def Dbl.roundShift (p d : Nat) : Nat :=
  if 2 ^ d < 2 * (p % 2 ^ d) ∨ (2 * (p % 2 ^ d) = 2 ^ d ∧ (p / 2 ^ d) % 2 = 1) then p / 2 ^ d + 1
  else p / 2 ^ d

/-- The `double` nearest to the exact value `p * 2^e` with sign `neg`, a tie
to the one with the even significand: `t` is the exponent of the last place
kept (53 bits, or the subnormal place `-1074`), `q` the significand at that
place; an exact value of `2^1024` or more rounds to the infinity. -/
def Dbl.round (neg : Bool) (p : Nat) (e : Int) : Dbl :=
  if p = 0 then Dbl.fin neg 0
  else
    let t : Int := max (e + (Dbl.bitLength p : Int) - 53) (-1074)
    let q : Nat := if t ≤ e then p * 2 ^ (e - t).toNat else Dbl.roundShift p (t - e).toNat
    let k : Nat := (t + 1074).toNat * 2 ^ 52 + q
    if 2047 * 2 ^ 52 ≤ k then Dbl.inf neg else Dbl.fin neg k

/-- The product `x * y` of two `double`s. -/
def Dbl.mul : Dbl → Dbl → Dbl
  | Dbl.nan, _ => Dbl.nan
  | _, Dbl.nan => Dbl.nan
  | Dbl.inf s1, Dbl.inf s2 => Dbl.inf (xor s1 s2)
  | Dbl.inf s1, Dbl.fin s2 k => if k = 0 then Dbl.nan else Dbl.inf (xor s1 s2)
  | Dbl.fin s1 k, Dbl.inf s2 => if k = 0 then Dbl.nan else Dbl.inf (xor s1 s2)
  | Dbl.fin s1 k1, Dbl.fin s2 k2 =>
    Dbl.round (xor s1 s2) ((Dbl.decode k1).1 * (Dbl.decode k2).1)
      ((Dbl.decode k1).2 + (Dbl.decode k2).2)

/-- The negation `-x` of a `double`. -/
def Dbl.neg : Dbl → Dbl
  | Dbl.nan => Dbl.nan
  | Dbl.inf s => Dbl.inf (!s)
  | Dbl.fin s k => Dbl.fin (!s) k

/-- The integer `n` with the sign `s`. -/
def Dbl.signed (s : Bool) (n : Nat) : Int := if s then -(n : Int) else (n : Int)

/-- The sum `x + y` of two `double`s: a zero added to `y` gives `y` (two zeros
give the negative zero only when both are negative), otherwise the exact sum
at the smaller exponent is rounded; an exact sum of 0 is the positive zero. -/
def Dbl.add : Dbl → Dbl → Dbl
  | Dbl.nan, _ => Dbl.nan
  | _, Dbl.nan => Dbl.nan
  | Dbl.inf s1, Dbl.inf s2 => if s1 = s2 then Dbl.inf s1 else Dbl.nan
  | Dbl.inf s, Dbl.fin _ _ => Dbl.inf s
  | Dbl.fin _ _, Dbl.inf s => Dbl.inf s
  | Dbl.fin s1 k1, Dbl.fin s2 k2 =>
    if k1 = 0 then (if k2 = 0 then Dbl.fin (s1 && s2) 0 else Dbl.fin s2 k2)
    else if k2 = 0 then Dbl.fin s1 k1
    else
      let e : Int := min (Dbl.decode k1).2 (Dbl.decode k2).2
      let d : Int :=
        Dbl.signed s1 ((Dbl.decode k1).1 * 2 ^ ((Dbl.decode k1).2 - e).toNat)
          + Dbl.signed s2 ((Dbl.decode k2).1 * 2 ^ ((Dbl.decode k2).2 - e).toNat)
      if d = 0 then Dbl.fin false 0 else Dbl.round (decide (d < 0)) d.natAbs e

/-- The difference `x - y` of two `double`s. -/
def Dbl.sub (x y : Dbl) : Dbl := Dbl.add x (Dbl.neg y)

/-- The comparison `x < y` of two `double`s: false when either is a NaN, the
two zeros equal. -/
def Dbl.lt : Dbl → Dbl → Bool
  | Dbl.nan, _ => false
  | _, Dbl.nan => false
  | Dbl.inf s1, Dbl.inf s2 => s1 && !s2
  | Dbl.inf s, Dbl.fin _ _ => s
  | Dbl.fin _ _, Dbl.inf s => !s
  | Dbl.fin false k1, Dbl.fin false k2 => decide (k1 < k2)
  | Dbl.fin true k1, Dbl.fin true k2 => decide (k2 < k1)
  | Dbl.fin true k1, Dbl.fin false k2 => !(decide (k1 = 0) && decide (k2 = 0))
  | Dbl.fin false _, Dbl.fin true _ => false

/-- The comparison `x == y` of two `double`s: false when either is a NaN, the
two zeros equal. -/
def Dbl.eq : Dbl → Dbl → Bool
  | Dbl.nan, _ => false
  | _, Dbl.nan => false
  | Dbl.inf s1, Dbl.inf s2 => s1 == s2
  | Dbl.inf _, Dbl.fin _ _ => false
  | Dbl.fin _ _, Dbl.inf _ => false
  | Dbl.fin s1 k1, Dbl.fin s2 k2 =>
    (decide (k1 = 0) && decide (k2 = 0)) || (s1 == s2 && decide (k1 = k2))

/-- The comparison `x != y` of two `double`s. -/
def Dbl.ne (x y : Dbl) : Bool := !Dbl.eq x y

/-- The comparison `x <= y` of two `double`s. -/
def Dbl.le (x y : Dbl) : Bool := Dbl.lt x y || Dbl.eq x y

/-- The conversion of an unsigned integer to `double`; also the value of a
literal such as `0` or `1e3`. -/
def Dbl.ofNat (n : Nat) : Dbl := Dbl.round false n 0

/-- The conversion `(int64)x` of a finite `double` that is not negative: the
fraction is dropped. Every other `double` gives 0 here. -/
def Dbl.trunc : Dbl → Nat
  | Dbl.fin false k =>
    if 0 ≤ (Dbl.decode k).2 then (Dbl.decode k).1 * 2 ^ (Dbl.decode k).2.toNat
    else (Dbl.decode k).1 / 2 ^ (-(Dbl.decode k).2).toNat
  | _ => 0

instance (n : Nat) : OfNat Dbl n := ⟨Dbl.ofNat n⟩

instance : LT Dbl := ⟨fun x y => Dbl.lt x y = true⟩

instance : LE Dbl := ⟨fun x y => Dbl.le x y = true⟩

instance (x y : Dbl) : Decidable (x < y) := inferInstanceAs (Decidable (Dbl.lt x y = true))

instance (x y : Dbl) : Decidable (x ≤ y) := inferInstanceAs (Decidable (Dbl.le x y = true))

instance : Sub Dbl := ⟨Dbl.sub⟩

instance : Mul Dbl := ⟨Dbl.mul⟩

instance : Add Dbl := ⟨Dbl.add⟩


/-! ## Data model -/

/-- The enumeration `stopType` of the stub. -/
inductive stopType
  | BREAK_stop
  | STEP_stop
  | SEG_stop
  | TIMEOUT_stop
  | PAUSED_stop
  | UNK_stop
  deriving DecidableEq, Repr

/-- Modelled from the spec: the breakpoint kinds of `Breakpoint<issueWidth>`
(declared in `BreakpointManager.hpp`), under the names `GDBStub.hpp` uses for
them: code breakpoints `HW_break` and `MEM_break`, watchpoints `WRITE_break`,
`READ_break` and `ACCESS_break`. -/
inductive BreakType
  | HW_break
  | MEM_break
  | WRITE_break
  | READ_break
  | ACCESS_break
  deriving DecidableEq, Repr

/-- Modelled from the spec: a breakpoint is a tuple `(kind, address, length)`;
`GDBStub.hpp` reads its members `type` and `address`. -/
structure Breakpoint where
  type : BreakType
  address : Nat
  length : Nat
  deriving DecidableEq, Repr

/-- The operations of `BreakpointManager<issueWidth>` the stub calls, over a
registry state `R`. The class is declared outside `GDBStub.hpp`, so its
operations are parameters and nothing is assumed about them. -/
structure BreakpointManager (R : Type) where
  addBreakpoint : R → BreakType → Nat → Nat → R × Bool
  removeBreakpoint : R → Nat → R × Bool
  hasBreakpoint : R → Nat → Bool
  getBreakPoint : R → Nat → Option Breakpoint
  clearAllBreaks : R → R

/-- The operations of `ABIIf<issueWidth>` the stub calls, over a processor
state `P`, each with the arguments the stub passes (the revision of
`ABIIf.hpp` the stub is written against, with `matchEndian` and `nGDBRegs`, is
not in the sources). A read answers `none` when the call throws; a write
answers the processor it leaves and whether it returned normally (`false`: it
threw). -/
structure ABIIf (P : Type) where
  matchEndian : P → Bool
  nGDBRegs : P → Nat
  readGDBReg : P → Nat → Option Nat
  setGDBReg : P → Nat → Nat → P × Bool
  readMem : P → Nat → Option Nat
  writeMem : P → Nat → Int → P × Bool
  setPC : P → Nat → P

/-- The response kinds `GDBResponse::..._rsp` the stub assigns. -/
inductive RspType
  | OK_rsp
  | NOT_SUPPORTED_rsp
  | ERROR_rsp
  | REG_READ_rsp
  | MEM_READ_rsp
  | S_rsp
  | T_rsp
  | W_rsp
  | OUTPUT_rsp
  deriving DecidableEq, Repr

/-- The members of `GDBResponse` the stub assigns (the struct is declared in
`GDBConnectionManager.hpp`). -/
structure GDBResponse where
  type : RspType
  payload : Nat
  message : String
  data : List Int
  info : List (String × Nat)
  size : Nat
  deriving DecidableEq, Repr

/-- The request kinds `GDBRequest::..._req` that `waitForRequest` switches on;
`other_req` stands for every value that reaches its `default:` label. -/
inductive ReqType
  | QUEST_req
  | EXCL_req
  | c_req
  | C_req
  | D_req
  | g_req
  | G_req
  | H_req
  | i_req
  | I_req
  | k_req
  | m_req
  | M_req
  | X_req
  | p_req
  | P_req
  | q_req
  | s_req
  | S_req
  | t_req
  | T_req
  | z_req
  | Z_req
  | INTR_req
  | ERROR_req
  | other_req
  deriving DecidableEq, Repr

/-- The members of `GDBRequest` the stub reads (the struct is declared in
`GDBConnectionManager.hpp`). -/
structure GDBRequest where
  type : ReqType
  address : Nat
  length : Nat
  reg : Nat
  value : Nat
  data : List Int
  command : String
  extension : String
  deriving DecidableEq, Repr

/-- The value of `sc_time_stamp()`: its `to_double()` in picoseconds and its
`to_string()`. -/
structure SimTime where
  toDouble : Dbl
  toStr : String
  deriving DecidableEq

/-- One call of the stub to a collaborator. -/
inductive Event
  /-- Source: `connManager.sendResponse(r)`: one response packet of the spec -/
  | sendResponse (r : GDBResponse)
  /-- Source: `connManager.sendInterrupt()`: the urgent interrupt byte of the spec -/
  | sendInterrupt
  /-- Source: `pauseEvent.notify(sc_time(delay, SC_PS))`, called at virtual time `now` -/
  | notify (now delay : Dbl)
  /-- Source: `sc_stop()` -/
  | sc_stop
  /-- Source: `processorInstance.setPC(a)` -/
  | setPC (a : Nat)
  /-- Source: `processorInstance.readGDBReg(i)` -/
  | readGDBReg (i : Nat)
  /-- Source: `processorInstance.setGDBReg(v, i)` -/
  | setGDBReg (v i : Nat)
  /-- Source: `processorInstance.readMem(a)` -/
  | readMem (a : Nat)
  /-- Source: `processorInstance.writeMem(a, v)` -/
  | writeMem (a : Nat) (v : Int)
  deriving DecidableEq

/-- What the instantiation and the platform fix: the collaborators'
operations, `sizeof(issueWidth)`, the signedness of plain `char`, `atof`,
`boost::lexical_cast<std::string>` on a `double`, the conversion
`sc_time(d, SC_PS)` of a `double` to a count of picoseconds (`scTime`), the
text `to_string()` gives for a time in picoseconds (`timeStr`), and what the
scalar members of a default-constructed `GDBResponse` hold before the stub
assigns them (`unassigned`). -/
structure Env (R P : Type) where
  breakManager : BreakpointManager R
  abi : ABIIf P
  wordBytes : Nat
  charSigned : Bool
  atof : String → Dbl
  showDouble : Dbl → String
  scTime : Dbl → Nat
  timeStr : Nat → String
  unassigned : GDBResponse

/-- The data members of `GDBStub<issueWidth>`, with the calls made so far to
the connection manager, the kernel and the ABI in `log`. -/
structure Stub (R P : Type) where
  processorInstance : P
  breakManager : R
  step : Nat
  breakReached : Option Breakpoint
  breakEnabled : Bool
  isKilled : Bool
  timeToGo : Dbl
  timeToJump : Dbl
  simStartTime : Dbl
  timeout : Bool
  isConnected : Bool
  firstRun : Bool
  log : List Event

/-- The constructor `GDBStub(processorInstance)`, given the breakpoint manager
it default-constructs. -/
def Stub.construct {R P : Type} (processorInstance : P) (breakManager : R) : Stub R P :=
  { processorInstance := processorInstance
    breakManager := breakManager
    step := 0
    breakReached := none
    breakEnabled := true
    isKilled := false
    timeout := false
    isConnected := false
    timeToGo := 0
    timeToJump := 0
    simStartTime := 0
    firstRun := true
    log := [] }

def SIGTRAP : Nat := 5
def SIGQUIT : Nat := 3
def SIGILL : Nat := 4
def SIGABRT : Nat := 6

/-- Source: `sizeof(int)`, the size of the `ValueType` deduced for the literal `0` in
`valueToBytes(rsp.data, 0)`. -/
def sizeofInt : Nat := 4

/-- How a call that may block or throw ends: it returned, it is blocked in
the request loop of `setStopped` (line 210), or it threw. -/
inductive Flow (σ : Type)
  | returned (s : σ)
  | blocked (s : σ)
  | thrown (s : σ)

/-- The stub a call leaves behind, however it ended. -/
def Flow.state {σ : Type} : Flow σ → σ
  | Flow.returned s => s
  | Flow.blocked s => s
  | Flow.thrown s => s

/-- How one call of `waitForRequest` ends: it returned true (`listen`), it
returned false (`leave`), it is suspended in the `wait()` of `killApp`, it
read past the end of a vector (`undefined`), or it threw. -/
inductive LoopResult (σ : Type)
  | listen (s : σ)
  | leave (s : σ)
  | waiting (s : σ)
  | undefined (s : σ)
  | thrown (s : σ)

/-- The stub a call of `waitForRequest` leaves behind, however it ended. -/
def LoopResult.state {σ : Type} : LoopResult σ → σ
  | LoopResult.listen s => s
  | LoopResult.leave s => s
  | LoopResult.waiting s => s
  | LoopResult.undefined s => s
  | LoopResult.thrown s => s

/-- The controller state: the data members of the stub other than the
processor it drives and the record of its calls. -/
structure Control (R : Type) where
  breakManager : R
  step : Nat
  breakReached : Option Breakpoint
  breakEnabled : Bool
  isKilled : Bool
  timeToGo : Dbl
  timeToJump : Dbl
  simStartTime : Dbl
  timeout : Bool
  isConnected : Bool
  firstRun : Bool

/-- The controller state of a stub. -/
def Stub.control {R P : Type} (s : Stub R P) : Control R :=
  { breakManager := s.breakManager
    step := s.step
    breakReached := s.breakReached
    breakEnabled := s.breakEnabled
    isKilled := s.isKilled
    timeToGo := s.timeToGo
    timeToJump := s.timeToJump
    simStartTime := s.simStartTime
    timeout := s.timeout
    isConnected := s.isConnected
    firstRun := s.firstRun }

section Controller

variable {R P : Type} (env : Env R P)

/-- A default-constructed `GDBResponse` (`GDBResponse response;`): its string
and its vectors are empty, its scalar members are the unassigned ones. -/
def newResponse : GDBResponse :=
  { env.unassigned with message := "", data := [], info := [] }

/-- Appends one call to the log. -/
def Stub.emit (s : Stub R P) (e : Event) : Stub R P :=
  { s with log := s.log ++ [e] }

/-- Source: `this->connManager.sendResponse(r)`. -/
def Stub.sendResponse (s : Stub R P) (r : GDBResponse) : Stub R P :=
  s.emit (Event.sendResponse r)

/-- Source: `this->connManager.sendInterrupt()`. -/
def Stub.sendInterrupt (s : Stub R P) : Stub R P :=
  s.emit Event.sendInterrupt

/-- The key of the info pair `awakeGDB` builds for a watchpoint (the inner
`switch` on `breakReached->type`). -/
def watchKey : BreakType → String
  | BreakType.WRITE_break => "watch"
  | BreakType.READ_break => "rwatch"
  | BreakType.ACCESS_break => "awatch"
  | _ => "none"

/-- Source: `awakeGDB(stopReason)`. -/
def awakeGDB (stopReason : stopType) (now : SimTime) (s : Stub R P) : Flow (Stub R P) :=
  match stopReason with
  | stopType.STEP_stop =>
      Flow.returned (s.sendResponse { newResponse env with type := RspType.S_rsp, payload := SIGTRAP })
  | stopType.BREAK_stop =>
      match s.breakReached with
      | none => Flow.thrown s
      | some b =>
        if b.type = BreakType.HW_break ∨ b.type = BreakType.MEM_break then
          Flow.returned
            (s.sendResponse { newResponse env with type := RspType.S_rsp, payload := SIGTRAP })
        else
          Flow.returned
            (s.sendResponse
              { newResponse env with
                type := RspType.T_rsp
                payload := SIGTRAP
                size := env.wordBytes
                info := (newResponse env).info ++ [(watchKey b.type, b.address)] })
  | stopType.SEG_stop =>
      Flow.returned (s.sendResponse { newResponse env with type := RspType.S_rsp, payload := SIGILL })
  | stopType.TIMEOUT_stop =>
      Flow.returned
        ((s.sendResponse
          { newResponse env with
            type := RspType.OUTPUT_rsp
            message := "Specified Simulation time completed - Current simulation time: "
              ++ now.toStr ++ " (ps)\n" }).sendInterrupt)
  | stopType.PAUSED_stop =>
      Flow.returned
        ((s.sendResponse
          { newResponse env with
            type := RspType.OUTPUT_rsp
            message := "Simulation Paused - Current simulation time: "
              ++ now.toStr ++ " (ps)\n" }).sendInterrupt)
  | stopType.UNK_stop => Flow.returned s.sendInterrupt

/-- The statements of `setStopped` before `this->awakeGDB(stopReason)`: the
time accounting and `breakEnabled = false`. -/
def setStoppedEntry (now : SimTime) (s : Stub R P) : Stub R P :=
  let s1 : Stub R P :=
    if s.timeToGo > 0 then
      let s0 : Stub R P := { s with timeToGo := s.timeToGo - (now.toDouble - s.simStartTime) }
      let s0 : Stub R P := if s0.timeToGo < 0 then { s0 with timeToGo := 0 } else s0
      { s0 with simStartTime := now.toDouble }
    else s
  { s1 with breakEnabled := false }

/-- Source: `setStopped(stopReason)` up to its request loop: the thread ends blocked
in `while(this->waitForRequest());` unless `awakeGDB` threw. -/
def setStopped (stopReason : stopType) (now : SimTime) (s : Stub R P) : Flow (Stub R P) :=
  match awakeGDB env stopReason now (setStoppedEntry now s) with
  | Flow.returned s1 => Flow.blocked s1
  | Flow.blocked s1 => Flow.blocked s1
  | Flow.thrown s1 => Flow.thrown s1

/-- Source: `checkStep()`. -/
def checkStep (now : SimTime) (s : Stub R P) : Flow (Stub R P) :=
  if s.step = 1 then
    Flow.returned { s with step := s.step + 1 }
  else if s.step = 2 then
    let s1 : Stub R P := { s with step := 0 }
    if s1.timeout then
      setStopped env stopType.TIMEOUT_stop now { s1 with timeout := false }
    else
      setStopped env stopType.STEP_stop now s1
  else Flow.returned s

/-- Source: `checkBreakpoint(address)`. -/
def checkBreakpoint (address : Nat) (now : SimTime) (s : Stub R P) : Flow (Stub R P) :=
  if s.breakEnabled && env.breakManager.hasBreakpoint s.breakManager address then
    let s1 : Stub R P :=
      { s with breakReached := env.breakManager.getBreakPoint s.breakManager address }
    match s1.breakReached with
    | none => Flow.thrown s1
    | some _ => setStopped env stopType.BREAK_stop now s1
  else Flow.returned s

/-- Source: `resumeExecution()`. -/
def resumeExecution (now : SimTime) (s : Stub R P) : Stub R P :=
  let s1 : Stub R P := { s with breakEnabled := true, simStartTime := now.toDouble }
  if s1.timeToGo > 0 then s1.emit (Event.notify now.toDouble s1.timeToGo) else s1

/-- Source: `pauseMethod()`, the callback of `pauseEvent`. -/
def pauseMethod (s : Stub R P) : Stub R P :=
  { s with step := 2, timeout := true }

/-- One turn of the loop of `GDBThread::operator()` in which
`checkInterrupt()` answers true. -/
def GDBThread_interrupt (s : Stub R P) : Stub R P :=
  { s with step := 2 }

/-- The turn of the loop of `GDBThread::operator()` in which
`checkInterrupt()` answers false; the thread ends after it. -/
def GDBThread_disconnect (s : Stub R P) : Stub R P :=
  { s with
    breakManager := env.breakManager.clearAllBreaks s.breakManager
    step := 0
    isConnected := false }

/-! ## Request handlers -/

/-- Source: `emptyAction(req)`. -/
def emptyAction (s : Stub R P) : LoopResult (Stub R P) :=
  LoopResult.listen (s.sendResponse { newResponse env with type := RspType.NOT_SUPPORTED_rsp })

/-- Source: `reqStopReason()`: `this->awakeGDB()` with the default argument `UNK_stop`. -/
def reqStopReason (now : SimTime) (s : Stub R P) : LoopResult (Stub R P) :=
  match awakeGDB env stopType.UNK_stop now s with
  | Flow.returned s1 => LoopResult.listen s1
  | Flow.blocked s1 => LoopResult.listen s1
  | Flow.thrown s1 => LoopResult.thrown s1

/-- Source: `readRegister(req)`. -/
def readRegister (req : GDBRequest) (s : Stub R P) : LoopResult (Stub R P) :=
  let rsp : GDBResponse := { newResponse env with type := RspType.REG_READ_rsp }
  let me := env.abi.matchEndian s.processorInstance
  if req.reg < env.abi.nGDBRegs s.processorInstance then
    let s1 := s.emit (Event.readGDBReg req.reg)
    match env.abi.readGDBReg s.processorInstance req.reg with
    | some regContent =>
        LoopResult.listen (s1.sendResponse
          { rsp with data := valueToBytes env.charSigned me env.wordBytes rsp.data regContent })
    | none =>
        LoopResult.listen (s1.sendResponse
          { rsp with data := valueToBytes env.charSigned me sizeofInt rsp.data 0 })
  else
    LoopResult.listen (s.sendResponse
      { rsp with data := valueToBytes env.charSigned me sizeofInt rsp.data 0 })

/-- One turn of the loop of `readMemory`: the byte at `req.address + i`. -/
def readMemoryStep (req : GDBRequest) (acc : Stub R P × List Int) (i : Nat) :
    Stub R P × List Int :=
  let s := acc.1
  let me := env.abi.matchEndian s.processorInstance
  let s1 := s.emit (Event.readMem (req.address + i))
  match env.abi.readMem s.processorInstance (req.address + i) with
  | some memContent => (s1, valueToBytes env.charSigned me 1 acc.2 (memContent % 256))
  | none => (s1, valueToBytes env.charSigned me sizeofInt acc.2 0)

/-- Source: `readMemory(req)`. -/
def readMemory (req : GDBRequest) (s : Stub R P) : LoopResult (Stub R P) :=
  let rsp : GDBResponse := { newResponse env with type := RspType.MEM_READ_rsp }
  let r := (List.range req.length).foldl (readMemoryStep env req) (s, rsp.data)
  LoopResult.listen (r.1.sendResponse { rsp with data := r.2 })

/-- Source: `cont(req)`. -/
def cont (req : GDBRequest) (now : SimTime) (s : Stub R P) : LoopResult (Stub R P) :=
  let s1 : Stub R P :=
    if req.address ≠ 0 then
      { s.emit (Event.setPC req.address) with
        processorInstance := env.abi.setPC s.processorInstance req.address }
    else s
  LoopResult.leave (resumeExecution now s1)

/-- Source: `detach(req)`. -/
def detach (now : SimTime) (s : Stub R P) : LoopResult (Stub R P) :=
  let s1 : Stub R P := { s with breakManager := env.breakManager.clearAllBreaks s.breakManager }
  let s2 := s1.sendResponse { newResponse env with type := RspType.OK_rsp }
  let s3 : Stub R P := { s2 with step := 0, isConnected := false }
  let s4 := resumeExecution now s3
  LoopResult.leave { s4 with breakEnabled := false }

/-- One turn of the loop of `readRegisters`: register `i`. -/
def readRegistersStep (acc : Stub R P × List Int) (i : Nat) : Stub R P × List Int :=
  let s := acc.1
  let me := env.abi.matchEndian s.processorInstance
  let s1 := s.emit (Event.readGDBReg i)
  match env.abi.readGDBReg s.processorInstance i with
  | some regContent => (s1, valueToBytes env.charSigned me env.wordBytes acc.2 regContent)
  | none => (s1, valueToBytes env.charSigned me sizeofInt acc.2 0)

/-- Source: `readRegisters()`. -/
def readRegisters (s : Stub R P) : LoopResult (Stub R P) :=
  let resp : GDBResponse := { newResponse env with type := RspType.REG_READ_rsp }
  let r := (List.range (env.abi.nGDBRegs s.processorInstance)).foldl
    (readRegistersStep env) (s, resp.data)
  LoopResult.listen (r.1.sendResponse { resp with data := r.2 })

/-- One turn of the loop of `writeRegisters`: `setGDBReg(*dataIter, i)`, with
the accumulator `(stub, error, i)`. -/
def writeRegistersStep (acc : Stub R P × Bool × Nat) (datum : Nat) : Stub R P × Bool × Nat :=
  let s := acc.1
  let s1 := s.emit (Event.setGDBReg datum acc.2.2)
  let w := env.abi.setGDBReg s.processorInstance datum acc.2.2
  ({ s1 with processorInstance := w.1 }, (acc.2.1 || !w.2), acc.2.2 + 1)

/-- Source: `writeRegisters(req)`. -/
def writeRegisters (req : GDBRequest) (s : Stub R P) : LoopResult (Stub R P) :=
  match bytesToValue env.wordBytes req.data with
  | none => LoopResult.undefined s
  | some regContent =>
    let r := regContent.foldl (writeRegistersStep env) (s, false, 0)
    let resp : GDBResponse :=
      if r.2.2 ≠ env.abi.nGDBRegs r.1.processorInstance ∨ r.2.1 = true then
        { newResponse env with type := RspType.ERROR_rsp }
      else { newResponse env with type := RspType.OK_rsp }
    LoopResult.listen (r.1.sendResponse resp)

/-- The loop of `writeMemory` over the data still to write, with `bytes`
written so far; answers the stub, `bytes` and `error`. -/
def writeMemoryLoop (address : Nat) : List Int → Nat → Stub R P → Stub R P × Nat × Bool
  | [], bytes, s => (s, bytes, false)
  | datum :: rest, bytes, s =>
    let s1 := s.emit (Event.writeMem (address + bytes) datum)
    let w := env.abi.writeMem s.processorInstance (address + bytes) datum
    let s2 : Stub R P := { s1 with processorInstance := w.1 }
    if w.2 then writeMemoryLoop address rest (bytes + 1) s2 else (s2, bytes, true)

/-- Source: `writeMemory(req)`. -/
def writeMemory (req : GDBRequest) (s : Stub R P) : LoopResult (Stub R P) :=
  let r := writeMemoryLoop env req.address req.data 0 s
  let resp : GDBResponse :=
    if r.2.1 ≠ req.length ∨ r.2.2 = true then
      { newResponse env with type := RspType.ERROR_rsp }
    else { newResponse env with type := RspType.OK_rsp }
  LoopResult.listen (r.1.sendResponse resp)

/-- Source: `writeRegister(req)`, the `else` branch as the source has it. -/
def writeRegister (req : GDBRequest) (now : SimTime) (s : Stub R P) : LoopResult (Stub R P) :=
  if req.reg ≤ env.abi.nGDBRegs s.processorInstance then
    let s1 := s.emit (Event.setGDBReg req.value req.reg)
    let w := env.abi.setGDBReg s.processorInstance req.value req.reg
    let s2 : Stub R P := { s1 with processorInstance := w.1 }
    let rsp : GDBResponse :=
      if w.2 then { newResponse env with type := RspType.OK_rsp }
      else { newResponse env with type := RspType.ERROR_rsp }
    LoopResult.listen (s2.sendResponse rsp)
  else
    let rsp : GDBResponse := { newResponse env with type := RspType.ERROR_rsp }
    let s1 : Stub R P := { s with breakManager := env.breakManager.clearAllBreaks s.breakManager }
    let s2 := s1.sendResponse { newResponse env with type := RspType.OK_rsp }
    let s3 : Stub R P := { s2 with step := 0 }
    let s4 := resumeExecution now s3
    let s5 : Stub R P := { s4 with isConnected := false }
    LoopResult.listen (s5.sendResponse rsp)

/-- Source: `killApp()`: the thread is suspended in `wait()` after `sc_stop()`; the
`return true` after it is reached only if the kernel wakes the thread. -/
def killApp (s : Stub R P) : LoopResult (Stub R P) :=
  let s1 : Stub R P := { s with isKilled := true }
  LoopResult.waiting (s1.emit Event.sc_stop)

/-- Source: `doStep(req)`. -/
def doStep (req : GDBRequest) (now : SimTime) (s : Stub R P) : LoopResult (Stub R P) :=
  let s1 : Stub R P :=
    if req.address ≠ 0 then
      { s.emit (Event.setPC req.address) with
        processorInstance := env.abi.setPC s.processorInstance req.address }
    else s
  let s2 : Stub R P := { s1 with step := 1 }
  LoopResult.leave (resumeExecution now s2)

/-- Source: `recvIntr()`. -/
def recvIntr (s : Stub R P) : LoopResult (Stub R P) :=
  LoopResult.listen
    { s with
      breakManager := env.breakManager.clearAllBreaks s.breakManager
      step := 0
      isConnected := false }

/-- The breakpoint kind `addBreakpoint` asks for, by `req.value`; `none` is
the `default:` label. -/
def breakTypeOf (value : Nat) : Option BreakType :=
  if value = 0 ∨ value = 1 then some BreakType.HW_break
  else if value = 2 then some BreakType.WRITE_break
  else if value = 3 then some BreakType.READ_break
  else if value = 4 then some BreakType.ACCESS_break
  else none

/-- Source: `addBreakpoint(req)`. -/
def addBreakpoint (req : GDBRequest) (s : Stub R P) : LoopResult (Stub R P) :=
  match breakTypeOf req.value with
  | some t =>
    let a := env.breakManager.addBreakpoint s.breakManager t req.address req.length
    let s1 : Stub R P := { s with breakManager := a.1 }
    let resp : GDBResponse :=
      if a.2 then { newResponse env with type := RspType.OK_rsp }
      else { newResponse env with type := RspType.ERROR_rsp }
    LoopResult.listen (s1.sendResponse resp)
  | none =>
    LoopResult.listen (s.sendResponse { newResponse env with type := RspType.NOT_SUPPORTED_rsp })

/-- Source: `removeBreakpoint(req)`. -/
def removeBreakpoint (req : GDBRequest) (s : Stub R P) : LoopResult (Stub R P) :=
  let a := env.breakManager.removeBreakpoint s.breakManager req.address
  let s1 : Stub R P := { s with breakManager := a.1 }
  let resp : GDBResponse :=
    if a.2 then { newResponse env with type := RspType.OK_rsp }
    else { newResponse env with type := RspType.ERROR_rsp }
  LoopResult.listen (s1.sendResponse resp)

/-- The text of `req.extension` before its first blank, or all of it when it
has none: `custComm` in `genericQuery`. -/
def custComm (extension : String) : String :=
  String.mk (extension.toList.takeWhile (fun c => c ≠ ' '))

/-- The text `req.extension.substr(spacePos + 1)`: what follows the first
blank, or the whole text when there is none (`npos + 1` is `0`). -/
def custArg (extension : String) : String :=
  if ' ' ∈ extension.toList then
    String.mk ((extension.toList.dropWhile (fun c => c ≠ ' ')).drop 1)
  else extension

/-- The text the `help` monitor command sends. -/
def helpMessage : String :=
  "Help about the custom GDB commands available for the ReSP simulation platform:\n"
  ++ "   monitor help:       prints the current message\n"
  ++ "   monitor time:       returns the current simulation time\n"
  ++ "   monitor status:     returns the status of the simulation\n"
  ++ "   monitor go n:       after the 'continue' command is given, it simulates for n (ns) starting from the current time\n"
  ++ "   monitor go_abs n:   after the 'continue' command is given, it simulates up to instant n (ns)\n"

/-- The branch shared by `go` and `go_abs` once `timeToGo` is assigned: the
test `timeToGo < 0`. Answers the stub and `resp`. -/
def rejectNegative (resp : GDBResponse) (s : Stub R P) : Stub R P × GDBResponse :=
  if s.timeToGo < 0 then
    let resp1 : GDBResponse :=
      { resp with type := RspType.OUTPUT_rsp, message := "Please specify a positive offset" }
    let s1 := s.sendResponse resp1
    ({ s1 with timeToGo := 0 }, { resp1 with type := RspType.NOT_SUPPORTED_rsp })
  else (s, { resp with type := RspType.OK_rsp })

/-- The body of `genericQuery` up to its last `sendResponse`: the stub and
the `resp` that is sent last. -/
def genericQueryBody (req : GDBRequest) (now : SimTime) (s : Stub R P) :
    Stub R P × GDBResponse :=
  let resp : GDBResponse := newResponse env
  if req.command ≠ "Rcmd" then (s, { resp with type := RspType.NOT_SUPPORTED_rsp })
  else if custComm req.extension = "go" then
    rejectNegative resp { s with timeToGo := env.atof (custArg req.extension) * 1000 }
  else if custComm req.extension = "go_abs" then
    rejectNegative resp
      { s with timeToGo := env.atof (custArg req.extension) * 1000 - now.toDouble }
  else if custComm req.extension = "status" then
    let resp1 : GDBResponse :=
      { resp with
        type := RspType.OUTPUT_rsp
        message := "Current simulation time: " ++ env.showDouble now.toDouble ++ " (ps)\n" }
    let resp2 : GDBResponse :=
      if Dbl.ne s.timeToGo 0 then
        { resp1 with
          message := resp1.message ++ "Simulating for : " ++ env.showDouble s.timeToGo
            ++ " Nanoseconds\n" }
      else resp1
    (s.sendResponse resp2, { resp2 with type := RspType.OK_rsp })
  else if custComm req.extension = "time" then
    let resp1 : GDBResponse :=
      { resp with
        type := RspType.OUTPUT_rsp
        message := "Current simulation time: " ++ env.showDouble now.toDouble ++ " (ps)\n" }
    (s.sendResponse resp1, { resp1 with type := RspType.OK_rsp })
  else if custComm req.extension = "help" then
    let resp1 : GDBResponse := { resp with type := RspType.OUTPUT_rsp, message := helpMessage }
    (s.sendResponse resp1, { resp1 with type := RspType.OK_rsp })
  else (s, { resp with type := RspType.NOT_SUPPORTED_rsp })

/-- Source: `genericQuery(req)`. -/
def genericQuery (req : GDBRequest) (now : SimTime) (s : Stub R P) : LoopResult (Stub R P) :=
  let r := genericQueryBody env req now s
  LoopResult.listen (r.1.sendResponse r.2)

/-- The `ERROR_req` case of `waitForRequest`. -/
def errorRequest (now : SimTime) (s : Stub R P) : LoopResult (Stub R P) :=
  let s1 : Stub R P := { s with isConnected := false }
  let s2 := resumeExecution now s1
  LoopResult.leave { s2 with breakEnabled := false }

/-- Source: `waitForRequest()` on the request `req` that `connManager.processRequest()`
returned. -/
def waitForRequest (now : SimTime) (s : Stub R P) (req : GDBRequest) : LoopResult (Stub R P) :=
  match req.type with
  | ReqType.QUEST_req => reqStopReason env now s
  | ReqType.EXCL_req => emptyAction env s
  | ReqType.c_req => cont env req now s
  | ReqType.C_req => emptyAction env s
  | ReqType.D_req => detach env now s
  | ReqType.g_req => readRegisters env s
  | ReqType.G_req => writeRegisters env req s
  | ReqType.H_req => emptyAction env s
  | ReqType.i_req => emptyAction env s
  | ReqType.I_req => emptyAction env s
  | ReqType.k_req => killApp s
  | ReqType.m_req => readMemory env req s
  | ReqType.M_req => writeMemory env req s
  | ReqType.X_req => writeMemory env req s
  | ReqType.p_req => readRegister env req s
  | ReqType.P_req => writeRegister env req now s
  | ReqType.q_req => genericQuery env req now s
  | ReqType.s_req => doStep env req now s
  | ReqType.S_req => emptyAction env s
  | ReqType.t_req => emptyAction env s
  | ReqType.T_req => emptyAction env s
  | ReqType.z_req => removeBreakpoint env req s
  | ReqType.Z_req => addBreakpoint env req s
  | ReqType.INTR_req => recvIntr env s
  | ReqType.ERROR_req => errorRequest now s
  | ReqType.other_req => emptyAction env s

/-- Source: `signalProgramEnd(error)`. -/
def signalProgramEnd (error : Bool) (s : Stub R P) : Stub R P :=
  if !s.isKilled || error then
    let response : GDBResponse := newResponse env
    let s1 : Stub R P :=
      if error then s.sendResponse { newResponse env with type := RspType.ERROR_rsp } else s
    let response1 : GDBResponse :=
      { response with
        type := RspType.OUTPUT_rsp
        message := if error then "Program Ended With an Error\n" else "Program Correctly Ended\n" }
    let s2 := s1.sendResponse response1
    let response2 : GDBResponse :=
      { response1 with type := RspType.W_rsp, payload := if error then SIGABRT else SIGQUIT }
    s2.sendResponse response2
  else s

/-- Source: `end_of_simulation()`. -/
def end_of_simulation (s : Stub R P) : Stub R P :=
  if s.isConnected then signalProgramEnd env false { s with isKilled := false } else s

/-- Source: `initialize(port)`: the stub is connected and the listener thread started. -/
def initializeStub (s : Stub R P) : Stub R P :=
  { s with isConnected := true }

/-! ## The instruction-boundary hook -/

/-- The request loops the simulator thread can be blocked in, by the call
that leads there: the loop of the first run in `newIssue` (line 848), the
loop of a `setStopped` called from `checkStep` inside `newIssue(curPC)`, the
loop of a `setStopped` called from `checkBreakpoint`. -/
inductive LoopSite
  | firstRun
  | checkStep (curPC : Nat)
  | checkBreakpoint
  deriving DecidableEq, Repr

/-- Where the simulator thread is: outside `newIssue` (with the value the last
call returned, if there was one), blocked in `processRequest()` at a loop,
suspended in the `wait()` of `killApp` inside a loop, ended by an exception
that left `newIssue`, or past a read outside a vector. -/
inductive Loc
  | outside (ret : Option Bool)
  | serving (site : LoopSite)
  | waiting (site : LoopSite)
  | aborted
  | undefined
  deriving DecidableEq, Repr

/-- The stub, where its thread is, and the virtual time `sc_time_stamp()`
(which stands still while the thread is inside `newIssue`). -/
structure Config (R P : Type) where
  stub : Stub R P
  loc : Loc
  now : SimTime

/-- The rest of `newIssue(curPC)` from `this->checkBreakpoint(curPC)` on. -/
def newIssueBreak (curPC : Nat) (now : SimTime) (s : Stub R P) : Config R P :=
  match checkBreakpoint env curPC now s with
  | Flow.returned s1 => { stub := s1, loc := Loc.outside (some false), now := now }
  | Flow.blocked s1 => { stub := s1, loc := Loc.serving LoopSite.checkBreakpoint, now := now }
  | Flow.thrown s1 => { stub := s1, loc := Loc.aborted, now := now }

/-- Source: `newIssue(curPC, curInstr)` called at virtual time `now`, up to its return
or to the first `processRequest()` it blocks in. -/
def newIssue (curPC : Nat) (now : SimTime) (s : Stub R P) : Config R P :=
  if s.firstRun then
    { stub := { s with firstRun := false, breakEnabled := false }
      loc := Loc.serving LoopSite.firstRun
      now := now }
  else
    match checkStep env now s with
    | Flow.returned s1 => newIssueBreak env curPC now s1
    | Flow.blocked s1 => { stub := s1, loc := Loc.serving (LoopSite.checkStep curPC), now := now }
    | Flow.thrown s1 => { stub := s1, loc := Loc.aborted, now := now }

/-- What follows a request loop that ended (`waitForRequest` returned false):
the first-run loop and the loop of a `checkBreakpoint` stop are followed by
`return false`, the loop of a `checkStep` stop by `checkBreakpoint(curPC)`. -/
def leaveLoop (site : LoopSite) (now : SimTime) (s : Stub R P) : Config R P :=
  match site with
  | LoopSite.firstRun => { stub := s, loc := Loc.outside (some false), now := now }
  | LoopSite.checkStep curPC => newIssueBreak env curPC now s
  | LoopSite.checkBreakpoint => { stub := s, loc := Loc.outside (some false), now := now }

/-- The simulator calls `newIssue(curPC)` at virtual time `now`; it can only
do so while its thread is outside `newIssue`. -/
def Config.issue (c : Config R P) (curPC : Nat) (now : SimTime) : Config R P :=
  match c.loc with
  | Loc.outside _ => newIssue env curPC now c.stub
  | _ => c

/-- The debugger's next request arrives while the thread is blocked in a
request loop: one call of `waitForRequest`, then the loop goes on or ends. -/
def Config.request (c : Config R P) (req : GDBRequest) : Config R P :=
  match c.loc with
  | Loc.serving site =>
    match waitForRequest env c.now c.stub req with
    | LoopResult.listen s => { c with stub := s }
    | LoopResult.leave s => leaveLoop env site c.now s
    | LoopResult.waiting s => { c with stub := s, loc := Loc.waiting site }
    | LoopResult.undefined s => { c with stub := s, loc := Loc.undefined }
    | LoopResult.thrown s => { c with stub := s, loc := Loc.aborted }
  | _ => c

/-- The listener thread sees the urgent interrupt byte. -/
def Config.interrupt (c : Config R P) : Config R P :=
  { c with stub := GDBThread_interrupt c.stub }

/-- The callback of the pause event runs. -/
def Config.pause (c : Config R P) : Config R P :=
  { c with stub := pauseMethod c.stub }

/-- The listener thread finds the connection closed. -/
def Config.disconnect (c : Config R P) : Config R P :=
  { c with stub := GDBThread_disconnect env c.stub }

/-- The kernel wakes the thread suspended in the `wait()` of `killApp`:
`killApp` returns true and the loop goes on. -/
def Config.wake (c : Config R P) : Config R P :=
  match c.loc with
  | Loc.waiting site => { c with loc := Loc.serving site }
  | _ => c

/-- What can happen to the stub from outside: the simulator calls `newIssue`,
the debugger's next request arrives, the listener thread sees the interrupt
byte or a closed connection, the kernel runs the callback of the pause event,
the kernel wakes the thread suspended in `killApp`. -/
inductive Input
  | newIssue (curPC : Nat) (now : SimTime)
  | request (req : GDBRequest)
  | interrupt
  | disconnect
  | pause
  | wake

/-- The configuration after an input. -/
def Config.apply (c : Config R P) : Input → Config R P
  | Input.newIssue curPC now => c.issue env curPC now
  | Input.request req => c.request env req
  | Input.interrupt => c.interrupt
  | Input.disconnect => c.disconnect env
  | Input.pause => c.pause
  | Input.wake => c.wake

/-- Whether the thread is outside `newIssue`. -/
def Loc.isOutside : Loc → Bool
  | Loc.outside _ => true
  | _ => false

/-- Whether the thread is blocked in a request loop. -/
def Loc.isServing : Loc → Bool
  | Loc.serving _ => true
  | _ => false

/-- Whether the thread is suspended in the `wait()` of `killApp`. -/
def Loc.isWaiting : Loc → Bool
  | Loc.waiting _ => true
  | _ => false

/-- Whether the call is a `pauseEvent.notify`. -/
def Event.isNotify : Event → Bool
  | Event.notify _ _ => true
  | _ => false

/-- When an input can happen. `newIssue` is called by the simulator while its
thread is outside `newIssue`; a request is read while the thread is blocked in
a request loop; the listener thread runs beside the simulator at any time; the
kernel runs the callback of the pause event only after a `notify` and only
while the simulator thread has yielded to it, which it does outside
`newIssue`; only a suspended thread is woken. -/
def Config.enabled (c : Config R P) : Input → Bool
  | Input.newIssue _ _ => c.loc.isOutside
  | Input.request _ => c.loc.isServing
  | Input.interrupt => true
  | Input.disconnect => true
  | Input.pause => c.loc.isOutside && c.stub.log.any Event.isNotify
  | Input.wake => c.loc.isWaiting

/-- The stub as constructed, before the first `newIssue`. -/
def Config.initial (processorInstance : P) (breakManager : R) (now : SimTime) : Config R P :=
  { stub := Stub.construct processorInstance breakManager, loc := Loc.outside none, now := now }

/-- The configurations reached from `c0` by inputs that can happen. -/
inductive Reachable (c0 : Config R P) : Config R P → Prop
  | start : Reachable c0 c0
  | next (c : Config R P) (i : Input) :
      Reachable c0 c → c.enabled i = true → Reachable c0 (c.apply env i)

/-- The simulator calls `newIssue` once for each element of `calls`, a program
counter and the virtual time of the call, in order. -/
def Config.issues (c : Config R P) (calls : List (Nat × SimTime)) : Config R P :=
  calls.foldl (fun d x => d.issue env x.1 x.2) c

/-- The configuration after the inputs of the list, in order, whether or not
each can happen where it comes. -/
def Config.run (c : Config R P) (inputs : List Input) : Config R P :=
  inputs.foldl (fun d i => d.apply env i) c

/-! ## The kernel's clock and the pause event -/

/-- The value of `sc_time_stamp()` at `t` picoseconds: its `to_double()` is the
count converted to `double`. -/
def Env.stamp (t : Nat) : SimTime :=
  { toDouble := Dbl.ofNat t, toStr := env.timeStr t }

/-- The stub beside the SystemC kernel: the virtual time in picoseconds and
the time of the pending notification of `pauseEvent`, if there is one. -/
structure Kernel (R P : Type) where
  config : Config R P
  time : Nat
  pending : Option Nat

/-- What one call of the stub, made at `time`, does to the pending
notification of `pauseEvent`. Source: `pauseEvent.notify(sc_time(delay, SC_PS))`
asks for a notification at `time + sc_time(delay, SC_PS)`; an event has at most
one pending notification, and of the pending one and the one asked for the
earlier stays (`sc_event::notify`, IEEE 1666). No other call touches the
event. -/
def Kernel.schedule (time : Nat) (pending : Option Nat) : Event → Option Nat
  | Event.notify _ delay =>
    match pending with
    | none => some (time + env.scTime delay)
    | some due => some (min due (time + env.scTime delay))
  | _ => pending

/-- Whether the simulator can reach the time `t` with the pending
notification, if any, not yet delivered: `t` is not after it. -/
def Kernel.notDue (pending : Option Nat) (t : Nat) : Bool :=
  match pending with
  | none => true
  | some due => decide (t ≤ due)

/-- The debugger's next request arrives: the stub serves it (`Config.request`),
the time stands still, and the `notify` calls the handler made are applied to
the pending notification in order. -/
def Kernel.request (k : Kernel R P) (req : GDBRequest) : Kernel R P :=
  { config := k.config.request env req
    time := k.time
    pending :=
      ((k.config.request env req).stub.log.drop k.config.stub.log.length).foldl
        (Kernel.schedule env k.time) k.pending }

/-- The simulator calls `newIssue(curPC)` at `t` picoseconds. It can do so
while its thread is outside `newIssue`, at a time not before the current one
and not after a pending notification of `pauseEvent`, which the kernel delivers
first. -/
def Kernel.issue (k : Kernel R P) (curPC t : Nat) : Kernel R P :=
  if k.config.loc.isOutside && decide (k.time ≤ t) && Kernel.notDue k.pending t then
    { k with config := k.config.issue env curPC (env.stamp t), time := t }
  else k

/-- The kernel delivers the pending notification of `pauseEvent`: the time is
the one it was scheduled for, `pauseMethod` runs, nothing is pending any more.
The simulator thread has yielded to the kernel, so it is outside `newIssue`. -/
def Kernel.fire (k : Kernel R P) : Kernel R P :=
  match k.pending with
  | some due =>
    if k.config.loc.isOutside then { config := k.config.pause, time := due, pending := none }
    else k
  | none => k

/-- The simulator calls `newIssue` once for each element of `calls`, a program
counter and a time in picoseconds, in order. -/
def Kernel.issues (k : Kernel R P) (calls : List (Nat × Nat)) : Kernel R P :=
  calls.foldl (fun d x => d.issue env x.1 x.2) k

/-- The stub as constructed, at time 0, with no notification pending. -/
def Kernel.initial (processorInstance : P) (breakManager : R) : Kernel R P :=
  { config := Config.initial processorInstance breakManager (env.stamp 0)
    time := 0
    pending := none }

/-! ## Sequences of memory and register writes -/

/-- The calls that write the bytes `d[0], d[1], …` in order to the addresses
`a, a+1, …`. -/
def writeEvents (a : Nat) : List Int → List Event
  | [] => []
  | b :: rest => Event.writeMem a b :: writeEvents (a + 1) rest

/-- The processor after the bytes of the list were written in order to
`a, a+1, …`, each write acting on what the one before it left. -/
def procAfterWrites (abi : ABIIf P) (p : P) (a : Nat) : List Int → P
  | [] => p
  | b :: rest => procAfterWrites abi (abi.writeMem p a b).1 (a + 1) rest

/-- How many writes succeed before the first failing one, the bytes of the
list being written in order to `a, a+1, …`. -/
def writesDone (abi : ABIIf P) (p : P) (a : Nat) : List Int → Nat
  | [] => 0
  | b :: rest =>
    if (abi.writeMem p a b).2 then writesDone abi (abi.writeMem p a b).1 (a + 1) rest + 1 else 0

/-- How many writes are attempted: those that succeed and the first failing
one, if there is one. -/
def writesTried (abi : ABIIf P) (p : P) (a : Nat) (d : List Int) : Nat :=
  if writesDone abi p a d < d.length then writesDone abi p a d + 1 else writesDone abi p a d

/-- The calls that write the words `w[0], w[1], …` in order to the registers
`k, k+1, …`. -/
def setRegEvents (k : Nat) : List Nat → List Event
  | [] => []
  | w :: rest => Event.setGDBReg w k :: setRegEvents (k + 1) rest

/-- The processor after the words of the list were written in order to the
registers `k, k+1, …`, each write acting on what the one before it left. -/
def procAfterSets (abi : ABIIf P) (p : P) (k : Nat) : List Nat → P
  | [] => p
  | w :: rest => procAfterSets abi (abi.setGDBReg p w k).1 (k + 1) rest

/-- Whether at least one of those register writes failed. -/
def setsFailed (abi : ABIIf P) (p : P) (k : Nat) : List Nat → Bool
  | [] => false
  | w :: rest => !(abi.setGDBReg p w k).2 || setsFailed abi (abi.setGDBReg p w k).1 (k + 1) rest

/-- The invariant behind the flags of a stopped stub: before the first
`newIssue` nothing was logged and the timeout flag is clear; the timeout flag
is set only while the thread is outside `newIssue` after the first run, and
then `step` is 2 unless the listener reset it to 0 and cleared the registry. -/
def FlagInv (c : Config R P) : Prop :=
  (c.stub.firstRun = true →
    c.stub.log = [] ∧ c.stub.timeout = false ∧ c.loc.isOutside = true)
  ∧ (c.stub.timeout = true →
    c.loc.isOutside = true ∧ c.stub.firstRun = false
    ∧ (c.stub.step = 2
      ∨ (c.stub.step = 0 ∧ ∀ a, env.breakManager.hasBreakpoint c.stub.breakManager a = false)))

end Controller

/-! ## Concrete collaborators -/

/-- Modelled from the spec: the breakpoint registry of §4.2, one slot per
address: `add` fails on an occupied address, `remove` on a free one, `has` and
`get` look the address up, `clear_all` empties the registry. -/
def listRegistry : BreakpointManager (List Breakpoint) where
  addBreakpoint r t a l :=
    if r.any (fun b => b.address == a) then (r, false)
    else (r ++ [{ type := t, address := a, length := l }], true)
  removeBreakpoint r a :=
    if r.any (fun b => b.address == a) then (r.filter (fun b => b.address != a), true)
    else (r, false)
  hasBreakpoint r a := r.any (fun b => b.address == a)
  getBreakPoint r a := r.find? (fun b => b.address == a)
  clearAllBreaks _ := []

/-- A registry that reports every address as occupied and finds no breakpoint
at any: the case the `THROW_EXCEPTION` of `checkBreakpoint` is there for. -/
def staleRegistry : BreakpointManager Unit where
  addBreakpoint r _ _ _ := (r, false)
  removeBreakpoint r _ := (r, false)
  hasBreakpoint _ _ := true
  getBreakPoint _ _ := none
  clearAllBreaks r := r

/-- A processor with a register file, a byte memory and a program counter. -/
structure Proc where
  regs : List Nat
  mem : List Nat
  pc : Nat
  deriving DecidableEq, Repr

/-- An ABI over `Proc`: accesses outside the register file or the memory
throw. -/
def procABI : ABIIf Proc where
  matchEndian _ := true
  nGDBRegs p := p.regs.length
  readGDBReg p i := p.regs[i]?
  setGDBReg p v i := if i < p.regs.length then ({ p with regs := p.regs.set i v }, true) else (p, false)
  readMem p a := p.mem[a]?
  writeMem p a v :=
    if a < p.mem.length then ({ p with mem := p.mem.set a (v % 256).toNat }, true) else (p, false)
  setPC p a := { p with pc := a }

/-- The unassigned scalar members of a response, shown as zero. -/
def unassignedResponse : GDBResponse :=
  { type := RspType.NOT_SUPPORTED_rsp, payload := 0, message := "", data := [], info := [], size := 0 }

/-- A 32-bit instantiation over `listRegistry` and `procABI`. Its `atof` reads
a text of decimal digits. Its `sc_time(d, SC_PS)` is the one of SystemC at the
default resolution of 1 ps, `(int64)(d + 0.5)` (`4602678819172646912` spells
0.5); a time is printed as its count of picoseconds. -/
def demoEnv : Env (List Breakpoint) Proc where
  breakManager := listRegistry
  abi := procABI
  wordBytes := 4
  charSigned := true
  atof t := Dbl.ofNat (t.toNat?.getD 0)
  showDouble _ := ""
  scTime d := Dbl.trunc (d + Dbl.fin false 4602678819172646912)
  timeStr t := toString t ++ " ps"
  unassigned := unassignedResponse

/-- The same instantiation over `staleRegistry`. -/
def staleEnv : Env Unit Proc where
  breakManager := staleRegistry
  abi := procABI
  wordBytes := 4
  charSigned := true
  atof t := Dbl.ofNat (t.toNat?.getD 0)
  showDouble _ := ""
  scTime d := Dbl.trunc (d + Dbl.fin false 4602678819172646912)
  timeStr t := toString t ++ " ps"
  unassigned := unassignedResponse

/-- A processor with four registers and eight bytes of memory. -/
def demoProc : Proc := { regs := [0, 0, 0, 0], mem := [0, 0, 0, 0, 0, 0, 0, 0], pc := 4096 }

/-- The stub as constructed over `demoProc`. -/
def demoStub : Stub (List Breakpoint) Proc := Stub.construct demoProc []

/-- The stub while the simulator runs: the first run is over, breakpoints are
enabled. -/
def runningStub : Stub (List Breakpoint) Proc := { demoStub with firstRun := false }

/-- The virtual time 100 ps. -/
def demoTime : SimTime := { toDouble := 100, toStr := "100 ps" }

/-- The request `kind` with every field zero or empty. -/
def plainRequest (kind : ReqType) : GDBRequest :=
  { type := kind, address := 0, length := 0, reg := 0, value := 0, data := [],
    command := "", extension := "" }

/-- The number a text of decimal digits stands for. -/
def digitsValue (text : List Char) : Nat :=
  text.foldl (fun n c => 10 * n + (c.toNat - 48)) 0

/-- The demo instantiation with an `atof` that reads decimal digits. -/
def monitorEnv : Env (List Breakpoint) Proc :=
  { demoEnv with atof := fun t => Dbl.ofNat (digitsValue t.toList) }

/-- The request `qRcmd,go 1`. -/
def goOneRequest : GDBRequest :=
  { plainRequest ReqType.q_req with command := "Rcmd", extension := "go 1" }

/-- An ABI over `Proc` as `procABI`, except that reading register 1 throws. -/
def lockedABI : ABIIf Proc :=
  { procABI with readGDBReg := fun p i => if i = 1 then none else p.regs[i]? }

/-- A 16-bit instantiation (`sizeof(issueWidth)` is 2) over `lockedABI`. -/
def shortEnv : Env (List Breakpoint) Proc :=
  { demoEnv with abi := lockedABI, wordBytes := 2 }

/-- A running stub over a processor with two 16-bit registers, holding 258
and 772. -/
def shortStub : Stub (List Breakpoint) Proc :=
  { runningStub with processorInstance := { regs := [258, 772], mem := [], pc := 0 } }

/-- The request `qRcmd,go 0`. -/
def goZeroRequest : GDBRequest :=
  { plainRequest ReqType.q_req with command := "Rcmd", extension := "go 0" }

/-- The request `qRcmd,go_abs 0`. -/
def goAbsZeroRequest : GDBRequest :=
  { plainRequest ReqType.q_req with command := "Rcmd", extension := "go_abs 0" }

/-- The demo stub stopped by a step while a timed continue is pending: first
call of `newIssue` at 100 ps, `monitor go 1`, `s` (which schedules the pause
event for 1100 ps), a call at 200 ps that arms the step, a call at 300 ps that
stops with reason `STEP_stop`. -/
def staleTimerStop : Config (List Breakpoint) Proc :=
  (((((Config.initial demoProc [] demoTime).issue monitorEnv 4096 demoTime).request monitorEnv
      goOneRequest).request monitorEnv (plainRequest ReqType.s_req)).issue monitorEnv 4100
        { toDouble := 200, toStr := "200 ps" }).issue monitorEnv 4104
          { toDouble := 300, toStr := "300 ps" }

/-- After `staleTimerStop` the debugger sends `monitor go 0` and `c`. -/
def staleTimerResumed : Config (List Breakpoint) Proc :=
  (staleTimerStop.request monitorEnv goZeroRequest).request monitorEnv
    (plainRequest ReqType.c_req)

/-- The request `qRcmd,go 5`. -/
def goFiveRequest : GDBRequest :=
  { plainRequest ReqType.q_req with command := "Rcmd", extension := "go 5" }

/-- The demo stub beside the kernel, stopped by a step while a notification of
the pause event is pending: first call of `newIssue` at 100 ps, `monitor go 1`,
`s` (which asks for the notification at 1100 ps), a call at 200 ps that arms
the step, a call at 300 ps that stops with reason `STEP_stop`. -/
def staleKernelStop : Kernel (List Breakpoint) Proc :=
  (((((Kernel.initial monitorEnv demoProc []).issue monitorEnv 4096 100).request monitorEnv
      goOneRequest).request monitorEnv (plainRequest ReqType.s_req)).issue monitorEnv 4100
        200).issue monitorEnv 4104 300

/-- After `staleKernelStop` the debugger sends `monitor go 5` and `c`. -/
def staleKernelResumed : Kernel (List Breakpoint) Proc :=
  (staleKernelStop.request monitorEnv goFiveRequest).request monitorEnv
    (plainRequest ReqType.c_req)

/-- The demo instantiation with an `atof` that, as the one of C, reads `nan`
as a NaN and `0.3` as the `double` nearest to 0.3 (`0x3FD3333333333333`), and
reads decimal digits otherwise. -/
def fractionEnv : Env (List Breakpoint) Proc :=
  { demoEnv with
    atof := fun t =>
      if t = "nan" then Dbl.nan
      else if t = "0.3" then Dbl.fin false 4599075939470750515
      else Dbl.ofNat (digitsValue t.toList) }

/-- The request `qRcmd,go_abs 0.3`. -/
def goAbsFractionRequest : GDBRequest :=
  { plainRequest ReqType.q_req with command := "Rcmd", extension := "go_abs 0.3" }

/-- The request `qRcmd,go nan`. -/
def goNanRequest : GDBRequest :=
  { plainRequest ReqType.q_req with command := "Rcmd", extension := "go nan" }

/-! ## Theorems -/

set_option maxRecDepth 100000

/-! ### The arithmetic of `double` -/

theorem Dbl.zero_eq : (0 : Dbl) = Dbl.fin false 0 := by decide

theorem Dbl.thousand_eq : (1000 : Dbl) = Dbl.fin false 4652007308841189376 := by decide

theorem Dbl.lt_def (x y : Dbl) : (x < y) = (Dbl.lt x y = true) := rfl

theorem Dbl.mul_def (x y : Dbl) : x * y = Dbl.mul x y := rfl

theorem Dbl.bitsAux_zero (fuel : Nat) : Dbl.bitsAux fuel 0 = 0 := by
  cases fuel <;> simp [Dbl.bitsAux]

theorem Dbl.bitsAux_pos (fuel n : Nat) (hf : n ≤ fuel) (hn : 0 < n) :
    0 < Dbl.bitsAux fuel n := by
  cases fuel with
  | zero => omega
  | succ f => simp [Dbl.bitsAux, Nat.pos_iff_ne_zero.mp hn]

/-- A number of `n` bits is at least `2^(n-1)`. -/
theorem Dbl.bitsAux_le : ∀ fuel n, n ≤ fuel → 0 < n → 2 ^ (Dbl.bitsAux fuel n - 1) ≤ n := by
  intro fuel
  induction fuel with
  | zero => intro n hf hn; omega
  | succ f ih =>
    intro n hf hn
    have hn0 : n ≠ 0 := Nat.pos_iff_ne_zero.mp hn
    simp only [Dbl.bitsAux, hn0, if_false, Nat.add_sub_cancel]
    by_cases h2 : n / 2 = 0
    · rw [h2, Dbl.bitsAux_zero]; simpa using hn
    · have hpos : 0 < n / 2 := Nat.pos_of_ne_zero h2
      have hle : n / 2 ≤ f := by omega
      have h1 := ih (n / 2) hle hpos
      have hb := Dbl.bitsAux_pos f (n / 2) hle hpos
      have : Dbl.bitsAux f (n / 2) = (Dbl.bitsAux f (n / 2) - 1) + 1 := by omega
      rw [this, pow_succ]
      omega

theorem Dbl.bitLength_le (p : Nat) (hp : 0 < p) : 2 ^ (Dbl.bitLength p - 1) ≤ p :=
  Dbl.bitsAux_le p p (le_refl p) hp

theorem Dbl.roundShift_ge (p d : Nat) : p / 2 ^ d ≤ Dbl.roundShift p d := by
  unfold Dbl.roundShift
  split_ifs <;> omega

/-- A finite value other than zero has a significand above 0 and an exponent
of at least `-1074`. -/
theorem Dbl.decode_pos (k : Nat) (hk : 0 < k) :
    0 < (Dbl.decode k).1 ∧ -1074 ≤ (Dbl.decode k).2 := by
  unfold Dbl.decode
  split_ifs with h
  · refine ⟨?_, le_refl _⟩
    have hlt : k < 2 ^ 52 := by
      by_contra hge
      have := Nat.div_pos (Nat.le_of_not_lt hge) (by norm_num : 0 < 2 ^ 52)
      omega
    show 0 < k % 2 ^ 52
    rw [Nat.mod_eq_of_lt hlt]
    exact hk
  · refine ⟨by positivity, ?_⟩
    have : 0 < k / 2 ^ 52 := Nat.pos_of_ne_zero h
    show (-1074 : Int) ≤ ((k / 2 ^ 52 : Nat) : Int) - 1075
    omega

/-- An exact value of at least `2^(-1074)` does not round to zero. -/
theorem Dbl.round_pos (p : Nat) (e : Int) (hp : 0 < p) (h : 2 ^ (-1074 - e).toNat ≤ p) :
    (0 : Dbl) < Dbl.round false p e := by
  have hp0 : p ≠ 0 := Nat.pos_iff_ne_zero.mp hp
  have hq : 0 < (if max (e + (Dbl.bitLength p : Int) - 53) (-1074) ≤ e
      then p * 2 ^ (e - max (e + (Dbl.bitLength p : Int) - 53) (-1074)).toNat
      else Dbl.roundShift p (max (e + (Dbl.bitLength p : Int) - 53) (-1074) - e).toNat) := by
    split_ifs with ht
    · positivity
    · refine Nat.lt_of_lt_of_le ?_ (Dbl.roundShift_ge p _)
      apply Nat.div_pos _ (by positivity)
      rcases max_choice (e + (Dbl.bitLength p : Int) - 53) (-1074) with hm | hm
      · rw [hm]
        have hb := Dbl.bitLength_le p hp
        refine le_trans (Nat.pow_le_pow_right (by norm_num) ?_) hb
        omega
      · rw [hm]; exact h
  have key : ∀ q t : Nat, 0 < q →
      Dbl.lt (Dbl.fin false 0)
        (if 2047 * 2 ^ 52 ≤ t * 2 ^ 52 + q then Dbl.inf false
          else Dbl.fin false (t * 2 ^ 52 + q))
        = true := by
    intro q t hq0
    split_ifs
    · rfl
    · simp only [Dbl.lt, decide_eq_true_eq]
      omega
  rw [Dbl.zero_eq, Dbl.lt_def]
  simp only [Dbl.round, hp0, if_false]
  exact key _ _ hq

/-- The product of a `double` above 0 with `1e3` is above 0. -/
theorem Dbl.mul_thousand_pos (x : Dbl) (h : (0 : Dbl) < x) : (0 : Dbl) < x * 1000 := by
  rw [Dbl.zero_eq, Dbl.lt_def] at h
  rw [Dbl.mul_def, Dbl.thousand_eq]
  cases x with
  | nan => simp [Dbl.lt] at h
  | inf s =>
    cases s
    · rw [Dbl.zero_eq, Dbl.lt_def]; rfl
    · simp [Dbl.lt] at h
  | fin s k =>
    cases s
    · have hk : 0 < k := by simpa [Dbl.lt] using h
      obtain ⟨hm, he⟩ := Dbl.decode_pos k hk
      have hd : Dbl.decode 4652007308841189376 = (8796093022208000, -43) := by decide
      simp only [Dbl.mul, hd, Bool.xor_false]
      apply Dbl.round_pos
      · positivity
      · have h1 : (-1074 - ((Dbl.decode k).2 + -43)).toNat ≤ 43 := by omega
        calc 2 ^ (-1074 - ((Dbl.decode k).2 + -43)).toNat ≤ 2 ^ 43 :=
              Nat.pow_le_pow_right (by norm_num) h1
          _ ≤ 1 * 8796093022208000 := by norm_num
          _ ≤ (Dbl.decode k).1 * 8796093022208000 := Nat.mul_le_mul_right _ hm
    · simp [Dbl.lt] at h

/-- A `double` above 0 is not below 0. -/
theorem Dbl.not_lt_zero_of_pos (x : Dbl) (h : (0 : Dbl) < x) : ¬ x < 0 := by
  rw [Dbl.zero_eq, Dbl.lt_def] at *
  cases x with
  | nan => simp [Dbl.lt] at h
  | inf s => cases s <;> simp [Dbl.lt] at h ⊢
  | fin s k => cases s <;> simp [Dbl.lt] at h ⊢

theorem Dbl.not_zero_lt_zero : ¬ (0 : Dbl) < 0 := by decide

/-- C1 (the code at the failing input): with `matchEndian()` answering false,
`bytesToValue` applied to the bytes `valueToBytes` produces for the 32-bit
word `1` yields `[16777216]`, the word with its bytes swapped, whatever the
signedness of `char`; and where `char` is signed the word `128` comes back as
`4294967168` even with `matchEndian()` answering true. -/
theorem bytesToValue_valueToBytes_diverges :
    bytesToValue 4 (valueToBytes false false 4 [] 1) = some [16777216]
    ∧ bytesToValue 4 (valueToBytes true false 4 [] 1) = some [16777216]
    ∧ bytesToValue 4 (valueToBytes true true 4 [] 128) = some [4294967168] := by
  decide

section Claims

variable {R P : Type} (env : Env R P)

/-! ### What `setStopped` leaves alone -/

theorem setStoppedEntry_frame (now : SimTime) (s : Stub R P) :
    (setStoppedEntry now s).processorInstance = s.processorInstance
    ∧ (setStoppedEntry now s).breakManager = s.breakManager
    ∧ (setStoppedEntry now s).step = s.step
    ∧ (setStoppedEntry now s).breakReached = s.breakReached
    ∧ (setStoppedEntry now s).isKilled = s.isKilled
    ∧ (setStoppedEntry now s).timeToJump = s.timeToJump
    ∧ (setStoppedEntry now s).timeout = s.timeout
    ∧ (setStoppedEntry now s).isConnected = s.isConnected
    ∧ (setStoppedEntry now s).firstRun = s.firstRun
    ∧ (setStoppedEntry now s).log = s.log := by
  unfold setStoppedEntry
  dsimp only
  split_ifs <;> simp

@[simp] theorem setStoppedEntry_step (now : SimTime) (s : Stub R P) :
    (setStoppedEntry now s).step = s.step := (setStoppedEntry_frame now s).2.2.1

@[simp] theorem setStoppedEntry_breakReached (now : SimTime) (s : Stub R P) :
    (setStoppedEntry now s).breakReached = s.breakReached := (setStoppedEntry_frame now s).2.2.2.1

@[simp] theorem setStoppedEntry_timeout (now : SimTime) (s : Stub R P) :
    (setStoppedEntry now s).timeout = s.timeout := (setStoppedEntry_frame now s).2.2.2.2.2.2.1

@[simp] theorem setStoppedEntry_firstRun (now : SimTime) (s : Stub R P) :
    (setStoppedEntry now s).firstRun = s.firstRun :=
  (setStoppedEntry_frame now s).2.2.2.2.2.2.2.2.1

@[simp] theorem setStoppedEntry_log (now : SimTime) (s : Stub R P) :
    (setStoppedEntry now s).log = s.log := (setStoppedEntry_frame now s).2.2.2.2.2.2.2.2.2

@[simp] theorem setStoppedEntry_breakManager (now : SimTime) (s : Stub R P) :
    (setStoppedEntry now s).breakManager = s.breakManager := (setStoppedEntry_frame now s).2.1

@[simp] theorem setStoppedEntry_breakEnabled (now : SimTime) (s : Stub R P) :
    (setStoppedEntry now s).breakEnabled = false := by
  simp [setStoppedEntry]

/-- A `STEP_stop` ends blocked, one `S` response with `SIGTRAP` sent. -/
theorem setStopped_step (now : SimTime) (s : Stub R P) :
    setStopped env stopType.STEP_stop now s
      = Flow.blocked ((setStoppedEntry now s).sendResponse
          { newResponse env with type := RspType.S_rsp, payload := 5 }) := by
  simp [setStopped, awakeGDB, SIGTRAP]

/-- A `TIMEOUT_stop` ends blocked, an `Output` response and the interrupt
byte sent. -/
theorem setStopped_timeout (now : SimTime) (s : Stub R P) :
    setStopped env stopType.TIMEOUT_stop now s
      = Flow.blocked (((setStoppedEntry now s).sendResponse
          { newResponse env with
            type := RspType.OUTPUT_rsp
            message := "Specified Simulation time completed - Current simulation time: "
              ++ now.toStr ++ " (ps)\n" }).sendInterrupt) := by
  simp [setStopped, awakeGDB]

/-! ### What the request handlers leave alone -/

theorem readMemory_loop_control (req : GDBRequest) (l : List Nat) (acc : Stub R P × List Int) :
    (l.foldl (readMemoryStep env req) acc).1.control = acc.1.control := by
  induction l generalizing acc with
  | nil => rfl
  | cons i l ih =>
    rw [List.foldl_cons, ih]
    unfold readMemoryStep
    dsimp only
    split <;> rfl

theorem readRegisters_loop_control (l : List Nat) (acc : Stub R P × List Int) :
    (l.foldl (readRegistersStep env) acc).1.control = acc.1.control := by
  induction l generalizing acc with
  | nil => rfl
  | cons i l ih =>
    rw [List.foldl_cons, ih]
    unfold readRegistersStep
    dsimp only
    split <;> rfl

theorem writeRegisters_loop_control (l : List Nat) (acc : Stub R P × Bool × Nat) :
    (l.foldl (writeRegistersStep env) acc).1.control = acc.1.control := by
  induction l generalizing acc with
  | nil => rfl
  | cons i l ih =>
    rw [List.foldl_cons, ih]
    rfl

theorem writeMemoryLoop_control (address : Nat) (data : List Int) (bytes : Nat) (s : Stub R P) :
    (writeMemoryLoop env address data bytes s).1.control = s.control := by
  induction data generalizing bytes s with
  | nil => rfl
  | cons d data ih =>
    unfold writeMemoryLoop
    dsimp only
    split
    · rw [ih]; rfl
    · rfl

theorem resumeExecution_frame (now : SimTime) (s : Stub R P) :
    (resumeExecution now s).firstRun = s.firstRun
    ∧ (resumeExecution now s).timeout = s.timeout
    ∧ (resumeExecution now s).step = s.step
    ∧ (resumeExecution now s).breakManager = s.breakManager
    ∧ (resumeExecution now s).breakEnabled = true
    ∧ (resumeExecution now s).timeToGo = s.timeToGo := by
  unfold resumeExecution
  dsimp only
  split_ifs <;> simp [Stub.emit]

theorem rejectNegative_frame (resp : GDBResponse) (s : Stub R P) :
    (rejectNegative resp s).1.firstRun = s.firstRun
    ∧ (rejectNegative resp s).1.timeout = s.timeout := by
  unfold rejectNegative
  split_ifs <;> simp [Stub.sendResponse, Stub.emit]

theorem genericQueryBody_frame (req : GDBRequest) (now : SimTime) (s : Stub R P) :
    (genericQueryBody env req now s).1.firstRun = s.firstRun
    ∧ (genericQueryBody env req now s).1.timeout = s.timeout := by
  unfold genericQueryBody
  dsimp only
  split_ifs <;> simp [rejectNegative_frame, Stub.sendResponse, Stub.emit]

/-- No request handler writes `firstRun` or `timeout`. -/
theorem waitForRequest_frame (now : SimTime) (s : Stub R P) (req : GDBRequest) :
    (waitForRequest env now s req).state.firstRun = s.firstRun
    ∧ (waitForRequest env now s req).state.timeout = s.timeout := by
  have hc : ∀ t : Stub R P, t.control = s.control →
      t.firstRun = s.firstRun ∧ t.timeout = s.timeout := by
    intro t ht
    exact ⟨congrArg Control.firstRun ht, congrArg Control.timeout ht⟩
  unfold waitForRequest
  cases req.type <;> dsimp only
  case QUEST_req => simp [reqStopReason, awakeGDB, LoopResult.state, Stub.sendInterrupt, Stub.emit]
  case c_req =>
    simp only [cont, LoopResult.state, (resumeExecution_frame _ _).1, (resumeExecution_frame _ _).2.1]
    split_ifs <;> simp [Stub.emit]
  case D_req =>
    simp [detach, LoopResult.state, (resumeExecution_frame _ _).1, (resumeExecution_frame _ _).2.1,
      Stub.sendResponse, Stub.emit]
  case g_req =>
    simp only [readRegisters, LoopResult.state, Stub.sendResponse, Stub.emit]
    exact hc _ (readRegisters_loop_control env _ _)
  case G_req =>
    unfold writeRegisters
    split
    · simp [LoopResult.state]
    · simp only [LoopResult.state, Stub.sendResponse, Stub.emit]
      exact hc _ (writeRegisters_loop_control env _ _)
  case k_req => simp [killApp, LoopResult.state, Stub.emit]
  case m_req =>
    simp only [readMemory, LoopResult.state, Stub.sendResponse, Stub.emit]
    exact hc _ (readMemory_loop_control env _ _ _)
  case M_req =>
    simp only [writeMemory, LoopResult.state, Stub.sendResponse, Stub.emit]
    exact hc _ (writeMemoryLoop_control env _ _ _ _)
  case X_req =>
    simp only [writeMemory, LoopResult.state, Stub.sendResponse, Stub.emit]
    exact hc _ (writeMemoryLoop_control env _ _ _ _)
  case p_req =>
    unfold readRegister
    dsimp only
    split_ifs
    · split <;> simp [LoopResult.state, Stub.sendResponse, Stub.emit]
    · simp [LoopResult.state, Stub.sendResponse, Stub.emit]
  case P_req =>
    unfold writeRegister
    dsimp only
    split_ifs <;>
      simp [LoopResult.state, Stub.sendResponse, Stub.emit, (resumeExecution_frame _ _).1,
        (resumeExecution_frame _ _).2.1]
  case q_req =>
    simp [genericQuery, LoopResult.state, Stub.sendResponse, Stub.emit,
      (genericQueryBody_frame env _ _ _).1, (genericQueryBody_frame env _ _ _).2]
  case s_req =>
    simp only [doStep, LoopResult.state, (resumeExecution_frame _ _).1,
      (resumeExecution_frame _ _).2.1]
    split_ifs <;> simp [Stub.emit]
  case z_req => simp [removeBreakpoint, LoopResult.state, Stub.sendResponse, Stub.emit]
  case Z_req =>
    unfold addBreakpoint
    split <;> simp [LoopResult.state, Stub.sendResponse, Stub.emit]
  case INTR_req => simp [recvIntr, LoopResult.state]
  case ERROR_req =>
    simp [errorRequest, LoopResult.state, (resumeExecution_frame _ _).1,
      (resumeExecution_frame _ _).2.1]
  all_goals simp [emptyAction, LoopResult.state, Stub.sendResponse, Stub.emit]

/-- Waking the debugger changes nothing of the controller state. -/
theorem awakeGDB_control (stopReason : stopType) (now : SimTime) (s : Stub R P) :
    (awakeGDB env stopReason now s).state.control = s.control := by
  cases stopReason <;> simp only [awakeGDB]
  · cases hb : s.breakReached with
    | none => rfl
    | some b =>
      dsimp only
      split_ifs <;> rfl
  all_goals rfl

theorem setStopped_state (stopReason : stopType) (now : SimTime) (s : Stub R P) :
    (setStopped env stopReason now s).state
      = (awakeGDB env stopReason now (setStoppedEntry now s)).state := by
  unfold setStopped
  cases awakeGDB env stopReason now (setStoppedEntry now s) <;> rfl

theorem setStopped_frame (stopReason : stopType) (now : SimTime) (s : Stub R P) :
    (setStopped env stopReason now s).state.firstRun = s.firstRun
    ∧ (setStopped env stopReason now s).state.timeout = s.timeout := by
  rw [setStopped_state]
  have h := awakeGDB_control env stopReason now (setStoppedEntry now s)
  exact ⟨(congrArg Control.firstRun h).trans (setStoppedEntry_firstRun now s),
    (congrArg Control.timeout h).trans (setStoppedEntry_timeout now s)⟩

theorem checkStep_firstRun (now : SimTime) (s : Stub R P) :
    (checkStep env now s).state.firstRun = s.firstRun := by
  unfold checkStep
  dsimp only
  split_ifs
  · rfl
  · exact (setStopped_frame env _ _ _).1
  · exact (setStopped_frame env _ _ _).1
  · rfl

theorem checkBreakpoint_frame (pc : Nat) (now : SimTime) (s : Stub R P) :
    (checkBreakpoint env pc now s).state.firstRun = s.firstRun
    ∧ (checkBreakpoint env pc now s).state.timeout = s.timeout := by
  unfold checkBreakpoint
  dsimp only
  split_ifs
  · split
    · exact ⟨rfl, rfl⟩
    · exact setStopped_frame env _ _ _
  · exact ⟨rfl, rfl⟩

theorem newIssueBreak_stub (pc : Nat) (now : SimTime) (s : Stub R P) :
    (newIssueBreak env pc now s).stub = (checkBreakpoint env pc now s).state := by
  unfold newIssueBreak
  cases checkBreakpoint env pc now s <;> rfl

/-- With no breakpoint at `pc`, the rest of `newIssue` returns false and
changes nothing. -/
theorem newIssueBreak_miss (pc : Nat) (now : SimTime) (s : Stub R P)
    (h : env.breakManager.hasBreakpoint s.breakManager pc = false) :
    newIssueBreak env pc now s = { stub := s, loc := Loc.outside (some false), now := now } := by
  simp [newIssueBreak, checkBreakpoint, h]

theorem newIssue_firstRun (pc : Nat) (now : SimTime) (s : Stub R P) :
    (newIssue env pc now s).stub.firstRun = false := by
  unfold newIssue
  split_ifs with h
  · rfl
  · have hs := checkStep_firstRun env now s
    cases hc : checkStep env now s with
    | returned s1 =>
      rw [hc] at hs
      simp only [newIssueBreak_stub, (checkBreakpoint_frame env _ _ _).1]
      simpa [Flow.state, h] using hs
    | blocked s1 =>
      rw [hc] at hs
      simpa [Flow.state, h] using hs
    | thrown s1 =>
      rw [hc] at hs
      simpa [Flow.state, h] using hs

theorem leaveLoop_firstRun (site : LoopSite) (now : SimTime) (s : Stub R P) :
    (leaveLoop env site now s).stub.firstRun = s.firstRun := by
  cases site <;> simp [leaveLoop, newIssueBreak_stub, (checkBreakpoint_frame env _ _ _).1]

theorem request_firstRun (c : Config R P) (req : GDBRequest) :
    (c.request env req).stub.firstRun = c.stub.firstRun := by
  unfold Config.request
  split
  · have h := (waitForRequest_frame env c.now c.stub req).1
    cases hw : waitForRequest env c.now c.stub req <;> rw [hw] at h <;>
      simp [LoopResult.state] at h <;> simp [h, leaveLoop_firstRun]
  · rfl

theorem newIssue_later (pc : Nat) (now : SimTime) (s : Stub R P) (h : s.firstRun = false) :
    newIssue env pc now s
      = match checkStep env now s with
        | Flow.returned s1 => newIssueBreak env pc now s1
        | Flow.blocked s1 =>
          { stub := s1, loc := Loc.serving (LoopSite.checkStep pc), now := now }
        | Flow.thrown s1 => { stub := s1, loc := Loc.aborted, now := now } := by
  simp [newIssue, h]

theorem checkStep_timeout (now : SimTime) (s : Stub R P) :
    (checkStep env now s).state.timeout = false ∨
      (checkStep env now s = Flow.returned { s with step := s.step + 1 } ∧ s.step = 1) ∨
      (checkStep env now s = Flow.returned s ∧ s.step ≠ 1 ∧ s.step ≠ 2) := by
  unfold checkStep
  dsimp only
  split_ifs with h1 h2 h3
  · exact Or.inr (Or.inl ⟨rfl, h1⟩)
  · exact Or.inl (setStopped_frame env _ _ _).2
  · refine Or.inl ?_
    rw [(setStopped_frame env _ _ _).2]
    simpa using h3
  · exact Or.inr (Or.inr ⟨rfl, h1, h2⟩)

theorem newIssueBreak_timeout (pc : Nat) (now : SimTime) (s : Stub R P) :
    (newIssueBreak env pc now s).stub.timeout = s.timeout := by
  rw [newIssueBreak_stub, (checkBreakpoint_frame env _ _ _).2]

theorem newIssueBreak_now (pc : Nat) (now : SimTime) (s : Stub R P) :
    (newIssueBreak env pc now s).now = now := by
  unfold newIssueBreak
  cases checkBreakpoint env pc now s <;> rfl

theorem FlagInv_issue (c : Config R P) (pc : Nat) (now : SimTime) (h : FlagInv env c)
    (hen : c.loc.isOutside = true) : FlagInv env (c.issue env pc now) := by
  obtain ⟨hK, hJ⟩ := h
  have hissue : c.issue env pc now = newIssue env pc now c.stub := by
    unfold Config.issue
    cases hl : c.loc <;> simp [hl, Loc.isOutside] at hen ⊢
  rw [hissue]
  have hfr : (newIssue env pc now c.stub).stub.firstRun = false := newIssue_firstRun env _ _ _
  refine ⟨fun hf => by rw [hfr] at hf; exact absurd hf (by simp), ?_⟩
  intro ht
  cases hfirst : c.stub.firstRun with
  | true =>
    have h0 := (hK hfirst).2.1
    simp [newIssue, hfirst, h0] at ht
  | false =>
    rw [newIssue_later env pc now c.stub hfirst] at ht ⊢
    rcases checkStep_timeout env now c.stub with h1 | ⟨h1, h2⟩ | ⟨h1, h2, h3⟩
    · cases hcs : checkStep env now c.stub with
      | returned s1 =>
        rw [hcs] at h1 ht
        simp only [newIssueBreak_timeout] at ht
        rw [show s1.timeout = false from h1] at ht
        exact absurd ht (by simp)
      | blocked s1 =>
        rw [hcs] at h1 ht
        rw [show s1.timeout = false from h1] at ht
        exact absurd ht (by simp)
      | thrown s1 =>
        rw [hcs] at h1 ht
        rw [show s1.timeout = false from h1] at ht
        exact absurd ht (by simp)
    · rw [h1] at ht
      simp only [newIssueBreak_timeout] at ht
      obtain ⟨_, _, hs⟩ := hJ ht
      rcases hs with hs | ⟨hs, _⟩ <;> omega
    · rw [h1] at ht ⊢
      simp only [newIssueBreak_timeout] at ht
      obtain ⟨_, _, hs⟩ := hJ ht
      rcases hs with hs | ⟨hs, hreg⟩
      · exact absurd hs h3
      · dsimp only
        rw [newIssueBreak_miss env pc now c.stub (hreg pc)]
        exact ⟨rfl, hfirst, Or.inr ⟨hs, hreg⟩⟩

theorem leaveLoop_timeout (site : LoopSite) (now : SimTime) (s : Stub R P) :
    (leaveLoop env site now s).stub.timeout = s.timeout := by
  cases site <;> simp [leaveLoop, newIssueBreak_timeout]

theorem request_timeout (c : Config R P) (req : GDBRequest) :
    (c.request env req).stub.timeout = c.stub.timeout := by
  unfold Config.request
  split
  · have h := (waitForRequest_frame env c.now c.stub req).2
    cases hw : waitForRequest env c.now c.stub req <;> rw [hw] at h <;>
      simp [LoopResult.state] at h <;> simp [h, leaveLoop_timeout]
  · rfl

theorem FlagInv_request (c : Config R P) (req : GDBRequest) (h : FlagInv env c)
    (hen : c.loc.isServing = true) : FlagInv env (c.request env req) := by
  obtain ⟨hK, hJ⟩ := h
  have hnot : c.loc.isOutside = false := by
    cases hl : c.loc <;> simp [hl, Loc.isOutside, Loc.isServing] at hen ⊢
  have ht : c.stub.timeout = false := by
    cases htt : c.stub.timeout with
    | false => rfl
    | true => rw [(hJ htt).1] at hnot; exact absurd hnot (by simp)
  have hf : c.stub.firstRun = false := by
    cases hff : c.stub.firstRun with
    | false => rfl
    | true => rw [(hK hff).2.2] at hnot; exact absurd hnot (by simp)
  refine ⟨fun h1 => ?_, fun h1 => ?_⟩
  · rw [request_firstRun, hf] at h1
    exact absurd h1 (by simp)
  · rw [request_timeout, ht] at h1
    exact absurd h1 (by simp)

/-- Every input that can happen keeps the invariant, provided a cleared
registry has no breakpoint. -/
theorem FlagInv_apply
    (hclear : ∀ r a, env.breakManager.hasBreakpoint (env.breakManager.clearAllBreaks r) a = false)
    (c : Config R P) (i : Input) (h : FlagInv env c) (hen : c.enabled i = true) :
    FlagInv env (c.apply env i) := by
  cases i with
  | newIssue pc now => exact FlagInv_issue env c pc now h hen
  | request req => exact FlagInv_request env c req h hen
  | interrupt =>
    obtain ⟨hK, hJ⟩ := h
    refine ⟨fun h1 => hK h1, fun h1 => ?_⟩
    obtain ⟨ho, hf, _⟩ := hJ h1
    exact ⟨ho, hf, Or.inl rfl⟩
  | disconnect =>
    obtain ⟨hK, hJ⟩ := h
    refine ⟨fun h1 => hK h1, fun h1 => ?_⟩
    obtain ⟨ho, hf, _⟩ := hJ h1
    exact ⟨ho, hf, Or.inr ⟨rfl, fun a => hclear _ a⟩⟩
  | pause =>
    obtain ⟨hK, hJ⟩ := h
    simp only [Config.enabled, Bool.and_eq_true] at hen
    have hf : c.stub.firstRun = false := by
      cases hff : c.stub.firstRun with
      | false => rfl
      | true =>
        have hlog := (hK hff).1
        rw [hlog] at hen
        simp at hen
    refine ⟨fun h1 => ?_, fun _ => ⟨hen.1, hf, Or.inl rfl⟩⟩
    have : c.stub.firstRun = true := h1
    rw [hf] at this
    exact absurd this (by simp)
  | wake =>
    obtain ⟨hK, hJ⟩ := h
    have hwake : (c.wake).stub = c.stub := by
      unfold Config.wake
      split <;> rfl
    have hout : ∀ b, c.loc.isOutside = b → b = true → (c.wake).loc.isOutside = true := by
      intro b hb hb1
      subst hb1
      unfold Config.wake
      split
      · rename_i site hl
        rw [hl] at hb
        simp [Loc.isOutside] at hb
      · exact hb
    refine ⟨fun h1 => ?_, fun h1 => ?_⟩
    · simp only [Config.apply, hwake] at h1 ⊢
      exact ⟨(hK h1).1, (hK h1).2.1, hout _ rfl (hK h1).2.2⟩
    · simp only [Config.apply, hwake] at h1 ⊢
      exact ⟨hout _ rfl (hJ h1).1, (hJ h1).2.1, (hJ h1).2.2⟩

theorem reachable_FlagInv
    (hclear : ∀ r a, env.breakManager.hasBreakpoint (env.breakManager.clearAllBreaks r) a = false)
    (processorInstance : P) (breakManager : R) (now : SimTime) (c : Config R P)
    (hreach : Reachable env (Config.initial processorInstance breakManager now) c) :
    FlagInv env c := by
  induction hreach with
  | start =>
    exact ⟨fun _ => ⟨rfl, rfl, rfl⟩, fun h => by simp [Config.initial, Stub.construct] at h⟩
  | next c i _ hen ih => exact FlagInv_apply env hclear c i ih hen

/-- In every configuration reached from the constructed stub, a thread blocked
in a request loop finds `firstRun` and the timeout flag clear. -/
theorem stopped_flags_clear
    (hclear : ∀ r a, env.breakManager.hasBreakpoint (env.breakManager.clearAllBreaks r) a = false)
    (processorInstance : P) (breakManager : R) (now : SimTime) (c : Config R P)
    (hreach : Reachable env (Config.initial processorInstance breakManager now) c)
    (hserving : c.loc.isServing = true) :
    c.stub.firstRun = false ∧ c.stub.timeout = false := by
  obtain ⟨hK, hJ⟩ := reachable_FlagInv env hclear processorInstance breakManager now c hreach
  have hnot : c.loc.isOutside = false := by
    cases hl : c.loc <;> simp [hl, Loc.isOutside, Loc.isServing] at hserving ⊢
  constructor
  · cases hff : c.stub.firstRun with
    | false => rfl
    | true => rw [(hK hff).2.2] at hnot; exact absurd hnot (by simp)
  · cases htt : c.stub.timeout with
    | false => rfl
    | true => rw [(hJ htt).1] at hnot; exact absurd hnot (by simp)

/-- C3: `checkStep` with `step` 0 changes nothing and does not stop; with
`step` 1 it sets `step` to 2 and does not stop; with `step` 2 it sets `step`
to 0 and stops (the thread ends blocked in the request loop of `setStopped`),
with reason `TIMEOUT_stop` and the timeout flag cleared if the flag was set,
with reason `STEP_stop` otherwise. -/
theorem checkStep_phases (now : SimTime) (s : Stub R P) :
    (s.step = 0 → checkStep env now s = Flow.returned s)
    ∧ (s.step = 1 → checkStep env now s = Flow.returned { s with step := 2 })
    ∧ (s.step = 2 → s.timeout = true →
        checkStep env now s
          = setStopped env stopType.TIMEOUT_stop now { s with step := 0, timeout := false }
        ∧ ∃ s1, checkStep env now s = Flow.blocked s1 ∧ s1.step = 0 ∧ s1.timeout = false)
    ∧ (s.step = 2 → s.timeout = false →
        checkStep env now s = setStopped env stopType.STEP_stop now { s with step := 0 }
        ∧ ∃ s1, checkStep env now s = Flow.blocked s1 ∧ s1.step = 0 ∧ s1.timeout = false) := by
  refine ⟨?_, ?_, ?_, ?_⟩
  · intro h
    simp [checkStep, h]
  · intro h
    simp [checkStep, h]
  · intro h ht
    refine ⟨by simp [checkStep, h, ht], ?_⟩
    simp [checkStep, h, ht, setStopped_timeout, Stub.sendResponse, Stub.sendInterrupt, Stub.emit]
  · intro h ht
    refine ⟨by simp [checkStep, h, ht], ?_⟩
    simp [checkStep, h, ht, setStopped_step, Stub.sendResponse, Stub.emit]

/-- C3 at concrete stubs: a running stub with `step` 0 is left as it is, one
with `step` 2 stops. -/
theorem checkStep_phases_witness :
    checkStep demoEnv demoTime runningStub = Flow.returned runningStub
    ∧ ∃ s1, checkStep demoEnv demoTime { runningStub with step := 2 } = Flow.blocked s1
        ∧ s1.step = 0 ∧ s1.timeout = false :=
  ⟨(checkStep_phases demoEnv demoTime runningStub).1 rfl,
    ((checkStep_phases demoEnv demoTime { runningStub with step := 2 }).2.2.2 rfl rfl).2⟩

/-- Waking the debugger for a breakpoint that was recorded sends one
response, an `S` or a `T` one with `SIGTRAP`. -/
theorem awakeGDB_break_sends (now : SimTime) (s : Stub R P) (b : Breakpoint)
    (h : s.breakReached = some b) :
    ∃ r, awakeGDB env stopType.BREAK_stop now s = Flow.returned (s.sendResponse r)
      ∧ r.payload = 5 ∧ (r.type = RspType.S_rsp ∨ r.type = RspType.T_rsp) := by
  simp only [awakeGDB, h]
  split_ifs
  · exact ⟨_, rfl, rfl, Or.inl rfl⟩
  · exact ⟨_, rfl, rfl, Or.inr rfl⟩

/-- C4: `checkBreakpoint(pc)` with `breakEnabled` true and the registry having
`pc`: if the lookup returns a breakpoint `b`, `breakReached` becomes `b` and
the stub stops with reason `BREAK_stop` (one response sent, the thread
blocked in the request loop); if the lookup returns nothing, the exception is
thrown and nothing is sent. With `breakEnabled` false or the registry not
having `pc`, the stub is unchanged and nothing is sent. -/
theorem checkBreakpoint_cases (pc : Nat) (now : SimTime) (s : Stub R P) :
    (s.breakEnabled = true → env.breakManager.hasBreakpoint s.breakManager pc = true →
      ∀ b, env.breakManager.getBreakPoint s.breakManager pc = some b →
        checkBreakpoint env pc now s
          = setStopped env stopType.BREAK_stop now { s with breakReached := some b }
        ∧ ∃ s1 r, checkBreakpoint env pc now s = Flow.blocked s1
            ∧ s1.breakReached = some b
            ∧ s1.log = s.log ++ [Event.sendResponse r]
            ∧ r.payload = 5 ∧ (r.type = RspType.S_rsp ∨ r.type = RspType.T_rsp))
    ∧ (s.breakEnabled = true → env.breakManager.hasBreakpoint s.breakManager pc = true →
        env.breakManager.getBreakPoint s.breakManager pc = none →
        checkBreakpoint env pc now s = Flow.thrown { s with breakReached := none })
    ∧ (s.breakEnabled = false ∨ env.breakManager.hasBreakpoint s.breakManager pc = false →
        checkBreakpoint env pc now s = Flow.returned s) := by
  refine ⟨?_, ?_, ?_⟩
  · intro he hh b hb
    have hcall : checkBreakpoint env pc now s
        = setStopped env stopType.BREAK_stop now { s with breakReached := some b } := by
      simp [checkBreakpoint, he, hh, hb]
    refine ⟨hcall, ?_⟩
    obtain ⟨r, hr, hp, ht⟩ := awakeGDB_break_sends env now
      (setStoppedEntry now { s with breakReached := some b }) b (by simp)
    refine ⟨(setStoppedEntry now { s with breakReached := some b }).sendResponse r, r,
      ?_, ?_, ?_, hp, ht⟩
    · rw [hcall, setStopped, hr]
    · simp [Stub.sendResponse, Stub.emit]
    · simp [Stub.sendResponse, Stub.emit]
  · intro he hh hb
    simp [checkBreakpoint, he, hh, hb]
  · intro h
    rcases h with h | h <;> simp [checkBreakpoint, h]

/-- C4 at concrete stubs: a registry holding a code breakpoint at `4096` makes
the stub stop there; a registry that reports the address and finds nothing
makes `checkBreakpoint` throw; a disabled stub is left as it is. -/
theorem checkBreakpoint_cases_witness :
    (∃ s1 r, checkBreakpoint demoEnv 4096 demoTime
          { runningStub with breakManager := [{ type := BreakType.HW_break, address := 4096, length := 4 }] }
          = Flow.blocked s1
        ∧ s1.breakReached = some { type := BreakType.HW_break, address := 4096, length := 4 }
        ∧ s1.log = [Event.sendResponse r]
        ∧ r.payload = 5 ∧ (r.type = RspType.S_rsp ∨ r.type = RspType.T_rsp))
    ∧ checkBreakpoint staleEnv 4096 demoTime
          { (Stub.construct demoProc () : Stub Unit Proc) with firstRun := false }
        = Flow.thrown { (Stub.construct demoProc () : Stub Unit Proc) with firstRun := false }
    ∧ checkBreakpoint demoEnv 4096 demoTime { runningStub with breakEnabled := false }
        = Flow.returned { runningStub with breakEnabled := false } :=
  ⟨((checkBreakpoint_cases demoEnv 4096 demoTime
        { runningStub with
          breakManager := [{ type := BreakType.HW_break, address := 4096, length := 4 }] }).1
      rfl rfl _ rfl).2,
    (checkBreakpoint_cases staleEnv 4096 demoTime
        { (Stub.construct demoProc () : Stub Unit Proc) with firstRun := false }).2.1 rfl rfl rfl,
    (checkBreakpoint_cases demoEnv 4096 demoTime { runningStub with breakEnabled := false }).2.2
      (Or.inl rfl)⟩

/-- C8: waking the debugger for a `BREAK_stop` on the recorded breakpoint `b`
appends exactly one response to what was sent and changes nothing else: for a
code breakpoint (`HW_break` or `MEM_break`) an `S` response with signal 5; for
a write, read or access watchpoint a `T` response with signal 5 whose only
info pair has the key `watch`, `rwatch` or `awatch` and the address of `b` as
its value. -/
theorem awakeGDB_break (now : SimTime) (s : Stub R P) (b : Breakpoint)
    (h : s.breakReached = some b) :
    (b.type = BreakType.HW_break ∨ b.type = BreakType.MEM_break →
      awakeGDB env stopType.BREAK_stop now s
        = Flow.returned { s with log := s.log ++
            [Event.sendResponse { newResponse env with type := RspType.S_rsp, payload := 5 }] })
    ∧ (b.type = BreakType.WRITE_break →
      awakeGDB env stopType.BREAK_stop now s
        = Flow.returned { s with log := s.log ++
            [Event.sendResponse { newResponse env with
              type := RspType.T_rsp, payload := 5, size := env.wordBytes,
              info := [("watch", b.address)] }] })
    ∧ (b.type = BreakType.READ_break →
      awakeGDB env stopType.BREAK_stop now s
        = Flow.returned { s with log := s.log ++
            [Event.sendResponse { newResponse env with
              type := RspType.T_rsp, payload := 5, size := env.wordBytes,
              info := [("rwatch", b.address)] }] })
    ∧ (b.type = BreakType.ACCESS_break →
      awakeGDB env stopType.BREAK_stop now s
        = Flow.returned { s with log := s.log ++
            [Event.sendResponse { newResponse env with
              type := RspType.T_rsp, payload := 5, size := env.wordBytes,
              info := [("awatch", b.address)] }] }) := by
  refine ⟨?_, ?_, ?_, ?_⟩
  · intro hb
    simp [awakeGDB, h, hb, Stub.sendResponse, Stub.emit, SIGTRAP]
  · intro hb
    simp [awakeGDB, h, hb, Stub.sendResponse, Stub.emit, SIGTRAP, watchKey, newResponse]
  · intro hb
    simp [awakeGDB, h, hb, Stub.sendResponse, Stub.emit, SIGTRAP, watchKey, newResponse]
  · intro hb
    simp [awakeGDB, h, hb, Stub.sendResponse, Stub.emit, SIGTRAP, watchKey, newResponse]

/-- C8 at a concrete stub: a write watchpoint at `8192` is reported as
`T05 watch:8192`. -/
theorem awakeGDB_break_witness :
    awakeGDB demoEnv stopType.BREAK_stop demoTime
        { runningStub with
          breakReached := some { type := BreakType.WRITE_break, address := 8192, length := 4 } }
      = Flow.returned
          { runningStub with
            breakReached := some { type := BreakType.WRITE_break, address := 8192, length := 4 }
            log := [Event.sendResponse { newResponse demoEnv with
              type := RspType.T_rsp, payload := 5, size := 4, info := [("watch", 8192)] }] } :=
  (awakeGDB_break demoEnv demoTime
    { runningStub with
      breakReached := some { type := BreakType.WRITE_break, address := 8192, length := 4 } }
    { type := BreakType.WRITE_break, address := 8192, length := 4 } rfl).2.1 rfl

/-- C9: waking the debugger for a reason other than `BREAK_stop` changes
nothing but what was sent, and sends exactly: for `STEP_stop` one `S` response
with signal 5; for `SEG_stop` one `S` response with signal 4; for
`TIMEOUT_stop` and for `PAUSED_stop` one `Output` response followed by the
interrupt byte; for `UNK_stop` the interrupt byte alone. -/
theorem awakeGDB_other (now : SimTime) (s : Stub R P) :
    awakeGDB env stopType.STEP_stop now s
        = Flow.returned { s with log := s.log ++
            [Event.sendResponse { newResponse env with type := RspType.S_rsp, payload := 5 }] }
    ∧ awakeGDB env stopType.SEG_stop now s
        = Flow.returned { s with log := s.log ++
            [Event.sendResponse { newResponse env with type := RspType.S_rsp, payload := 4 }] }
    ∧ awakeGDB env stopType.TIMEOUT_stop now s
        = Flow.returned { s with log := s.log ++
            [Event.sendResponse { newResponse env with
                type := RspType.OUTPUT_rsp
                message := "Specified Simulation time completed - Current simulation time: "
                  ++ now.toStr ++ " (ps)\n" },
              Event.sendInterrupt] }
    ∧ awakeGDB env stopType.PAUSED_stop now s
        = Flow.returned { s with log := s.log ++
            [Event.sendResponse { newResponse env with
                type := RspType.OUTPUT_rsp
                message := "Simulation Paused - Current simulation time: "
                  ++ now.toStr ++ " (ps)\n" },
              Event.sendInterrupt] }
    ∧ awakeGDB env stopType.UNK_stop now s
        = Flow.returned { s with log := s.log ++ [Event.sendInterrupt] } := by
  refine ⟨?_, ?_, ?_, ?_, ?_⟩ <;>
    simp [awakeGDB, Stub.sendResponse, Stub.sendInterrupt, Stub.emit, SIGTRAP, SIGILL]

/-- C10: the stub `setStopped` wakes the debugger in (`setStoppedEntry`), and
the stub it leaves behind whatever the reason. The arithmetic is the one of
`double`, as in the source: if `timeToGo` was above 0 it is
`max(0, old timeToGo − (now − old simStartTime))`, that is the old `timeToGo`
less the difference of the current time and `simStartTime`, each subtraction
a `double` one, replaced by 0 when it is below 0, and `simStartTime` is the
current time; if `timeToGo` was not above 0 (it was 0) both are unchanged;
`breakEnabled` is false in both cases. -/
theorem setStopped_accounting (stopReason : stopType) (now : SimTime) (s : Stub R P) :
    (0 < s.timeToGo →
      (setStoppedEntry now s).timeToGo
          = (if s.timeToGo - (now.toDouble - s.simStartTime) < 0 then 0
              else s.timeToGo - (now.toDouble - s.simStartTime))
        ∧ (setStoppedEntry now s).simStartTime = now.toDouble)
    ∧ (¬ 0 < s.timeToGo →
      (setStoppedEntry now s).timeToGo = s.timeToGo
        ∧ (setStoppedEntry now s).simStartTime = s.simStartTime)
    ∧ (setStoppedEntry now s).breakEnabled = false
    ∧ (setStopped env stopReason now s).state.timeToGo = (setStoppedEntry now s).timeToGo
    ∧ (setStopped env stopReason now s).state.simStartTime = (setStoppedEntry now s).simStartTime
    ∧ (setStopped env stopReason now s).state.breakEnabled = false := by
  have hawake : ∀ (r : stopType) (t : Stub R P),
      (awakeGDB env r now t).state.timeToGo = t.timeToGo
      ∧ (awakeGDB env r now t).state.simStartTime = t.simStartTime
      ∧ (awakeGDB env r now t).state.breakEnabled = t.breakEnabled := by
    intro r t
    cases r <;> simp only [awakeGDB]
    · cases hb : t.breakReached with
      | none => simp [Flow.state]
      | some b =>
        dsimp only
        split_ifs <;> simp [Flow.state, Stub.sendResponse, Stub.emit]
    all_goals simp [Flow.state, Stub.sendResponse, Stub.sendInterrupt, Stub.emit]
  have hstate : (setStopped env stopReason now s).state
      = (awakeGDB env stopReason now (setStoppedEntry now s)).state := by
    unfold setStopped
    cases awakeGDB env stopReason now (setStoppedEntry now s) <;> rfl
  refine ⟨?_, ?_, by simp, ?_, ?_, ?_⟩
  · intro hpos
    constructor
    · simp only [setStoppedEntry, gt_iff_lt, hpos, if_true]
      by_cases hneg : s.timeToGo - (now.toDouble - s.simStartTime) < 0
      · simp [hneg]
      · simp [hneg]
    · simp only [setStoppedEntry, gt_iff_lt, hpos, if_true]
  · intro hzero
    simp [setStoppedEntry, hzero]
  · rw [hstate]; exact (hawake _ _).1
  · rw [hstate]; exact (hawake _ _).2.1
  · rw [hstate, (hawake _ _).2.2]; simp

/-- C5: on the first `newIssue` the stub clears `firstRun`, sets
`breakEnabled` to false and blocks in the request loop with nothing sent and
neither `checkStep` nor `checkBreakpoint` applied; in that loop a request that
keeps listening leaves the thread there and a request that resumes (`c` and `s`
do) makes `newIssue` return false at once. On a later call `newIssue` applies
`checkStep` and then, when `checkStep` returns (at once or after the loop of
its stop ended), `checkBreakpoint(curPC)`. Once false, `firstRun` stays false
under every call, request, listener write and timer callback, and every
return of `newIssue` carries false. -/
theorem newIssue_first_and_later (pc : Nat) (now : SimTime) (s : Stub R P) :
    (s.firstRun = true →
      newIssue env pc now s
        = { stub := { s with firstRun := false, breakEnabled := false }
            loc := Loc.serving LoopSite.firstRun
            now := now })
    ∧ (∀ (c : Config R P) (req : GDBRequest), c.loc = Loc.serving LoopSite.firstRun →
        (∀ s1, waitForRequest env c.now c.stub req = LoopResult.listen s1 →
          c.request env req = { c with stub := s1 })
        ∧ (∀ s1, waitForRequest env c.now c.stub req = LoopResult.leave s1 →
          c.request env req = { stub := s1, loc := Loc.outside (some false), now := c.now })
        ∧ (req.type = ReqType.c_req ∨ req.type = ReqType.s_req →
          (c.request env req).loc = Loc.outside (some false)))
    ∧ (s.firstRun = false →
        (∀ s1, checkStep env now s = Flow.returned s1 →
          newIssue env pc now s = newIssueBreak env pc now s1
          ∧ (newIssue env pc now s).stub = (checkBreakpoint env pc now s1).state)
        ∧ (∀ s1, checkStep env now s = Flow.blocked s1 →
          newIssue env pc now s
            = { stub := s1, loc := Loc.serving (LoopSite.checkStep pc), now := now }
          ∧ ∀ s2, (leaveLoop env (LoopSite.checkStep pc) now s2).stub
              = (checkBreakpoint env pc now s2).state))
    ∧ (∀ (c : Config R P) (pc1 : Nat) (now1 : SimTime) (req : GDBRequest),
        c.stub.firstRun = false →
          (c.issue env pc1 now1).stub.firstRun = false
          ∧ (c.request env req).stub.firstRun = false
          ∧ c.interrupt.stub.firstRun = false
          ∧ c.pause.stub.firstRun = false
          ∧ (c.disconnect env).stub.firstRun = false)
    ∧ (∀ (c : Config R P) (pc1 : Nat) (now1 : SimTime) (r0 r : Option Bool),
        c.loc = Loc.outside r0 → (c.issue env pc1 now1).loc = Loc.outside r → r = some false)
    ∧ (∀ (c : Config R P) (site : LoopSite) (req : GDBRequest) (r : Option Bool),
        c.loc = Loc.serving site → (c.request env req).loc = Loc.outside r →
          r = some false) := by
  refine ⟨?_, ?_, ?_, ?_, ?_, ?_⟩
  · intro h
    simp [newIssue, h]
  · intro c req hloc
    refine ⟨?_, ?_, ?_⟩
    · intro s1 h1
      simp [Config.request, hloc, h1]
    · intro s1 h1
      simp [Config.request, hloc, h1, leaveLoop]
    · intro hreq
      rcases hreq with hreq | hreq <;>
        simp [Config.request, hloc, waitForRequest, hreq, cont, doStep, leaveLoop]
  · intro h
    refine ⟨?_, ?_⟩
    · intro s1 h1
      have : newIssue env pc now s = newIssueBreak env pc now s1 := by
        simp [newIssue, h, h1]
      exact ⟨this, by rw [this, newIssueBreak_stub]⟩
    · intro s1 h1
      refine ⟨by simp [newIssue, h, h1], ?_⟩
      intro s2
      simp [leaveLoop, newIssueBreak_stub]
  · intro c pc1 now1 req h
    refine ⟨?_, ?_, ?_, ?_, ?_⟩
    · unfold Config.issue
      split
      · exact newIssue_firstRun env _ _ _
      · exact h
    · rw [request_firstRun, h]
    · simpa [Config.interrupt, GDBThread_interrupt] using h
    · simpa [Config.pause, pauseMethod] using h
    · simpa [Config.disconnect, GDBThread_disconnect] using h
  · intro c pc1 now1 r0 r hloc hr
    simp only [Config.issue, hloc, newIssue] at hr
    split_ifs at hr
    split at hr
    · simp only [newIssueBreak] at hr
      split at hr <;> simp at hr
      exact hr.symm
    · simp at hr
    · simp at hr
  · intro c site req r hloc hr
    simp only [Config.request, hloc] at hr
    split at hr
    · simp [hloc] at hr
    · cases site
      · simp [leaveLoop] at hr
        exact hr.symm
      · simp only [leaveLoop, newIssueBreak] at hr
        split at hr <;> simp at hr
        exact hr.symm
      · simp [leaveLoop] at hr
        exact hr.symm
    · simp at hr
    · simp at hr
    · simp at hr

/-- C5 at the constructed stub: the first `newIssue` blocks in the first-run
loop with `firstRun` and `breakEnabled` false and nothing sent. -/
theorem newIssue_first_and_later_witness :
    newIssue demoEnv 4096 demoTime demoStub
      = { stub := { demoStub with firstRun := false, breakEnabled := false }
          loc := Loc.serving LoopSite.firstRun
          now := demoTime } :=
  (newIssue_first_and_later demoEnv 4096 demoTime demoStub).1 rfl

/-- C6 (as stated, refuted): the simulator runs with `step` 0 and the timeout
flag clear, the listener sees the interrupt byte, `newIssue(4096)` follows.
The stub stops, and what it sends is one `S` response with signal 5; the
interrupt byte is not sent back. -/
theorem interrupt_stop_counterexample :
    (({ stub := runningStub, loc := Loc.outside (some false), now := demoTime }
        : Config (List Breakpoint) Proc).interrupt.issue demoEnv 4096 demoTime).loc
      = Loc.serving (LoopSite.checkStep 4096)
    ∧ (({ stub := runningStub, loc := Loc.outside (some false), now := demoTime }
        : Config (List Breakpoint) Proc).interrupt.issue demoEnv 4096 demoTime).stub.log
      = [Event.sendResponse { newResponse demoEnv with type := RspType.S_rsp, payload := 5 }]
    ∧ Event.sendInterrupt ∉
      (({ stub := runningStub, loc := Loc.outside (some false), now := demoTime }
        : Config (List Breakpoint) Proc).interrupt.issue demoEnv 4096 demoTime).stub.log := by
  refine ⟨?_, ?_, ?_⟩ <;>
    simp [Config.interrupt, Config.issue, GDBThread_interrupt, newIssue, runningStub, demoStub,
      Stub.construct, checkStep, setStopped_step, Stub.sendResponse, Stub.emit]

/-- C6 (amended): when the listener sees the interrupt byte while the
simulator runs (first run over, timeout flag clear) it sets `step` to 2, and
the next `newIssue` stops with reason `STEP_stop`: `step` is back to 0,
exactly one `S` response with signal 5 is sent and the thread is blocked in
the request loop. -/
theorem interrupt_stop_is_step (c : Config R P) (r : Option Bool) (pc : Nat) (now : SimTime)
    (hloc : c.loc = Loc.outside r) (hfirst : c.stub.firstRun = false)
    (htimeout : c.stub.timeout = false) :
    c.interrupt.stub.step = 2
    ∧ checkStep env now c.interrupt.stub
        = setStopped env stopType.STEP_stop now { c.stub with step := 0 }
    ∧ c.interrupt.issue env pc now
        = { stub := { setStoppedEntry now { c.stub with step := 0 } with
              log := c.stub.log ++
                [Event.sendResponse { newResponse env with type := RspType.S_rsp, payload := 5 }] }
            loc := Loc.serving (LoopSite.checkStep pc)
            now := now }
    ∧ (c.interrupt.issue env pc now).stub.step = 0 := by
  have hcs : checkStep env now c.interrupt.stub
      = setStopped env stopType.STEP_stop now { c.stub with step := 0 } := by
    simp [Config.interrupt, GDBThread_interrupt, checkStep, htimeout]
  have hissue : c.interrupt.issue env pc now
      = { stub := { setStoppedEntry now { c.stub with step := 0 } with
            log := c.stub.log ++
              [Event.sendResponse { newResponse env with type := RspType.S_rsp, payload := 5 }] }
          loc := Loc.serving (LoopSite.checkStep pc)
          now := now } := by
    have hl : c.interrupt.loc = Loc.outside r := hloc
    have hf : c.interrupt.stub.firstRun = false := hfirst
    simp only [Config.issue, hl, newIssue, hf, hcs, setStopped_step]
    simp [Stub.sendResponse, Stub.emit]
  refine ⟨rfl, hcs, hissue, ?_⟩
  rw [hissue]
  simp

/-- C6 (amended) at the running demo stub. -/
theorem interrupt_stop_is_step_witness :
    (({ stub := runningStub, loc := Loc.outside (some false), now := demoTime }
        : Config (List Breakpoint) Proc).interrupt.issue demoEnv 4096 demoTime).stub.step = 0 :=
  (interrupt_stop_is_step demoEnv
    { stub := runningStub, loc := Loc.outside (some false), now := demoTime }
    (some false) 4096 demoTime rfl rfl rfl).2.2.2

/-- C7 (as stated, refuted): the constructed stub blocks in the loop of its
first `newIssue`; on a `?` request it sends the interrupt byte and no
response at all. -/
theorem quest_reply_counterexample :
    (newIssue demoEnv 4096 demoTime demoStub).loc = Loc.serving LoopSite.firstRun
    ∧ ((newIssue demoEnv 4096 demoTime demoStub).request demoEnv
        (plainRequest ReqType.QUEST_req)).stub.log = [Event.sendInterrupt]
    ∧ ∀ r, Event.sendResponse r ∉
      ((newIssue demoEnv 4096 demoTime demoStub).request demoEnv
        (plainRequest ReqType.QUEST_req)).stub.log := by
  refine ⟨?_, ?_, ?_⟩ <;>
    simp [newIssue, demoStub, Stub.construct, Config.request, waitForRequest, plainRequest,
      reqStopReason, awakeGDB, Stub.sendInterrupt, Stub.emit]

/-- C7 (amended): when the stub is blocked in a request loop (that of the
first `newIssue` or that of a stop) and the debugger sends a `?` request, the
stub sends the interrupt byte, no response, changes nothing else and keeps
serving requests in the same loop. -/
theorem quest_sends_interrupt (c : Config R P) (site : LoopSite) (req : GDBRequest)
    (hloc : c.loc = Loc.serving site) (hreq : req.type = ReqType.QUEST_req) :
    c.request env req
      = { c with stub := { c.stub with log := c.stub.log ++ [Event.sendInterrupt] } }
    ∧ (c.request env req).loc = Loc.serving site := by
  have h : c.request env req
      = { c with stub := { c.stub with log := c.stub.log ++ [Event.sendInterrupt] } } := by
    simp [Config.request, hloc, waitForRequest, hreq, reqStopReason, awakeGDB,
      Stub.sendInterrupt, Stub.emit]
  exact ⟨h, by rw [h]; exact hloc⟩

/-- C7 (amended) in the loop of the first `newIssue` of the constructed stub. -/
theorem quest_sends_interrupt_witness :
    ((newIssue demoEnv 4096 demoTime demoStub).request demoEnv
        (plainRequest ReqType.QUEST_req)).loc = Loc.serving LoopSite.firstRun :=
  (quest_sends_interrupt demoEnv (newIssue demoEnv 4096 demoTime demoStub) LoopSite.firstRun
    (plainRequest ReqType.QUEST_req)
    rfl rfl).2

/-- C10 at a stub resumed at 100 ps with 1000 ps to go and stopped at 400 ps:
700 ps remain. At a stub resumed at 0 ps with `1e16` ps to go and stopped at
201 ps the `double` subtraction leaves 9999999999999800, the `double` nearest
to the difference. -/
theorem setStopped_accounting_witness :
    ((setStoppedEntry { toDouble := 400, toStr := "400 ps" }
        { runningStub with timeToGo := 1000, simStartTime := 100 }).timeToGo
      = (if (1000 : Dbl) - (400 - 100) < 0 then 0 else (1000 : Dbl) - (400 - 100))
      ∧ (if (1000 : Dbl) - (400 - 100) < 0 then 0 else (1000 : Dbl) - (400 - 100)) = 700)
    ∧ ((setStoppedEntry { toDouble := 201, toStr := "201 ps" }
        { runningStub with timeToGo := 10000000000000000, simStartTime := 0 }).timeToGo
      = (if (10000000000000000 : Dbl) - (201 - 0) < 0 then 0
          else (10000000000000000 : Dbl) - (201 - 0))
      ∧ (if (10000000000000000 : Dbl) - (201 - 0) < 0 then 0
          else (10000000000000000 : Dbl) - (201 - 0)) = 9999999999999800) :=
  ⟨⟨((setStopped_accounting demoEnv stopType.STEP_stop { toDouble := 400, toStr := "400 ps" }
      { runningStub with timeToGo := 1000, simStartTime := 100 }).1
        (show (0 : Dbl) < 1000 by decide)).1, by decide⟩,
    ⟨((setStopped_accounting demoEnv stopType.STEP_stop { toDouble := 201, toStr := "201 ps" }
      { runningStub with timeToGo := 10000000000000000, simStartTime := 0 }).1
        (show (0 : Dbl) < 10000000000000000 by decide)).1, by decide⟩⟩

/-- The invariant at the constructed demo stub blocked in the loop of its
first `newIssue`: the configuration is reached by one input, and `firstRun`
and the timeout flag are clear there. -/
theorem stopped_flags_clear_witness :
    ((Config.initial demoProc ([] : List Breakpoint) demoTime).apply demoEnv
        (Input.newIssue 4096 demoTime)).stub.firstRun = false
    ∧ ((Config.initial demoProc ([] : List Breakpoint) demoTime).apply demoEnv
        (Input.newIssue 4096 demoTime)).stub.timeout = false :=
  stopped_flags_clear demoEnv (fun _ _ => rfl) demoProc [] demoTime _
    (Reachable.next _ (Input.newIssue 4096 demoTime) Reachable.start rfl) rfl

/-! ### Resuming -/

/-- C11: `resumeExecution` sets `breakEnabled` to true and `simStartTime` to
the current virtual time; with `timeToGo` positive it schedules exactly one
pause event, with delay `timeToGo`, and with `timeToGo` zero it schedules
nothing; every other member (`step`, `timeout`, `timeToGo`, `isConnected`,
`isKilled`, the registry among them) is left as it was. The callback of the
pause event sets `step` to 2 and `timeout` to true. -/
theorem resumeExecution_effect (now : SimTime) (s : Stub R P) :
    (0 < s.timeToGo →
      resumeExecution now s
        = { s with
            breakEnabled := true
            simStartTime := now.toDouble
            log := s.log ++ [Event.notify now.toDouble s.timeToGo] })
    ∧ (s.timeToGo = 0 →
      resumeExecution now s = { s with breakEnabled := true, simStartTime := now.toDouble })
    ∧ pauseMethod s = { s with step := 2, timeout := true } := by
  refine ⟨?_, ?_, rfl⟩
  · intro h
    simp [resumeExecution, h, Stub.emit]
  · intro h
    simp [resumeExecution, h, Dbl.not_zero_lt_zero]

/-- C11 at a stub with 1000 ps to go, resumed at 100 ps: one pause event with
delay 1000 is scheduled. -/
theorem resumeExecution_effect_witness :
    resumeExecution demoTime { runningStub with timeToGo := 1000 }
      = { runningStub with
          timeToGo := 1000
          breakEnabled := true
          simStartTime := 100
          log := [Event.notify 100 1000] } :=
  (resumeExecution_effect demoTime { runningStub with timeToGo := 1000 }).1
    (show (0 : Dbl) < 1000 by decide)

/-! ### Breakpoints and detaching -/

/-- C19: on a `Z` request the stub asks the registry to add, at `req.address`
with `req.length`, a code breakpoint for type 0 or 1, a write watchpoint for
type 2, a read watchpoint for type 3, an access watchpoint for type 4, and
sends OK exactly when the registry reports success, Error otherwise; for
every other type it sends NotSupported and leaves the registry alone. In all
cases nothing else changes and the loop keeps listening. -/
theorem addBreakpoint_request (now : SimTime) (s : Stub R P) (req : GDBRequest)
    (hreq : req.type = ReqType.Z_req) :
    (∀ t, (((req.value = 0 ∨ req.value = 1) ∧ t = BreakType.HW_break)
          ∨ (req.value = 2 ∧ t = BreakType.WRITE_break)
          ∨ (req.value = 3 ∧ t = BreakType.READ_break)
          ∨ (req.value = 4 ∧ t = BreakType.ACCESS_break)) →
      waitForRequest env now s req
        = LoopResult.listen
            { s with
              breakManager :=
                (env.breakManager.addBreakpoint s.breakManager t req.address req.length).1
              log := s.log ++
                [Event.sendResponse
                  { newResponse env with
                    type :=
                      if (env.breakManager.addBreakpoint s.breakManager t req.address
                          req.length).2 = true
                      then RspType.OK_rsp else RspType.ERROR_rsp }] })
    ∧ (4 < req.value →
      waitForRequest env now s req
        = LoopResult.listen
            { s with
              log := s.log ++
                [Event.sendResponse
                  { newResponse env with type := RspType.NOT_SUPPORTED_rsp }] }) := by
  refine ⟨?_, ?_⟩
  · intro t ht
    have hbt : breakTypeOf req.value = some t := by
      rcases ht with ⟨h, rfl⟩ | ⟨h, rfl⟩ | ⟨h, rfl⟩ | ⟨h, rfl⟩
      · simp [breakTypeOf, h]
      · simp [breakTypeOf, h]
      · simp [breakTypeOf, h]
      · simp [breakTypeOf, h]
    simp only [waitForRequest, hreq, addBreakpoint, hbt, Stub.sendResponse, Stub.emit]
    split_ifs <;> rfl
  · intro h
    have hbt : breakTypeOf req.value = none := by
      simp only [breakTypeOf]
      rw [if_neg (by omega), if_neg (by omega), if_neg (by omega), if_neg (by omega)]
    simp only [waitForRequest, hreq, addBreakpoint, hbt, Stub.sendResponse, Stub.emit]

/-- C19 at the running demo stub: `Z2,8192,4` adds a write watchpoint at 8192
to the empty registry and is answered OK. -/
theorem addBreakpoint_request_witness :
    waitForRequest demoEnv demoTime runningStub
        { plainRequest ReqType.Z_req with value := 2, address := 8192, length := 4 }
      = LoopResult.listen
          { runningStub with
            breakManager :=
              (listRegistry.addBreakpoint [] BreakType.WRITE_break 8192 4).1
            log :=
              [Event.sendResponse
                { newResponse demoEnv with
                  type :=
                    if (listRegistry.addBreakpoint [] BreakType.WRITE_break 8192 4).2 = true
                    then RspType.OK_rsp else RspType.ERROR_rsp }] } :=
  (addBreakpoint_request demoEnv demoTime runningStub
      { plainRequest ReqType.Z_req with value := 2, address := 8192, length := 4 } rfl).1
    BreakType.WRITE_break (Or.inr (Or.inl ⟨rfl, rfl⟩))

/-- C20: a `D` request read in a request loop clears the registry, sends
exactly one response, OK, and ends the loop, `newIssue` returning false;
afterwards the registry is the cleared one (with no breakpoint at any
address, for a registry whose `clearAllBreaks` leaves none), `isConnected` is
false, `breakEnabled` is false and `step` is 0. Besides the response the only
call is the `notify` of `resumeExecution` when `timeToGo` is positive. -/
theorem detach_request (c : Config R P) (site : LoopSite) (req : GDBRequest)
    (hloc : c.loc = Loc.serving site) (hreq : req.type = ReqType.D_req) :
    c.request env req
      = { stub :=
            { c.stub with
              breakManager := env.breakManager.clearAllBreaks c.stub.breakManager
              step := 0
              isConnected := false
              breakEnabled := false
              simStartTime := c.now.toDouble
              log := c.stub.log ++
                [Event.sendResponse { newResponse env with type := RspType.OK_rsp }] ++
                (if 0 < c.stub.timeToGo then [Event.notify c.now.toDouble c.stub.timeToGo]
                  else []) }
          loc := Loc.outside (some false)
          now := c.now }
    ∧ ((∀ r a, env.breakManager.hasBreakpoint (env.breakManager.clearAllBreaks r) a = false) →
        ∀ a, env.breakManager.hasBreakpoint (c.request env req).stub.breakManager a = false) := by
  have hw : waitForRequest env c.now c.stub req
      = LoopResult.leave
          { c.stub with
            breakManager := env.breakManager.clearAllBreaks c.stub.breakManager
            step := 0
            isConnected := false
            breakEnabled := false
            simStartTime := c.now.toDouble
            log := c.stub.log ++
              [Event.sendResponse { newResponse env with type := RspType.OK_rsp }] ++
              (if 0 < c.stub.timeToGo then [Event.notify c.now.toDouble c.stub.timeToGo]
                else []) } := by
    simp only [waitForRequest, hreq, detach, resumeExecution, Stub.sendResponse, Stub.emit]
    split_ifs <;> simp
  have hc : c.request env req
      = { stub :=
            { c.stub with
              breakManager := env.breakManager.clearAllBreaks c.stub.breakManager
              step := 0
              isConnected := false
              breakEnabled := false
              simStartTime := c.now.toDouble
              log := c.stub.log ++
                [Event.sendResponse { newResponse env with type := RspType.OK_rsp }] ++
                (if 0 < c.stub.timeToGo then [Event.notify c.now.toDouble c.stub.timeToGo]
                  else []) }
          loc := Loc.outside (some false)
          now := c.now } := by
    simp only [Config.request, hloc, hw]
    cases site with
    | firstRun => rfl
    | checkStep pc0 => simp [leaveLoop, newIssueBreak, checkBreakpoint]
    | checkBreakpoint => rfl
  refine ⟨hc, ?_⟩
  intro hclear a
  rw [hc]
  exact hclear _ a

/-- C20 at the demo stub stopped by a step at `4096` with a breakpoint there:
the `D` request leaves the registry empty and `newIssue` returns. -/
theorem detach_request_witness :
    listRegistry.hasBreakpoint
      ((newIssue demoEnv 4096 demoTime
          { runningStub with
            step := 2
            breakManager := [{ type := BreakType.HW_break, address := 4096, length := 4 }] }).request
        demoEnv (plainRequest ReqType.D_req)).stub.breakManager 4096 = false :=
  (detach_request demoEnv
      (newIssue demoEnv 4096 demoTime
        { runningStub with
          step := 2
          breakManager := [{ type := BreakType.HW_break, address := 4096, length := 4 }] })
      (LoopSite.checkStep 4096) (plainRequest ReqType.D_req)
      (by simp [newIssue, runningStub, demoStub, Stub.construct, checkStep, setStopped_step])
      rfl).2
    (fun _ _ => rfl) 4096

/-! ### Writing memory and registers -/

/-- The loop of `writeMemory` attempts the writes in order up to the first
failing one. -/
theorem writeMemoryLoop_eq (a : Nat) (d : List Int) (bytes : Nat) (s : Stub R P) :
    writeMemoryLoop env a d bytes s
      = ({ s with
            processorInstance := procAfterWrites env.abi s.processorInstance (a + bytes)
              (d.take (writesTried env.abi s.processorInstance (a + bytes) d))
            log := s.log ++ writeEvents (a + bytes)
              (d.take (writesTried env.abi s.processorInstance (a + bytes) d)) },
          bytes + writesDone env.abi s.processorInstance (a + bytes) d,
          decide (writesDone env.abi s.processorInstance (a + bytes) d < d.length)) := by
  induction d generalizing bytes s with
  | nil => simp [writeMemoryLoop, writesTried, writesDone, procAfterWrites, writeEvents]
  | cons b rest ih =>
    simp only [writeMemoryLoop]
    by_cases hw : (env.abi.writeMem s.processorInstance (a + bytes) b).2 = true
    · rw [if_pos hw, ih]
      have hd : writesDone env.abi s.processorInstance (a + bytes) (b :: rest)
          = writesDone env.abi (env.abi.writeMem s.processorInstance (a + bytes) b).1
              (a + bytes + 1) rest + 1 := by
        simp [writesDone, hw]
      have ht : writesTried env.abi s.processorInstance (a + bytes) (b :: rest)
          = writesTried env.abi (env.abi.writeMem s.processorInstance (a + bytes) b).1
              (a + bytes + 1) rest + 1 := by
        simp only [writesTried, hd, List.length_cons]
        split_ifs <;> omega
      rw [ht, hd]
      simp [Stub.emit, procAfterWrites, writeEvents, Nat.add_assoc, Nat.add_comm 1]
    · rw [if_neg hw]
      have hd : writesDone env.abi s.processorInstance (a + bytes) (b :: rest) = 0 := by
        simp [writesDone, hw]
      have ht : writesTried env.abi s.processorInstance (a + bytes) (b :: rest) = 1 := by
        simp [writesTried, hd]
      rw [ht, hd]
      simp [Stub.emit, procAfterWrites, writeEvents]

/-- C16: on an `M` or `X` request the stub writes the data bytes in order to
`req.address`, `req.address + 1`, …, each write acting on the processor the
one before it left, up to and including the first failing write; no write is
attempted after it and none is undone. It then sends one response, OK exactly
when no write failed and the number of bytes written is `req.length`, Error
otherwise, changes nothing else and keeps listening. -/
theorem writeMemory_request (now : SimTime) (s : Stub R P) (req : GDBRequest)
    (hreq : req.type = ReqType.M_req ∨ req.type = ReqType.X_req) :
    waitForRequest env now s req
      = LoopResult.listen
          { s with
            processorInstance := procAfterWrites env.abi s.processorInstance req.address
              (req.data.take (writesTried env.abi s.processorInstance req.address req.data))
            log := s.log ++
              writeEvents req.address
                (req.data.take (writesTried env.abi s.processorInstance req.address req.data))
              ++ [Event.sendResponse
                  { newResponse env with
                    type :=
                      if writesDone env.abi s.processorInstance req.address req.data
                            = req.data.length
                          ∧ writesDone env.abi s.processorInstance req.address req.data
                            = req.length
                      then RspType.OK_rsp else RspType.ERROR_rsp }] }
    ∧ writesTried env.abi s.processorInstance req.address req.data
        ≤ writesDone env.abi s.processorInstance req.address req.data + 1
    ∧ writesDone env.abi s.processorInstance req.address req.data ≤ req.data.length := by
  have hle : ∀ (d : List Int) (p : P) (a : Nat), writesDone env.abi p a d ≤ d.length := by
    intro d
    induction d with
    | nil => intro p a; simp [writesDone]
    | cons b rest ih =>
      intro p a
      simp only [writesDone, List.length_cons]
      split_ifs
      · exact Nat.succ_le_succ (ih _ _)
      · omega
  have hmain : writeMemory env req s
      = LoopResult.listen
          { s with
            processorInstance := procAfterWrites env.abi s.processorInstance req.address
              (req.data.take (writesTried env.abi s.processorInstance req.address req.data))
            log := s.log ++
              writeEvents req.address
                (req.data.take (writesTried env.abi s.processorInstance req.address req.data))
              ++ [Event.sendResponse
                  { newResponse env with
                    type :=
                      if writesDone env.abi s.processorInstance req.address req.data
                            = req.data.length
                          ∧ writesDone env.abi s.processorInstance req.address req.data
                            = req.length
                      then RspType.OK_rsp else RspType.ERROR_rsp }] } := by
    have hl := hle req.data s.processorInstance req.address
    simp only [writeMemory, writeMemoryLoop_eq, Nat.add_zero, Nat.zero_add, Stub.sendResponse,
      Stub.emit, decide_eq_true_eq]
    by_cases h1 : writesDone env.abi s.processorInstance req.address req.data = req.data.length
    · by_cases h2 : writesDone env.abi s.processorInstance req.address req.data = req.length
      · rw [if_neg (by rw [h1] at h2 ⊢; simp [h2]), if_pos ⟨h1, h2⟩]
      · rw [if_pos (Or.inl h2), if_neg (fun h => h2 h.2)]
    · rw [if_pos (Or.inr (lt_of_le_of_ne hl h1)), if_neg (fun h => h1 h.1)]
  refine ⟨?_, ?_, hle _ _ _⟩
  · rcases hreq with h | h <;> simp only [waitForRequest, h] <;> exact hmain
  · simp only [writesTried]
    split_ifs <;> omega

/-- C16 at the demo stub, whose memory has eight bytes: `M6,3:010203` writes
the bytes at 6 and 7, fails at 8 and is answered Error. -/
theorem writeMemory_request_witness :
    waitForRequest demoEnv demoTime runningStub
        { plainRequest ReqType.M_req with address := 6, length := 3, data := [1, 2, 3] }
      = LoopResult.listen
          { runningStub with
            processorInstance := { demoProc with mem := [0, 0, 0, 0, 0, 0, 1, 2] }
            log := [Event.writeMem 6 1, Event.writeMem 7 2, Event.writeMem 8 3,
              Event.sendResponse { newResponse demoEnv with type := RspType.ERROR_rsp }] } :=
  (writeMemory_request demoEnv demoTime runningStub
      { plainRequest ReqType.M_req with address := 6, length := 3, data := [1, 2, 3] }
      (Or.inl rfl)).1.trans (by rfl)

/-- The loop of `writeRegisters` writes every word, in order, whatever the
earlier writes answered. -/
theorem writeRegisters_loop_eq (words : List Nat) (s : Stub R P) (error : Bool) (k : Nat) :
    words.foldl (writeRegistersStep env) (s, error, k)
      = ({ s with
            processorInstance := procAfterSets env.abi s.processorInstance k words
            log := s.log ++ setRegEvents k words },
          (error || setsFailed env.abi s.processorInstance k words), k + words.length) := by
  induction words generalizing s error k with
  | nil => simp [procAfterSets, setRegEvents, setsFailed]
  | cons w rest ih =>
    rw [List.foldl_cons]
    simp only [writeRegistersStep]
    rw [ih]
    simp [Stub.emit, procAfterSets, setRegEvents, setsFailed, Bool.or_assoc, Nat.add_assoc,
      Nat.add_comm 1]

/-- C15 (as stated, refuted): the demo processor has four registers; a `G`
request whose payload decodes to the single word 1 writes it to register 0,
which succeeds, and is answered Error. -/
theorem writeRegisters_counterexample :
    bytesToValue demoEnv.wordBytes [1, 0, 0, 0] = some [1]
    ∧ (procABI.setGDBReg demoProc 1 0).2 = true
    ∧ waitForRequest demoEnv demoTime runningStub
        { plainRequest ReqType.G_req with data := [1, 0, 0, 0] }
      = LoopResult.listen
          { runningStub with
            processorInstance := { demoProc with regs := [1, 0, 0, 0] }
            log := [Event.setGDBReg 1 0,
              Event.sendResponse { newResponse demoEnv with type := RspType.ERROR_rsp }] } := by
  refine ⟨by decide, by decide, by rfl⟩

/-- C15 (amended): on a `G` request whose payload decodes to the words
`w[0], w[1], …` the stub writes `w[k]` to register `k` for every `k`, in
order, going on after a failed write; it then sends one response, Error if at
least one write failed or the number of words is not the register count, OK
otherwise, changes nothing else and keeps listening. -/
theorem writeRegisters_request (now : SimTime) (s : Stub R P) (req : GDBRequest)
    (words : List Nat) (hreq : req.type = ReqType.G_req)
    (hwords : bytesToValue env.wordBytes req.data = some words) :
    waitForRequest env now s req
      = LoopResult.listen
          { s with
            processorInstance := procAfterSets env.abi s.processorInstance 0 words
            log := s.log ++ setRegEvents 0 words ++
              [Event.sendResponse
                { newResponse env with
                  type :=
                    if setsFailed env.abi s.processorInstance 0 words = true
                        ∨ words.length
                          ≠ env.abi.nGDBRegs (procAfterSets env.abi s.processorInstance 0 words)
                    then RspType.ERROR_rsp else RspType.OK_rsp }] } := by
  simp only [waitForRequest, hreq, writeRegisters, hwords, writeRegisters_loop_eq,
    Stub.sendResponse, Stub.emit, Bool.false_or, Nat.zero_add]
  by_cases h1 : setsFailed env.abi s.processorInstance 0 words = true
  · rw [if_pos (Or.inr h1), if_pos (Or.inl h1)]
  · by_cases h2 : words.length
        = env.abi.nGDBRegs (procAfterSets env.abi s.processorInstance 0 words)
    · rw [if_neg (by simp [h1, h2]), if_neg (by simp [h1, h2])]
    · rw [if_pos (Or.inl h2), if_pos (Or.inr h2)]

/-- C15 (amended) at the demo stub: a payload of four words writes the four
registers and is answered OK. -/
theorem writeRegisters_request_witness :
    waitForRequest demoEnv demoTime runningStub
        { plainRequest ReqType.G_req with
          data := [1, 0, 0, 0, 2, 0, 0, 0, 3, 0, 0, 0, 4, 0, 0, 0] }
      = LoopResult.listen
          { runningStub with
            processorInstance := { demoProc with regs := [1, 2, 3, 4] }
            log := [Event.setGDBReg 1 0, Event.setGDBReg 2 1, Event.setGDBReg 3 2,
              Event.setGDBReg 4 3,
              Event.sendResponse { newResponse demoEnv with type := RspType.OK_rsp }] } :=
  (writeRegisters_request demoEnv demoTime runningStub
      { plainRequest ReqType.G_req with
        data := [1, 0, 0, 0, 2, 0, 0, 0, 3, 0, 0, 0, 4, 0, 0, 0] }
      [1, 2, 3, 4] rfl (by decide)).trans (by rfl)

/-! ### Timed continue -/

/-- With the first run over and `step` 0, a `newIssue` that finds no enabled
breakpoint at its program counter returns false and changes nothing. -/
theorem newIssue_idle (pc : Nat) (t : SimTime) (s : Stub R P) (hf : s.firstRun = false)
    (hs : s.step = 0)
    (hb : (s.breakEnabled && env.breakManager.hasBreakpoint s.breakManager pc) = false) :
    newIssue env pc t s = { stub := s, loc := Loc.outside (some false), now := t } := by
  have hcs : checkStep env t s = Flow.returned s := by simp [checkStep, hs]
  rw [newIssue_later env pc t s hf, hcs]
  simp [newIssueBreak, checkBreakpoint, hb]

/-- With the first run over and `step` 0, a `newIssue` stops only on an
enabled breakpoint at its program counter. -/
theorem newIssue_idle_stop (pc : Nat) (t : SimTime) (s : Stub R P) (hf : s.firstRun = false)
    (hs : s.step = 0) (hserving : (newIssue env pc t s).loc.isServing = true) :
    s.breakEnabled = true ∧ env.breakManager.hasBreakpoint s.breakManager pc = true := by
  by_cases hb : (s.breakEnabled && env.breakManager.hasBreakpoint s.breakManager pc) = false
  · rw [newIssue_idle env pc t s hf hs hb] at hserving
    simp [Loc.isServing] at hserving
  · simpa using hb

/-- A run of `newIssue` calls at program counters without a breakpoint, from
outside `newIssue` with the first run over and `step` 0, changes nothing. -/
theorem issues_idle (calls : List (Nat × SimTime)) (d : Config R P)
    (hout : d.loc.isOutside = true) (hf : d.stub.firstRun = false) (hs : d.stub.step = 0)
    (hcalls : ∀ x ∈ calls, env.breakManager.hasBreakpoint d.stub.breakManager x.1 = false) :
    (d.issues env calls).stub = d.stub ∧ (d.issues env calls).loc.isOutside = true := by
  induction calls generalizing d with
  | nil => exact ⟨rfl, hout⟩
  | cons x rest ih =>
    have hx : d.issue env x.1 x.2
        = { stub := d.stub, loc := Loc.outside (some false), now := x.2 } := by
      have hi : d.issue env x.1 x.2 = newIssue env x.1 x.2 d.stub := by
        unfold Config.issue
        cases hl : d.loc <;> simp [hl, Loc.isOutside] at hout ⊢
      rw [hi]
      exact newIssue_idle env x.1 x.2 d.stub hf hs
        (by simp [hcalls x (List.mem_cons_self _ _)])
    have hstep : d.issues env (x :: rest) = (d.issue env x.1 x.2).issues env rest := rfl
    rw [hstep, hx]
    exact ih _ rfl hf hs (fun y hy => hcalls y (List.mem_cons_of_mem _ hy))

/-- After the callback of the pause event, the next `newIssue` stops with
reason `TIMEOUT_stop`. -/
theorem newIssue_after_pause (pc : Nat) (t : SimTime) (s : Stub R P) (hf : s.firstRun = false) :
    checkStep env t (pauseMethod s)
        = setStopped env stopType.TIMEOUT_stop t { s with step := 0, timeout := false }
    ∧ newIssue env pc t (pauseMethod s)
        = { stub := ((setStoppedEntry t { s with step := 0, timeout := false }).sendResponse
              { newResponse env with
                type := RspType.OUTPUT_rsp
                message := "Specified Simulation time completed - Current simulation time: "
                  ++ t.toStr ++ " (ps)\n" }).sendInterrupt
            loc := Loc.serving (LoopSite.checkStep pc)
            now := t } := by
  have hcs : checkStep env t (pauseMethod s)
      = setStopped env stopType.TIMEOUT_stop t { s with step := 0, timeout := false } := by
    simp [checkStep, pauseMethod]
  refine ⟨hcs, ?_⟩
  rw [newIssue_later env pc t (pauseMethod s) hf, hcs, setStopped_timeout]

/-- A `go` monitor command whose product with `1e3` is not below 0 is
accepted: `timeToGo` is the product and OK is sent. -/
theorem go_accepted (now : SimTime) (s : Stub R P) (req : GDBRequest) (N : Dbl)
    (hq : req.type = ReqType.q_req) (hcmd : req.command = "Rcmd")
    (hgo : custComm req.extension = "go") (harg : env.atof (custArg req.extension) = N)
    (hneg : ¬ (N * 1000 < 0)) :
    waitForRequest env now s req
      = LoopResult.listen
          { s with
            timeToGo := N * 1000
            log := s.log ++
              [Event.sendResponse { newResponse env with type := RspType.OK_rsp }] } := by
  simp [waitForRequest, hq, genericQuery, genericQueryBody, hcmd, hgo, harg, rejectNegative,
    hneg, Stub.sendResponse, Stub.emit]

/-- A `c` request with time to go schedules one pause event, with delay
`timeToGo`, and leaves the loop; it writes neither `step`, `firstRun`,
`timeToGo` nor the registry. -/
theorem cont_schedules (req : GDBRequest) (now : SimTime) (s : Stub R P)
    (hpos : 0 < s.timeToGo) :
    ∃ s1, cont env req now s = LoopResult.leave s1
      ∧ s1.log = s.log ++ (if req.address ≠ 0 then [Event.setPC req.address] else [])
          ++ [Event.notify now.toDouble s.timeToGo]
      ∧ s1.step = s.step ∧ s1.firstRun = s.firstRun ∧ s1.breakManager = s.breakManager
      ∧ s1.breakEnabled = true ∧ s1.timeToGo = s.timeToGo := by
  refine ⟨_, rfl, ?_, ?_, ?_, ?_, ?_, ?_⟩
  · simp only [resumeExecution]
    split_ifs <;> simp_all [Stub.emit]
  · rw [(resumeExecution_frame _ _).2.2.1]
    dsimp only
    split_ifs <;> rfl
  · rw [(resumeExecution_frame _ _).1]
    dsimp only
    split_ifs <;> rfl
  · rw [(resumeExecution_frame _ _).2.2.2.1]
    dsimp only
    split_ifs <;> rfl
  · exact (resumeExecution_frame _ _).2.2.2.2.1
  · rw [(resumeExecution_frame _ _).2.2.2.2.2]
    dsimp only
    split_ifs <;> rfl

/-- An accepted `go N` with `N` above 0 and the `c` that follows, read in a
request loop: the configuration after each. -/
theorem go_cont_config (c : Config R P) (site : LoopSite) (qreq creq : GDBRequest) (N : Dbl)
    (hloc : c.loc = Loc.serving site)
    (hq : qreq.type = ReqType.q_req) (hcmd : qreq.command = "Rcmd")
    (hgo : custComm qreq.extension = "go") (harg : env.atof (custArg qreq.extension) = N)
    (hN : 0 < N) (hc : creq.type = ReqType.c_req)
    (hsite : ∀ pc0, site = LoopSite.checkStep pc0 →
      env.breakManager.hasBreakpoint c.stub.breakManager pc0 = false) :
    c.request env qreq
        = { stub :=
              { c.stub with
                timeToGo := N * 1000
                log := c.stub.log ++
                  [Event.sendResponse { newResponse env with type := RspType.OK_rsp }] }
            loc := Loc.serving site
            now := c.now }
    ∧ ∃ s2, (c.request env qreq).request env creq
          = { stub := s2, loc := Loc.outside (some false), now := c.now }
        ∧ s2.log = c.stub.log ++ [Event.sendResponse { newResponse env with type := RspType.OK_rsp }]
            ++ (if creq.address ≠ 0 then [Event.setPC creq.address] else [])
            ++ [Event.notify c.now.toDouble (N * 1000)]
        ∧ s2.step = c.stub.step ∧ s2.firstRun = c.stub.firstRun
        ∧ s2.breakManager = c.stub.breakManager ∧ s2.breakEnabled = true := by
  have hpos : (0 : Dbl) < N * 1000 := Dbl.mul_thousand_pos N hN
  have h1 : c.request env qreq
      = { stub :=
            { c.stub with
              timeToGo := N * 1000
              log := c.stub.log ++
                [Event.sendResponse { newResponse env with type := RspType.OK_rsp }] }
          loc := Loc.serving site
          now := c.now } := by
    simp only [Config.request, hloc, go_accepted env c.now c.stub qreq N hq hcmd hgo harg
      (Dbl.not_lt_zero_of_pos _ hpos)]
  obtain ⟨s2, hs2, hlog2, hstep2, hf2, hb2, he2, _⟩ := cont_schedules env creq c.now
    ({ c.stub with
        timeToGo := N * 1000
        log := c.stub.log ++
          [Event.sendResponse { newResponse env with type := RspType.OK_rsp }] } : Stub R P) hpos
  refine ⟨h1, s2, ?_, hlog2, hstep2, hf2, hb2, he2⟩
  rw [h1]
  simp only [Config.request, waitForRequest, hc, hs2]
  cases site with
  | firstRun => rfl
  | checkStep pc0 =>
    exact newIssueBreak_miss env pc0 c.now s2 (by rw [hb2]; exact hsite pc0 rfl)
  | checkBreakpoint => rfl

/-- A `newIssue` call of the simulator that finds `step` 0 and no breakpoint at
its program counter changes neither the stub nor the pending notification. -/
theorem kernel_issue_idle (k : Kernel R P) (pc t : Nat)
    (hout : k.config.loc.isOutside = true) (hf : k.config.stub.firstRun = false)
    (hs : k.config.stub.step = 0)
    (hb : env.breakManager.hasBreakpoint k.config.stub.breakManager pc = false) :
    (k.issue env pc t).config.stub = k.config.stub
    ∧ (k.issue env pc t).config.loc.isOutside = true
    ∧ (k.issue env pc t).pending = k.pending
    ∧ k.time ≤ (k.issue env pc t).time := by
  unfold Kernel.issue
  split_ifs with hg
  · have hi : k.config.issue env pc (env.stamp t)
        = { stub := k.config.stub, loc := Loc.outside (some false), now := env.stamp t } := by
      unfold Config.issue
      cases hl : k.config.loc <;> simp [hl, Loc.isOutside] at hout ⊢
      exact newIssue_idle env pc (env.stamp t) k.config.stub hf hs (by simp [hb])
    refine ⟨?_, ?_, rfl, ?_⟩
    · show (k.config.issue env pc (env.stamp t)).stub = _
      rw [hi]
    · show (k.config.issue env pc (env.stamp t)).loc.isOutside = true
      rw [hi]
      rfl
    · simp only [Bool.and_eq_true, decide_eq_true_eq] at hg
      exact hg.1.2
  · exact ⟨rfl, hout, rfl, le_refl _⟩

theorem kernel_issues_idle (calls : List (Nat × Nat)) (k : Kernel R P)
    (hout : k.config.loc.isOutside = true) (hf : k.config.stub.firstRun = false)
    (hs : k.config.stub.step = 0)
    (hcalls : ∀ x ∈ calls, env.breakManager.hasBreakpoint k.config.stub.breakManager x.1 = false) :
    (k.issues env calls).config.stub = k.config.stub
    ∧ (k.issues env calls).config.loc.isOutside = true
    ∧ (k.issues env calls).pending = k.pending
    ∧ k.time ≤ (k.issues env calls).time := by
  induction calls generalizing k with
  | nil => exact ⟨rfl, hout, rfl, le_refl _⟩
  | cons x rest ih =>
    obtain ⟨h1, h2, h3, h4⟩ := kernel_issue_idle env k x.1 x.2 hout hf hs
      (hcalls x (List.mem_cons_self _ _))
    obtain ⟨i1, i2, i3, i4⟩ := ih (k.issue env x.1 x.2) h2 (by rw [h1]; exact hf)
      (by rw [h1]; exact hs)
      (fun y hy => by rw [h1]; exact hcalls y (List.mem_cons_of_mem _ hy))
    exact ⟨i1.trans h1, i2, i3.trans h3, le_trans h4 i4⟩

/-- A `newIssue` call of the simulator that finds `step` 0 can end in a request
loop only with breakpoints enabled and a breakpoint at its program counter. -/
theorem kernel_issue_idle_stop (k : Kernel R P) (pc t : Nat)
    (hout : k.config.loc.isOutside = true) (hf : k.config.stub.firstRun = false)
    (hs : k.config.stub.step = 0)
    (hserving : (k.issue env pc t).config.loc.isServing = true) :
    k.config.stub.breakEnabled = true
    ∧ env.breakManager.hasBreakpoint k.config.stub.breakManager pc = true := by
  unfold Kernel.issue at hserving
  split_ifs at hserving with hg
  · have hi : k.config.issue env pc (env.stamp t) = newIssue env pc (env.stamp t) k.config.stub := by
      unfold Config.issue
      cases hl : k.config.loc <;> simp [hl, Loc.isOutside] at hout ⊢
    rw [show ({ k with config := k.config.issue env pc (env.stamp t), time := t } : Kernel R P).config
      = newIssue env pc (env.stamp t) k.config.stub from hi] at hserving
    exact newIssue_idle_stop env pc (env.stamp t) k.config.stub hf hs hserving
  · cases hl : k.config.loc <;> simp [hl, Loc.isOutside, Loc.isServing] at hout hserving

/-- The kernel delivers the pending notification and the simulator calls
`newIssue` at a time not before it: the call stops with reason
`TIMEOUT_stop`. -/
theorem kernel_fire_issue (k : Kernel R P) (due pc t : Nat)
    (hout : k.config.loc.isOutside = true) (hf : k.config.stub.firstRun = false)
    (hp : k.pending = some due) (ht : due ≤ t) :
    k.fire = { config := k.config.pause, time := due, pending := none }
    ∧ (k.fire.issue env pc t).time = t
    ∧ (k.fire.issue env pc t).config
        = { stub := ((setStoppedEntry (env.stamp t)
                { k.config.stub with step := 0, timeout := false }).sendResponse
              { newResponse env with
                type := RspType.OUTPUT_rsp
                message := "Specified Simulation time completed - Current simulation time: "
                  ++ (env.stamp t).toStr ++ " (ps)\n" }).sendInterrupt
            loc := Loc.serving (LoopSite.checkStep pc)
            now := env.stamp t } := by
  have hfire : k.fire = { config := k.config.pause, time := due, pending := none } := by
    simp only [Kernel.fire, hp, hout, if_true]
  have hg : ((k.config.pause.loc.isOutside && decide (due ≤ t)) && Kernel.notDue none t) = true := by
    simp [Config.pause, hout, ht, Kernel.notDue]
  have hi : k.config.pause.issue env pc (env.stamp t)
      = newIssue env pc (env.stamp t) (pauseMethod k.config.stub) := by
    unfold Config.issue
    have hout2 : k.config.pause.loc.isOutside = true := hout
    cases hl : k.config.pause.loc <;> simp [hl, Loc.isOutside] at hout2 ⊢
    rfl
  refine ⟨hfire, ?_, ?_⟩
  · rw [hfire]
    simp only [Kernel.issue, hg, if_true]
  · rw [hfire]
    simp only [Kernel.issue, hg, if_true]
    rw [hi, (newIssue_after_pause env pc (env.stamp t) k.config.stub hf).2]

/-- C12, the claim as written fails: the demo stub is stopped by a step at
300 ps while the notification of the pause event asked for at 100 ps (`go 1`,
then `s`) is pending for 1100 ps. `go 5` is accepted and `c` follows at 300 ps:
`timeToGo` is 5000 and `sc_time(5000, SC_PS)` is 5000 ps, but the notification
stays pending for 1100 ps, not for 5300 ps; the kernel delivers it at 1100 ps,
and the `newIssue` at 1100 ps stops with reason `TIMEOUT_stop`, no breakpoint
in the registry. -/
theorem timed_continue_counterexample :
    staleKernelStop.config.loc = Loc.serving (LoopSite.checkStep 4104)
    ∧ staleKernelStop.time = 300
    ∧ staleKernelStop.pending = some 1100
    ∧ staleKernelResumed.config.loc = Loc.outside (some false)
    ∧ staleKernelResumed.config.stub.timeToGo = 5000
    ∧ staleKernelResumed.config.stub.step = 0
    ∧ staleKernelResumed.time + monitorEnv.scTime 5000 = 5300
    ∧ staleKernelResumed.pending = some 1100
    ∧ staleKernelResumed.fire.time = 1100
    ∧ (staleKernelResumed.fire.issue monitorEnv 4108 1100).config.loc
        = Loc.serving (LoopSite.checkStep 4108)
    ∧ (staleKernelResumed.fire.issue monitorEnv 4108 1100).config.stub.breakManager = []
    ∧ (staleKernelResumed.fire.issue monitorEnv 4108 1100).config.stub.log.getLast?
        = some Event.sendInterrupt := by
  refine ⟨by decide, by decide, by decide, by decide, by decide, by decide, by decide, by decide,
    by decide, by decide, by decide, by decide⟩

/-- C12, amended: the stub is blocked in a request loop at `k.time`
picoseconds, first run over and `step` 0. A `qRcmd,go N` with `N` above 0 is
accepted (`timeToGo` becomes the `double` product `N * 1e3`, OK is sent, the
pending notification is untouched); the `c` request that follows calls
`notify` once, with delay `N * 1e3`, and ends the loop. If no notification of
the pause event was pending it is now pending for `k.time + sc_time(N * 1e3)`;
if one was pending for `due`, the earlier of `due` and that time stays. With
no listener write, the `newIssue` calls before the kernel delivers the
notification change nothing as long as the registry has no breakpoint at their
program counters (nor at that of the call the stop interrupted), and one of
them can stop only with `breakEnabled` true and the registry having its
program counter. The kernel delivers the notification at the time it is
pending for, and the first `newIssue` after that stops with reason
`TIMEOUT_stop`. -/
theorem timed_continue (k : Kernel R P) (site : LoopSite) (qreq creq : GDBRequest) (N : Dbl)
    (calls : List (Nat × Nat)) (pc t : Nat)
    (hloc : k.config.loc = Loc.serving site) (hfirst : k.config.stub.firstRun = false)
    (hstep : k.config.stub.step = 0)
    (hq : qreq.type = ReqType.q_req) (hcmd : qreq.command = "Rcmd")
    (hgo : custComm qreq.extension = "go") (harg : env.atof (custArg qreq.extension) = N)
    (hN : 0 < N) (hc : creq.type = ReqType.c_req)
    (hsite : ∀ pc0, site = LoopSite.checkStep pc0 →
      env.breakManager.hasBreakpoint k.config.stub.breakManager pc0 = false)
    (hcalls : ∀ x ∈ calls,
      env.breakManager.hasBreakpoint k.config.stub.breakManager x.1 = false) :
    (k.request env qreq).config
        = { stub :=
              { k.config.stub with
                timeToGo := N * 1000
                log := k.config.stub.log ++
                  [Event.sendResponse { newResponse env with type := RspType.OK_rsp }] }
            loc := Loc.serving site
            now := k.config.now }
    ∧ (k.request env qreq).pending = k.pending
    ∧ ((k.request env qreq).request env creq).config.loc = Loc.outside (some false)
    ∧ ((k.request env qreq).request env creq).config.stub.log
        = k.config.stub.log ++ [Event.sendResponse { newResponse env with type := RspType.OK_rsp }]
          ++ (if creq.address ≠ 0 then [Event.setPC creq.address] else [])
          ++ [Event.notify k.config.now.toDouble (N * 1000)]
    ∧ ((k.request env qreq).request env creq).time = k.time
    ∧ (k.pending = none →
        ((k.request env qreq).request env creq).pending
          = some (k.time + env.scTime (N * 1000)))
    ∧ (∀ due, k.pending = some due →
        ((k.request env qreq).request env creq).pending
          = some (min due (k.time + env.scTime (N * 1000))))
    ∧ (((k.request env qreq).request env creq).issues env calls).config.loc.isOutside = true
    ∧ (((k.request env qreq).request env creq).issues env calls).config.stub
        = ((k.request env qreq).request env creq).config.stub
    ∧ (((k.request env qreq).request env creq).issues env calls).pending
        = ((k.request env qreq).request env creq).pending
    ∧ (∀ pc1 t1,
        ((((k.request env qreq).request env creq).issues env calls).issue env pc1
            t1).config.loc.isServing = true →
          (((k.request env qreq).request env creq).issues env calls).config.stub.breakEnabled
              = true
          ∧ env.breakManager.hasBreakpoint
              (((k.request env qreq).request env creq).issues env calls).config.stub.breakManager
              pc1 = true)
    ∧ (∀ due, ((k.request env qreq).request env creq).pending = some due →
        (((k.request env qreq).request env creq).issues env calls).fire.time = due
        ∧ (((k.request env qreq).request env creq).issues env calls).fire.config.stub
            = { ((k.request env qreq).request env creq).config.stub with
                step := 2, timeout := true }
        ∧ (due ≤ t →
            ((((k.request env qreq).request env creq).issues env calls).fire.issue env pc
                t).config.loc = Loc.serving (LoopSite.checkStep pc)
            ∧ checkStep env (env.stamp t)
                (((k.request env qreq).request env creq).issues env calls).fire.config.stub
              = setStopped env stopType.TIMEOUT_stop (env.stamp t)
                  { ((k.request env qreq).request env creq).config.stub with
                    step := 0, timeout := false }
            ∧ ((((k.request env qreq).request env creq).issues env calls).fire.issue env pc
                t).config.stub.log
              = ((k.request env qreq).request env creq).config.stub.log ++
                [Event.sendResponse
                  { newResponse env with
                    type := RspType.OUTPUT_rsp
                    message := "Specified Simulation time completed - Current simulation time: "
                      ++ (env.stamp t).toStr ++ " (ps)\n" },
                  Event.sendInterrupt])) := by
  obtain ⟨h1, s2, h2, hlog2, hstep2, hf2, hb2, he2⟩ := go_cont_config env k.config site qreq creq N
    hloc hq hcmd hgo harg hN hc hsite
  have hf2' : s2.firstRun = false := hf2.trans hfirst
  have hstep2' : s2.step = 0 := hstep2.trans hstep
  -- the kernel after `go`
  have hk1 : k.request env qreq
      = { config :=
            { stub :=
                { k.config.stub with
                  timeToGo := N * 1000
                  log := k.config.stub.log ++
                    [Event.sendResponse { newResponse env with type := RspType.OK_rsp }] }
              loc := Loc.serving site
              now := k.config.now }
          time := k.time
          pending := k.pending } := by
    simp only [Kernel.request, h1, List.drop_left, List.foldl_cons, List.foldl_nil,
      Kernel.schedule]
  -- the kernel after `c`
  have hdrop : List.drop
      (k.config.stub.log ++
        [Event.sendResponse { newResponse env with type := RspType.OK_rsp }]).length s2.log
      = (if creq.address ≠ 0 then [Event.setPC creq.address] else [])
          ++ [Event.notify k.config.now.toDouble (N * 1000)] := by
    rw [hlog2, List.append_assoc, List.drop_left]
  have hk2 : (k.request env qreq).request env creq
      = { config := { stub := s2, loc := Loc.outside (some false), now := k.config.now }
          time := k.time
          pending := Kernel.schedule env k.time k.pending
            (Event.notify k.config.now.toDouble (N * 1000)) } := by
    have h2' := h2
    rw [h1] at h2'
    rw [hk1]
    simp only [Kernel.request, h2', hdrop]
    split_ifs <;> simp [Kernel.schedule]
  have hidle := kernel_issues_idle env calls ((k.request env qreq).request env creq)
    (by rw [hk2]; rfl) (by rw [hk2]; exact hf2') (by rw [hk2]; exact hstep2')
    (fun x hx => by rw [hk2]; show env.breakManager.hasBreakpoint s2.breakManager x.1 = false
                    rw [hb2]; exact hcalls x hx)
  refine ⟨by rw [hk1], by rw [hk1], by rw [hk2], by rw [hk2]; exact hlog2, by rw [hk2], ?_, ?_,
    hidle.2.1, hidle.1, hidle.2.2.1, ?_, ?_⟩
  · intro hnone
    rw [hk2, hnone]
    rfl
  · intro due hdue
    rw [hk2, hdue]
    rfl
  · intro pc1 t1 hserving
    exact kernel_issue_idle_stop env _ pc1 t1 hidle.2.1 (by rw [hidle.1, hk2]; exact hf2')
      (by rw [hidle.1, hk2]; exact hstep2') hserving
  · intro due hdue
    have hp : (((k.request env qreq).request env creq).issues env calls).pending = some due :=
      hidle.2.2.1.trans hdue
    have hff : (((k.request env qreq).request env creq).issues env calls).config.stub.firstRun
        = false := by rw [hidle.1, hk2]; exact hf2'
    have hfire := (kernel_fire_issue env _ due pc due hidle.2.1 hff hp (le_refl _)).1
    refine ⟨by rw [hfire], ?_, ?_⟩
    · rw [hfire]
      show pauseMethod _ = _
      rw [hidle.1]
      rfl
    · intro ht
      obtain ⟨_, _, hcfg⟩ := kernel_fire_issue env _ due pc t hidle.2.1 hff hp ht
      refine ⟨by rw [hcfg], ?_, ?_⟩
      · rw [hfire]
        show checkStep env (env.stamp t) (pauseMethod _) = _
        rw [hidle.1]
        exact (newIssue_after_pause env pc (env.stamp t) _
          (by rw [hk2]; exact hf2')).1
      · rw [hcfg, hidle.1]
        simp [Stub.sendResponse, Stub.sendInterrupt, Stub.emit]

/-- C12 amended, at the constructed demo stub beside the kernel, blocked in
the loop of its first `newIssue` at 100 ps with nothing pending: after `go 1`
and `c` the notification is pending for 1100 ps; after two `newIssue` calls
the kernel delivers it and the `newIssue` at 1100 ps stops. -/
theorem timed_continue_witness :
    ((((Kernel.initial monitorEnv demoProc []).issue monitorEnv 4096 100).request monitorEnv
        goOneRequest).request monitorEnv (plainRequest ReqType.c_req)).pending
      = some (100 + monitorEnv.scTime ((1 : Dbl) * 1000))
    ∧ 100 + monitorEnv.scTime ((1 : Dbl) * 1000) = 1100
    ∧ ((((((Kernel.initial monitorEnv demoProc []).issue monitorEnv 4096 100).request monitorEnv
        goOneRequest).request monitorEnv (plainRequest ReqType.c_req)).issues monitorEnv
          [(4100, 200), (4104, 300)]).fire.issue monitorEnv 4108 1100).config.loc
      = Loc.serving (LoopSite.checkStep 4108) :=
  ⟨(timed_continue monitorEnv ((Kernel.initial monitorEnv demoProc []).issue monitorEnv 4096 100)
      LoopSite.firstRun goOneRequest (plainRequest ReqType.c_req) 1 [(4100, 200), (4104, 300)]
      4108 1100 (by decide) (by decide) (by decide) rfl rfl (by decide) (by decide) (by decide) rfl
      (by intro pc0 h; cases h) (by intro x _; rfl)).2.2.2.2.2.1 (by decide),
    by decide,
    ((timed_continue monitorEnv ((Kernel.initial monitorEnv demoProc []).issue monitorEnv 4096 100)
      LoopSite.firstRun goOneRequest (plainRequest ReqType.c_req) 1 [(4100, 200), (4104, 300)]
      4108 1100 (by decide) (by decide) (by decide) rfl rfl (by decide) (by decide) (by decide) rfl
      (by intro pc0 h; cases h) (by intro x _; rfl)).2.2.2.2.2.2.2.2.2.2.2 1100
        (by decide)).2.2 (le_refl _) |>.1⟩

/-! ### Register and memory accesses at their failing inputs -/

/-- C13 (the code at the failing inputs): the demo processor has four
registers. On `P 4=7` the stub calls the register write with index 4 (the
test is `req.reg <= nGDBRegs()`); on `P 5=7` it does not call it and sends two
responses, OK and then Error. -/
theorem writeRegister_out_of_range :
    procABI.nGDBRegs runningStub.processorInstance = 4
    ∧ (waitForRequest demoEnv demoTime runningStub
        { plainRequest ReqType.P_req with reg := 4, value := 7 }).state.log
      = [Event.setGDBReg 7 4,
          Event.sendResponse { newResponse demoEnv with type := RspType.ERROR_rsp }]
    ∧ (waitForRequest demoEnv demoTime runningStub
        { plainRequest ReqType.P_req with reg := 5, value := 7 }).state.log
      = [Event.sendResponse { newResponse demoEnv with type := RspType.OK_rsp },
          Event.sendResponse { newResponse demoEnv with type := RspType.ERROR_rsp }] := by
  refine ⟨by decide, by rfl, by rfl⟩

/-- C14 (the code at the failing input): a connected, stopped stub with a
breakpoint at `4096` and 1000 ps to go receives `P 5=7`, the processor having
four registers. The stub sends two responses, empties the registry, sets
`isConnected` to false, `breakEnabled` to true and `simStartTime` to the
current time, and schedules the pause event. -/
theorem writeRegister_out_of_range_frame :
    waitForRequest demoEnv demoTime
        { runningStub with
          isConnected := true
          breakEnabled := false
          timeToGo := 1000
          breakManager := [{ type := BreakType.HW_break, address := 4096, length := 4 }] }
        { plainRequest ReqType.P_req with reg := 5, value := 7 }
      = LoopResult.listen
          { runningStub with
            isConnected := false
            breakEnabled := true
            timeToGo := 1000
            simStartTime := 100
            breakManager := []
            log := [Event.sendResponse { newResponse demoEnv with type := RspType.OK_rsp },
              Event.notify 100 1000,
              Event.sendResponse { newResponse demoEnv with type := RspType.ERROR_rsp }] } := by
  rfl

/-- C17 (the code at the failing input): the memory has eight bytes, the last
one 9. On `m 7,2` the read at 7 succeeds and the read at 8 fails; the response
carries five bytes, the 9 and four zero bytes, where two were asked for. -/
theorem readMemory_failed_read :
    waitForRequest demoEnv demoTime
        { runningStub with
          processorInstance := { demoProc with mem := [0, 0, 0, 0, 0, 0, 0, 9] } }
        { plainRequest ReqType.m_req with address := 7, length := 2 }
      = LoopResult.listen
          { runningStub with
            processorInstance := { demoProc with mem := [0, 0, 0, 0, 0, 0, 0, 9] }
            log := [Event.readMem 7, Event.readMem 8,
              Event.sendResponse
                { newResponse demoEnv with
                  type := RspType.MEM_READ_rsp, data := [9, 0, 0, 0, 0] }] } := by
  rfl

/-- C18 (the code at the failing input): a 16-bit instantiation with two
registers, 258 and 772, of which register 1 cannot be read. The `g` response
carries six bytes, the two of register 0 and four zero bytes, where two words
are four bytes; `p 1` and `p 5` are answered with four zero bytes, where the
bytes of the word zero are two. -/
theorem readRegisters_failed_read :
    valueToBytes shortEnv.charSigned true shortEnv.wordBytes [] 0 = [0, 0]
    ∧ (waitForRequest shortEnv demoTime shortStub (plainRequest ReqType.g_req)).state.log
      = [Event.readGDBReg 0, Event.readGDBReg 1,
          Event.sendResponse
            { newResponse shortEnv with
              type := RspType.REG_READ_rsp, data := [2, 1, 0, 0, 0, 0] }]
    ∧ (waitForRequest shortEnv demoTime shortStub
        { plainRequest ReqType.p_req with reg := 1 }).state.log
      = [Event.readGDBReg 1,
          Event.sendResponse
            { newResponse shortEnv with type := RspType.REG_READ_rsp, data := [0, 0, 0, 0] }]
    ∧ (waitForRequest shortEnv demoTime shortStub
        { plainRequest ReqType.p_req with reg := 5 }).state.log
      = [Event.sendResponse
            { newResponse shortEnv with type := RspType.REG_READ_rsp, data := [0, 0, 0, 0] }] := by
  refine ⟨by decide, by rfl, by rfl, by rfl⟩

/-! ### Continue and step -/

/-- What `resumeExecution` appends to the record of calls: the `notify` when
`timeToGo` is positive, nothing otherwise. -/
theorem resumeExecution_eq (now : SimTime) (s : Stub R P) :
    resumeExecution now s
      = { s with
          breakEnabled := true
          simStartTime := now.toDouble
          log := s.log ++
            (if 0 < s.timeToGo then [Event.notify now.toDouble s.timeToGo] else []) } := by
  unfold resumeExecution
  dsimp only
  split_ifs <;> simp [Stub.emit]

/-- C30: on a `c` or `s` request with address 0 the stub does not call
`setPC`; with a non-zero address `a` it calls `setPC(a)` exactly once, before
the calls of `resumeExecution`. In both cases the handler resumes
(`breakEnabled` true, `simStartTime` the current time, the pause event
notified when `timeToGo` is positive) and returns false, so the loop ends;
`s` also sets `step` to 1. -/
theorem cont_doStep_request (now : SimTime) (s : Stub R P) (req : GDBRequest) :
    (req.type = ReqType.c_req → req.address = 0 →
      waitForRequest env now s req
        = LoopResult.leave
            { s with
              breakEnabled := true
              simStartTime := now.toDouble
              log := s.log ++
                (if 0 < s.timeToGo then [Event.notify now.toDouble s.timeToGo] else []) })
    ∧ (req.type = ReqType.c_req → req.address ≠ 0 →
      waitForRequest env now s req
        = LoopResult.leave
            { s with
              processorInstance := env.abi.setPC s.processorInstance req.address
              breakEnabled := true
              simStartTime := now.toDouble
              log := s.log ++ [Event.setPC req.address] ++
                (if 0 < s.timeToGo then [Event.notify now.toDouble s.timeToGo] else []) })
    ∧ (req.type = ReqType.s_req → req.address = 0 →
      waitForRequest env now s req
        = LoopResult.leave
            { s with
              step := 1
              breakEnabled := true
              simStartTime := now.toDouble
              log := s.log ++
                (if 0 < s.timeToGo then [Event.notify now.toDouble s.timeToGo] else []) })
    ∧ (req.type = ReqType.s_req → req.address ≠ 0 →
      waitForRequest env now s req
        = LoopResult.leave
            { s with
              processorInstance := env.abi.setPC s.processorInstance req.address
              step := 1
              breakEnabled := true
              simStartTime := now.toDouble
              log := s.log ++ [Event.setPC req.address] ++
                (if 0 < s.timeToGo then [Event.notify now.toDouble s.timeToGo] else []) }) := by
  refine ⟨?_, ?_, ?_, ?_⟩
  · intro ht ha
    simp [waitForRequest, ht, cont, ha, resumeExecution_eq]
  · intro ht ha
    simp [waitForRequest, ht, cont, ha, resumeExecution_eq, Stub.emit]
  · intro ht ha
    simp [waitForRequest, ht, doStep, ha, resumeExecution_eq]
  · intro ht ha
    simp [waitForRequest, ht, doStep, ha, resumeExecution_eq, Stub.emit]

/-- C30 at the running demo stub: `s` with address 8192 calls `setPC(8192)`
once, sets `step` to 1 and ends the loop. -/
theorem cont_doStep_request_witness :
    waitForRequest demoEnv demoTime runningStub
        { plainRequest ReqType.s_req with address := 8192 }
      = LoopResult.leave
          { runningStub with
            processorInstance := procABI.setPC demoProc 8192
            step := 1
            breakEnabled := true
            simStartTime := 100
            log := [Event.setPC 8192] ++
              (if (0 : Dbl) < 0 then [Event.notify 100 0] else []) } :=
  (cont_doStep_request demoEnv demoTime runningStub
    { plainRequest ReqType.s_req with address := 8192 }).2.2.2 rfl (by decide)

/-! ### The monitor commands that set the time budget -/

/-- A `double` at or above 0 is not below 0. -/
theorem Dbl.not_lt_zero_of_le (x : Dbl) (h : (0 : Dbl) ≤ x) : ¬ x < 0 := by
  have h' : Dbl.le (Dbl.fin false 0) x = true := by rw [← Dbl.zero_eq]; exact h
  rw [Dbl.zero_eq, Dbl.lt_def]
  cases x with
  | nan => simp [Dbl.lt]
  | inf s => cases s <;> simp [Dbl.le, Dbl.lt, Dbl.eq] at h' ⊢
  | fin s k =>
    cases s
    · simp [Dbl.lt]
    · simp only [Dbl.le, Dbl.lt, Dbl.eq] at h' ⊢
      simp at h' ⊢
      exact h'

/-- The test `timeToGo < 0` shared by `go` and `go_abs`, written out. -/
theorem rejectNegative_eq (s : Stub R P) (v : Dbl) :
    (¬ v < 0 →
      ((rejectNegative (newResponse env) { s with timeToGo := v }).1.sendResponse
          (rejectNegative (newResponse env) { s with timeToGo := v }).2)
        = { s with
            timeToGo := v
            log := s.log ++
              [Event.sendResponse { newResponse env with type := RspType.OK_rsp }] })
    ∧ (v < 0 →
      ((rejectNegative (newResponse env) { s with timeToGo := v }).1.sendResponse
          (rejectNegative (newResponse env) { s with timeToGo := v }).2)
        = { s with
            timeToGo := 0
            log := s.log ++
              [Event.sendResponse
                { newResponse env with
                  type := RspType.OUTPUT_rsp
                  message := "Please specify a positive offset" },
                Event.sendResponse
                { newResponse env with
                  type := RspType.NOT_SUPPORTED_rsp
                  message := "Please specify a positive offset" }] }) := by
  refine ⟨?_, ?_⟩
  · intro h
    simp [rejectNegative, h, Stub.sendResponse, Stub.emit]
  · intro h
    simp [rejectNegative, h, Stub.sendResponse, Stub.emit]

/-- C24: with `n` the value `atof` gives the argument text, `go n` computes
`n × 1000` and `go_abs n` computes `n × 1000 − now`, each operation the
`double` one of the source. When the computed value is at or above 0
`timeToGo` becomes that value and the one response is OK; when it is below 0
the stub sends an Output response and then NotSupported, and `timeToGo`
becomes 0. Nothing else changes and the loop keeps listening. A computed value
that is neither, a NaN, is stored and answered OK as well: the source tests
`timeToGo < 0` only (last conjunct of each command). -/
theorem monitor_go_request (now : SimTime) (s : Stub R P) (req : GDBRequest)
    (hq : req.type = ReqType.q_req) (hcmd : req.command = "Rcmd") :
    (custComm req.extension = "go" →
      (0 ≤ env.atof (custArg req.extension) * 1000 →
        waitForRequest env now s req
          = LoopResult.listen
              { s with
                timeToGo := env.atof (custArg req.extension) * 1000
                log := s.log ++
                  [Event.sendResponse { newResponse env with type := RspType.OK_rsp }] })
      ∧ (env.atof (custArg req.extension) * 1000 < 0 →
        waitForRequest env now s req
          = LoopResult.listen
              { s with
                timeToGo := 0
                log := s.log ++
                  [Event.sendResponse
                    { newResponse env with
                      type := RspType.OUTPUT_rsp
                      message := "Please specify a positive offset" },
                    Event.sendResponse
                    { newResponse env with
                      type := RspType.NOT_SUPPORTED_rsp
                      message := "Please specify a positive offset" }] })
      ∧ (¬ env.atof (custArg req.extension) * 1000 < 0 →
        waitForRequest env now s req
          = LoopResult.listen
              { s with
                timeToGo := env.atof (custArg req.extension) * 1000
                log := s.log ++
                  [Event.sendResponse { newResponse env with type := RspType.OK_rsp }] }))
    ∧ (custComm req.extension = "go_abs" →
      (0 ≤ env.atof (custArg req.extension) * 1000 - now.toDouble →
        waitForRequest env now s req
          = LoopResult.listen
              { s with
                timeToGo := env.atof (custArg req.extension) * 1000 - now.toDouble
                log := s.log ++
                  [Event.sendResponse { newResponse env with type := RspType.OK_rsp }] })
      ∧ (env.atof (custArg req.extension) * 1000 - now.toDouble < 0 →
        waitForRequest env now s req
          = LoopResult.listen
              { s with
                timeToGo := 0
                log := s.log ++
                  [Event.sendResponse
                    { newResponse env with
                      type := RspType.OUTPUT_rsp
                      message := "Please specify a positive offset" },
                    Event.sendResponse
                    { newResponse env with
                      type := RspType.NOT_SUPPORTED_rsp
                      message := "Please specify a positive offset" }] })
      ∧ (¬ env.atof (custArg req.extension) * 1000 - now.toDouble < 0 →
        waitForRequest env now s req
          = LoopResult.listen
              { s with
                timeToGo := env.atof (custArg req.extension) * 1000 - now.toDouble
                log := s.log ++
                  [Event.sendResponse { newResponse env with type := RspType.OK_rsp }] })) := by
  refine ⟨?_, ?_⟩
  · intro hgo
    have hw : waitForRequest env now s req
        = LoopResult.listen
            ((rejectNegative (newResponse env)
                { s with timeToGo := env.atof (custArg req.extension) * 1000 }).1.sendResponse
              (rejectNegative (newResponse env)
                { s with timeToGo := env.atof (custArg req.extension) * 1000 }).2) := by
      simp [waitForRequest, hq, genericQuery, genericQueryBody, hcmd, hgo]
    rw [hw]
    exact ⟨fun h => by rw [(rejectNegative_eq env s _).1 (Dbl.not_lt_zero_of_le _ h)],
      fun h => by rw [(rejectNegative_eq env s _).2 h],
      fun h => by rw [(rejectNegative_eq env s _).1 h]⟩
  · intro hgo
    have hw : waitForRequest env now s req
        = LoopResult.listen
            ((rejectNegative (newResponse env)
                { s with
                  timeToGo := env.atof (custArg req.extension) * 1000 - now.toDouble }).1.sendResponse
              (rejectNegative (newResponse env)
                { s with
                  timeToGo := env.atof (custArg req.extension) * 1000 - now.toDouble }).2) := by
      simp [waitForRequest, hq, genericQuery, genericQueryBody, hcmd, hgo]
    rw [hw]
    exact ⟨fun h => by rw [(rejectNegative_eq env s _).1 (Dbl.not_lt_zero_of_le _ h)],
      fun h => by rw [(rejectNegative_eq env s _).2 h],
      fun h => by rw [(rejectNegative_eq env s _).1 h]⟩

/-- C24 at the running demo stub. At 100 ps `go 1` sets `timeToGo` to 1000 and
is answered OK, and `go_abs 0` computes −100, is answered with an Output
response and NotSupported, and leaves `timeToGo` 0. At 300 ps `go_abs 0.3`,
with `atof` giving the `double` nearest to 0.3, computes the product 300 and
the difference 0, and is answered OK. -/
theorem monitor_go_request_witness :
    (waitForRequest monitorEnv demoTime runningStub goOneRequest
        = LoopResult.listen
            { runningStub with
              timeToGo := monitorEnv.atof (custArg goOneRequest.extension) * 1000
              log := [Event.sendResponse { newResponse monitorEnv with type := RspType.OK_rsp }] }
      ∧ monitorEnv.atof (custArg goOneRequest.extension) * 1000 = 1000)
    ∧ waitForRequest monitorEnv demoTime runningStub goAbsZeroRequest
        = LoopResult.listen
            { runningStub with
              timeToGo := 0
              log :=
                [Event.sendResponse
                  { newResponse monitorEnv with
                    type := RspType.OUTPUT_rsp
                    message := "Please specify a positive offset" },
                  Event.sendResponse
                  { newResponse monitorEnv with
                    type := RspType.NOT_SUPPORTED_rsp
                    message := "Please specify a positive offset" }] }
    ∧ (waitForRequest fractionEnv { toDouble := 300, toStr := "300 ps" } runningStub
          goAbsFractionRequest
        = LoopResult.listen
            { runningStub with
              timeToGo := fractionEnv.atof (custArg goAbsFractionRequest.extension) * 1000 - 300
              log := [Event.sendResponse { newResponse fractionEnv with type := RspType.OK_rsp }] }
      ∧ fractionEnv.atof (custArg goAbsFractionRequest.extension)
          = Dbl.fin false 4599075939470750515
      ∧ fractionEnv.atof (custArg goAbsFractionRequest.extension) * 1000 = 300
      ∧ fractionEnv.atof (custArg goAbsFractionRequest.extension) * 1000 - 300 = 0) :=
  ⟨⟨((monitor_go_request monitorEnv demoTime runningStub goOneRequest rfl rfl).1
      (by decide)).1 (by decide), by decide⟩,
    ((monitor_go_request monitorEnv demoTime runningStub goAbsZeroRequest rfl rfl).2
      (by decide)).2.1 (by decide),
    ((monitor_go_request fractionEnv { toDouble := 300, toStr := "300 ps" } runningStub
      goAbsFractionRequest rfl rfl).2 (by decide)).1 (by decide),
    by decide, by decide, by decide⟩

/-! ### Two stops in one call -/

/-- A `c` or `s` request ends the loop with breakpoints enabled and the
registry as it was. -/
theorem resuming_request_leaves (now : SimTime) (s : Stub R P) (req : GDBRequest)
    (hreq : req.type = ReqType.c_req ∨ req.type = ReqType.s_req) :
    ∃ s1, waitForRequest env now s req = LoopResult.leave s1
      ∧ s1.breakEnabled = true ∧ s1.breakManager = s.breakManager
      ∧ s1.firstRun = s.firstRun ∧ ∃ l, s1.log = s.log ++ l := by
  have key : ∀ s0 : Stub R P, s0.breakManager = s.breakManager → s0.firstRun = s.firstRun →
      (∃ l, s0.log = s.log ++ l) →
      (resumeExecution now s0).breakEnabled = true
      ∧ (resumeExecution now s0).breakManager = s.breakManager
      ∧ (resumeExecution now s0).firstRun = s.firstRun
      ∧ ∃ l, (resumeExecution now s0).log = s.log ++ l := by
    intro s0 hb hf hl
    obtain ⟨l, hl⟩ := hl
    refine ⟨(resumeExecution_frame now s0).2.2.2.2.1,
      (resumeExecution_frame now s0).2.2.2.1.trans hb,
      (resumeExecution_frame now s0).1.trans hf, ?_⟩
    rw [resumeExecution_eq]
    exact ⟨_, by rw [hl, List.append_assoc]⟩
  rcases hreq with h | h
  · by_cases ha : req.address = 0
    · exact ⟨resumeExecution now s, by simp [waitForRequest, h, cont, ha],
        key s rfl rfl ⟨[], by simp⟩⟩
    · exact ⟨resumeExecution now { s.emit (Event.setPC req.address) with
          processorInstance := env.abi.setPC s.processorInstance req.address },
        by simp [waitForRequest, h, cont, ha],
        key _ rfl rfl ⟨[Event.setPC req.address], rfl⟩⟩
  · by_cases ha : req.address = 0
    · exact ⟨resumeExecution now { s with step := 1 }, by simp [waitForRequest, h, doStep, ha],
        key _ rfl rfl ⟨[], by simp⟩⟩
    · exact ⟨resumeExecution now { s.emit (Event.setPC req.address) with
          processorInstance := env.abi.setPC s.processorInstance req.address
          step := 1 },
        by simp [waitForRequest, h, doStep, ha, Stub.emit],
        key _ rfl rfl ⟨[Event.setPC req.address], rfl⟩⟩

/-- With breakpoints enabled, `checkBreakpoint` at an address the registry
has and finds a breakpoint at stops with reason `BREAK_stop`, one response
sent. -/
theorem checkBreakpoint_hit (pc : Nat) (now : SimTime) (s : Stub R P) (b : Breakpoint)
    (he : s.breakEnabled = true)
    (hhas : env.breakManager.hasBreakpoint s.breakManager pc = true)
    (hget : env.breakManager.getBreakPoint s.breakManager pc = some b) :
    checkBreakpoint env pc now s
        = setStopped env stopType.BREAK_stop now { s with breakReached := some b }
    ∧ ∃ s1 r, checkBreakpoint env pc now s = Flow.blocked s1
        ∧ s1.breakReached = some b
        ∧ s1.log = s.log ++ [Event.sendResponse r]
        ∧ r.payload = 5 ∧ (r.type = RspType.S_rsp ∨ r.type = RspType.T_rsp) := by
  have hcall : checkBreakpoint env pc now s
      = setStopped env stopType.BREAK_stop now { s with breakReached := some b } := by
    simp [checkBreakpoint, he, hhas, hget]
  refine ⟨hcall, ?_⟩
  obtain ⟨r, hr, hp, ht⟩ := awakeGDB_break_sends env now
    (setStoppedEntry now { s with breakReached := some b }) b (by simp)
  refine ⟨(setStoppedEntry now { s with breakReached := some b }).sendResponse r, r,
    ?_, ?_, ?_, hp, ht⟩
  · rw [hcall, setStopped, hr]
  · simp [Stub.sendResponse, Stub.emit]
  · simp [Stub.sendResponse, Stub.emit]

/-- A `checkStep` that finds `step` 2 stops, whatever the timeout flag, and
leaves the registry and `firstRun` as they were. -/
theorem checkStep_stops (now : SimTime) (s : Stub R P) (hstep : s.step = 2) :
    ∃ s1, checkStep env now s = Flow.blocked s1 ∧ s1.breakManager = s.breakManager
      ∧ s1.firstRun = s.firstRun ∧ s1.step = 0 := by
  cases ht : s.timeout with
  | true =>
    refine ⟨_, by simp only [checkStep, hstep, ht]; simp [setStopped_timeout]; rfl, ?_, ?_, ?_⟩ <;>
      simp [Stub.sendResponse, Stub.sendInterrupt, Stub.emit]
  | false =>
    refine ⟨_, by simp only [checkStep, hstep, ht]; simp [setStopped_step]; rfl, ?_, ?_, ?_⟩ <;>
      simp [Stub.sendResponse, Stub.emit]

/-- C29: a `newIssue(pc)` after the first run finds `step` 2 and a registry
that has, and finds, a breakpoint `b` at `pc`. It stops in `checkStep` (with
reason `TIMEOUT_stop` or `STEP_stop`, by the timeout flag); when the debugger
answers that stop with `c` or `s`, the same call goes on to
`checkBreakpoint(pc)` with breakpoints enabled and stops a second time, with
reason `BREAK_stop` on `b`, one `S` or `T` response with signal 5 sent,
before it returns. -/
theorem newIssue_stops_twice (pc : Nat) (now : SimTime) (s : Stub R P) (b : Breakpoint)
    (req : GDBRequest)
    (hfirst : s.firstRun = false) (hstep : s.step = 2)
    (hhas : env.breakManager.hasBreakpoint s.breakManager pc = true)
    (hget : env.breakManager.getBreakPoint s.breakManager pc = some b)
    (hreq : req.type = ReqType.c_req ∨ req.type = ReqType.s_req) :
    (newIssue env pc now s).loc = Loc.serving (LoopSite.checkStep pc)
    ∧ ((s.timeout = true ∧ checkStep env now s
          = setStopped env stopType.TIMEOUT_stop now { s with step := 0, timeout := false })
      ∨ (s.timeout = false ∧ checkStep env now s
          = setStopped env stopType.STEP_stop now { s with step := 0 }))
    ∧ (∃ s1, waitForRequest env now (newIssue env pc now s).stub req = LoopResult.leave s1
        ∧ checkBreakpoint env pc now s1
          = setStopped env stopType.BREAK_stop now { s1 with breakReached := some b })
    ∧ ((newIssue env pc now s).request env req).loc = Loc.serving LoopSite.checkBreakpoint
    ∧ ((newIssue env pc now s).request env req).stub.breakReached = some b
    ∧ ∃ l r, ((newIssue env pc now s).request env req).stub.log
          = (newIssue env pc now s).stub.log ++ l ++ [Event.sendResponse r]
        ∧ r.payload = 5 ∧ (r.type = RspType.S_rsp ∨ r.type = RspType.T_rsp) := by
  obtain ⟨s0, hs0, hb0, _, _⟩ := checkStep_stops env now s hstep
  have hc0 : newIssue env pc now s
      = { stub := s0, loc := Loc.serving (LoopSite.checkStep pc), now := now } := by
    rw [newIssue_later env pc now s hfirst, hs0]
  obtain ⟨s1, hs1, he1, hb1, _, l, hl1⟩ := resuming_request_leaves env now s0 req hreq
  obtain ⟨hcall, s2, r, hs2, hbr, hlog, hp, ht⟩ := checkBreakpoint_hit env pc now s1 b he1
    (by rw [hb1, hb0]; exact hhas) (by rw [hb1, hb0]; exact hget)
  have hc1 : (newIssue env pc now s).request env req
      = { stub := s2, loc := Loc.serving LoopSite.checkBreakpoint, now := now } := by
    rw [hc0]
    simp only [Config.request, hs1, leaveLoop, newIssueBreak, hs2]
  refine ⟨by rw [hc0], ?_, ⟨s1, by rw [hc0]; exact hs1, hcall⟩, by rw [hc1], by rw [hc1]; exact hbr,
    l, r, ?_, hp, ht⟩
  · cases ht0 : s.timeout with
    | true => exact Or.inl ⟨rfl, by simp [checkStep, hstep, ht0]⟩
    | false => exact Or.inr ⟨rfl, by simp [checkStep, hstep, ht0]⟩
  · rw [hc1, hc0]
    show s2.log = s0.log ++ l ++ [Event.sendResponse r]
    rw [hlog, hl1]

/-- C29 at the running demo stub with `step` 2 and a code breakpoint at
`4096`: the call stops in `checkStep`, and after `c` stops again on the
breakpoint. -/
theorem newIssue_stops_twice_witness :
    ((newIssue demoEnv 4096 demoTime
        { runningStub with
          step := 2
          breakManager := [{ type := BreakType.HW_break, address := 4096, length := 4 }] }).request
      demoEnv (plainRequest ReqType.c_req)).loc = Loc.serving LoopSite.checkBreakpoint :=
  (newIssue_stops_twice demoEnv 4096 demoTime
    { runningStub with
      step := 2
      breakManager := [{ type := BreakType.HW_break, address := 4096, length := 4 }] }
    { type := BreakType.HW_break, address := 4096, length := 4 }
    (plainRequest ReqType.c_req) rfl rfl rfl rfl (Or.inl rfl)).2.2.2.1

/-! ### Ranges of `step` and `timeToGo` -/

theorem setStoppedEntry_timeToGo (now : SimTime) (s : Stub R P) (h : ¬ s.timeToGo < 0) :
    ¬ (setStoppedEntry now s).timeToGo < 0 := by
  unfold setStoppedEntry
  dsimp only
  split_ifs with h1 h2
  · exact Dbl.not_zero_lt_zero
  · exact h2
  · exact h

/-- A stop keeps `step` and keeps `timeToGo` from going below 0. -/
theorem setStopped_bounds (stopReason : stopType) (now : SimTime) (s : Stub R P) :
    (setStopped env stopReason now s).state.step = s.step
    ∧ (¬ s.timeToGo < 0 → ¬ (setStopped env stopReason now s).state.timeToGo < 0) := by
  rw [setStopped_state]
  have h := awakeGDB_control env stopReason now (setStoppedEntry now s)
  refine ⟨(congrArg Control.step h).trans (setStoppedEntry_step now s), fun h0 => ?_⟩
  rw [show (awakeGDB env stopReason now (setStoppedEntry now s)).state.timeToGo
    = (setStoppedEntry now s).timeToGo from congrArg Control.timeToGo h]
  exact setStoppedEntry_timeToGo now s h0

theorem checkStep_bounds (now : SimTime) (s : Stub R P) :
    (s.step ≤ 2 → (checkStep env now s).state.step ≤ 2)
    ∧ (¬ s.timeToGo < 0 → ¬ (checkStep env now s).state.timeToGo < 0) := by
  unfold checkStep
  dsimp only
  split_ifs with h1 h2 h3
  · exact ⟨fun _ => by simp [Flow.state, h1], fun h => h⟩
  · exact ⟨fun _ => by rw [(setStopped_bounds env _ _ _).1]; exact Nat.zero_le _,
      fun h => (setStopped_bounds env _ _ _).2 h⟩
  · exact ⟨fun _ => by rw [(setStopped_bounds env _ _ _).1]; exact Nat.zero_le _,
      fun h => (setStopped_bounds env _ _ _).2 h⟩
  · exact ⟨fun h => h, fun h => h⟩

theorem checkBreakpoint_bounds (pc : Nat) (now : SimTime) (s : Stub R P) :
    (checkBreakpoint env pc now s).state.step = s.step
    ∧ (¬ s.timeToGo < 0 → ¬ (checkBreakpoint env pc now s).state.timeToGo < 0) := by
  unfold checkBreakpoint
  dsimp only
  split_ifs
  · split
    · exact ⟨rfl, fun h => h⟩
    · exact ⟨(setStopped_bounds env _ _ _).1, fun h => (setStopped_bounds env _ _ _).2 h⟩
  · exact ⟨rfl, fun h => h⟩

theorem rejectNegative_bounds (resp : GDBResponse) (s : Stub R P) :
    (rejectNegative resp s).1.step = s.step ∧ ¬ (rejectNegative resp s).1.timeToGo < 0 := by
  unfold rejectNegative
  split_ifs with h
  · exact ⟨rfl, Dbl.not_zero_lt_zero⟩
  · exact ⟨rfl, h⟩

theorem genericQueryBody_bounds (req : GDBRequest) (now : SimTime) (s : Stub R P) :
    (genericQueryBody env req now s).1.step = s.step
    ∧ (¬ s.timeToGo < 0 → ¬ (genericQueryBody env req now s).1.timeToGo < 0) := by
  unfold genericQueryBody
  dsimp only
  split_ifs
  · exact ⟨rfl, fun h => h⟩
  · exact ⟨(rejectNegative_bounds _ _).1, fun _ => (rejectNegative_bounds _ _).2⟩
  · exact ⟨(rejectNegative_bounds _ _).1, fun _ => (rejectNegative_bounds _ _).2⟩
  · exact ⟨rfl, fun h => h⟩
  · exact ⟨rfl, fun h => h⟩
  · exact ⟨rfl, fun h => h⟩
  · exact ⟨rfl, fun h => h⟩
  · exact ⟨rfl, fun h => h⟩

/-- No request handler takes `step` out of 0, 1, 2 or `timeToGo` below 0. -/
theorem waitForRequest_bounds (now : SimTime) (s : Stub R P) (req : GDBRequest) :
    (s.step ≤ 2 → (waitForRequest env now s req).state.step ≤ 2)
    ∧ (¬ s.timeToGo < 0 → ¬ (waitForRequest env now s req).state.timeToGo < 0) := by
  have hc : ∀ t : Stub R P, t.control = s.control →
      (s.step ≤ 2 → t.step ≤ 2) ∧ (¬ s.timeToGo < 0 → ¬ t.timeToGo < 0) := by
    intro t ht
    rw [show t.step = s.step from congrArg Control.step ht,
      show t.timeToGo = s.timeToGo from congrArg Control.timeToGo ht]
    exact ⟨fun h => h, fun h => h⟩
  unfold waitForRequest
  cases req.type <;> dsimp only
  case QUEST_req => simp [reqStopReason, awakeGDB, LoopResult.state, Stub.sendInterrupt, Stub.emit]
  case c_req =>
    simp only [cont, LoopResult.state, (resumeExecution_frame _ _).2.2.1,
      (resumeExecution_frame _ _).2.2.2.2.2]
    split_ifs <;> simp [Stub.emit]
  case D_req =>
    simp [detach, LoopResult.state, (resumeExecution_frame _ _).2.2.1,
      (resumeExecution_frame _ _).2.2.2.2.2, Stub.sendResponse, Stub.emit]
  case g_req =>
    simp only [readRegisters, LoopResult.state, Stub.sendResponse, Stub.emit]
    exact hc _ (readRegisters_loop_control env _ _)
  case G_req =>
    unfold writeRegisters
    split
    · simp [LoopResult.state]
    · simp only [LoopResult.state, Stub.sendResponse, Stub.emit]
      exact hc _ (writeRegisters_loop_control env _ _)
  case k_req => simp [killApp, LoopResult.state, Stub.emit]
  case m_req =>
    simp only [readMemory, LoopResult.state, Stub.sendResponse, Stub.emit]
    exact hc _ (readMemory_loop_control env _ _ _)
  case M_req =>
    simp only [writeMemory, LoopResult.state, Stub.sendResponse, Stub.emit]
    exact hc _ (writeMemoryLoop_control env _ _ _ _)
  case X_req =>
    simp only [writeMemory, LoopResult.state, Stub.sendResponse, Stub.emit]
    exact hc _ (writeMemoryLoop_control env _ _ _ _)
  case p_req =>
    unfold readRegister
    dsimp only
    split_ifs
    · split <;> simp [LoopResult.state, Stub.sendResponse, Stub.emit]
    · simp [LoopResult.state, Stub.sendResponse, Stub.emit]
  case P_req =>
    unfold writeRegister
    dsimp only
    split_ifs <;>
      simp [LoopResult.state, Stub.sendResponse, Stub.emit, (resumeExecution_frame _ _).2.2.1,
        (resumeExecution_frame _ _).2.2.2.2.2]
  case q_req =>
    simp only [genericQuery, LoopResult.state, Stub.sendResponse, Stub.emit,
      (genericQueryBody_bounds env _ _ _).1]
    exact ⟨fun h => h, (genericQueryBody_bounds env _ _ _).2⟩
  case s_req =>
    simp only [doStep, LoopResult.state, (resumeExecution_frame _ _).2.2.1,
      (resumeExecution_frame _ _).2.2.2.2.2]
    split_ifs <;> simp [Stub.emit]
  case z_req => simp [removeBreakpoint, LoopResult.state, Stub.sendResponse, Stub.emit]
  case Z_req =>
    unfold addBreakpoint
    split <;> simp [LoopResult.state, Stub.sendResponse, Stub.emit]
  case INTR_req => simp [recvIntr, LoopResult.state]
  case ERROR_req =>
    simp [errorRequest, LoopResult.state, (resumeExecution_frame _ _).2.2.1,
      (resumeExecution_frame _ _).2.2.2.2.2]
  all_goals simp [emptyAction, LoopResult.state, Stub.sendResponse, Stub.emit]

theorem newIssueBreak_bounds (pc : Nat) (now : SimTime) (s : Stub R P) :
    (newIssueBreak env pc now s).stub.step = s.step
    ∧ (¬ s.timeToGo < 0 → ¬ (newIssueBreak env pc now s).stub.timeToGo < 0) := by
  rw [newIssueBreak_stub]
  exact checkBreakpoint_bounds env pc now s

theorem newIssue_bounds (pc : Nat) (now : SimTime) (s : Stub R P) :
    (s.step ≤ 2 → (newIssue env pc now s).stub.step ≤ 2)
    ∧ (¬ s.timeToGo < 0 → ¬ (newIssue env pc now s).stub.timeToGo < 0) := by
  unfold newIssue
  split_ifs with h
  · exact ⟨fun h => h, fun h => h⟩
  · have hs := checkStep_bounds env now s
    cases hc : checkStep env now s with
    | returned s1 =>
      rw [hc] at hs
      dsimp only
      rw [(newIssueBreak_bounds env pc now s1).1]
      exact ⟨hs.1, fun h0 => (newIssueBreak_bounds env pc now s1).2 (hs.2 h0)⟩
    | blocked s1 =>
      rw [hc] at hs
      exact hs
    | thrown s1 =>
      rw [hc] at hs
      exact hs

theorem leaveLoop_bounds (site : LoopSite) (now : SimTime) (s : Stub R P) :
    (leaveLoop env site now s).stub.step = s.step
    ∧ (¬ s.timeToGo < 0 → ¬ (leaveLoop env site now s).stub.timeToGo < 0) := by
  cases site
  · exact ⟨rfl, fun h => h⟩
  · exact newIssueBreak_bounds env _ now s
  · exact ⟨rfl, fun h => h⟩

theorem request_bounds (c : Config R P) (req : GDBRequest) :
    (c.stub.step ≤ 2 → (c.request env req).stub.step ≤ 2)
    ∧ (¬ c.stub.timeToGo < 0 → ¬ (c.request env req).stub.timeToGo < 0) := by
  unfold Config.request
  split
  · rename_i site _
    have h := waitForRequest_bounds env c.now c.stub req
    cases hw : waitForRequest env c.now c.stub req with
    | leave s1 =>
      rw [hw] at h
      dsimp only
      rw [(leaveLoop_bounds env site c.now s1).1]
      exact ⟨h.1, fun h0 => (leaveLoop_bounds env site c.now s1).2 (h.2 h0)⟩
    | listen s1 =>
      rw [hw] at h
      exact h
    | waiting s1 =>
      rw [hw] at h
      exact h
    | undefined s1 =>
      rw [hw] at h
      exact h
    | thrown s1 =>
      rw [hw] at h
      exact h
  · exact ⟨fun h => h, fun h => h⟩

/-- Every input keeps `step` in 0, 1, 2 and `timeToGo` at or above 0. -/
theorem apply_bounds (c : Config R P) (i : Input)
    (h : c.stub.step ≤ 2 ∧ ¬ c.stub.timeToGo < 0) :
    (c.apply env i).stub.step ≤ 2 ∧ ¬ (c.apply env i).stub.timeToGo < 0 := by
  cases i with
  | newIssue pc now =>
    simp only [Config.apply, Config.issue]
    split
    · exact ⟨(newIssue_bounds env pc now c.stub).1 h.1, (newIssue_bounds env pc now c.stub).2 h.2⟩
    · exact h
  | request req => exact ⟨(request_bounds env c req).1 h.1, (request_bounds env c req).2 h.2⟩
  | interrupt => exact ⟨le_refl 2, h.2⟩
  | disconnect => exact ⟨Nat.zero_le 2, h.2⟩
  | pause => exact ⟨le_refl 2, h.2⟩
  | wake =>
    simp only [Config.apply, Config.wake]
    split
    · exact h
    · exact h

theorem run_bounds (inputs : List Input) (c : Config R P)
    (h : c.stub.step ≤ 2 ∧ ¬ c.stub.timeToGo < 0) :
    (c.run env inputs).stub.step ≤ 2 ∧ ¬ (c.run env inputs).stub.timeToGo < 0 := by
  induction inputs generalizing c with
  | nil => exact h
  | cons i rest ih => exact ih (c.apply env i) (apply_bounds env c i h)

/-- C27: after any list of inputs (calls of `newIssue`, requests, the
listener seeing the interrupt byte or a closed connection, callbacks of the
pause event, wake-ups), applied to the stub as constructed, `step` is 0, 1
or 2. -/
theorem step_in_range (processorInstance : P) (breakManager : R) (now : SimTime)
    (inputs : List Input) :
    ((Config.initial processorInstance breakManager now).run env inputs).stub.step = 0
    ∨ ((Config.initial processorInstance breakManager now).run env inputs).stub.step = 1
    ∨ ((Config.initial processorInstance breakManager now).run env inputs).stub.step = 2 := by
  have h := (run_bounds env inputs (Config.initial processorInstance breakManager now)
    ⟨Nat.zero_le 2, Dbl.not_zero_lt_zero⟩).1
  omega

/-- A `double` is not below 0 exactly when it is at or above 0 or a NaN. -/
theorem Dbl.not_lt_zero_iff (x : Dbl) : ¬ x < 0 ↔ ((0 : Dbl) ≤ x ∨ x = Dbl.nan) := by
  have hle : ((0 : Dbl) ≤ x) = (Dbl.le (Dbl.fin false 0) x = true) := by
    rw [← Dbl.zero_eq]; rfl
  rw [hle, Dbl.zero_eq, Dbl.lt_def]
  cases x with
  | nan => simp [Dbl.lt]
  | inf s => cases s <;> simp [Dbl.le, Dbl.lt, Dbl.eq]
  | fin s k =>
    cases s
    · simp only [Dbl.le, Dbl.lt, Dbl.eq]
      simp
      omega
    · simp only [Dbl.le, Dbl.lt, Dbl.eq]
      simp

/-- C28, the claim as written fails: after `monitor go nan`, whose argument
`atof` reads as a NaN, read in the first-run loop of the constructed demo
stub, the request is answered OK and `timeToGo` is a NaN, which is not at or
above 0. -/
theorem timeToGo_nonneg_counterexample :
    fractionEnv.atof (custArg goNanRequest.extension) = Dbl.nan
    ∧ ((Config.initial demoProc ([] : List Breakpoint) demoTime).run fractionEnv
        [Input.newIssue 4096 demoTime, Input.request goNanRequest]).stub.timeToGo = Dbl.nan
    ∧ ((Config.initial demoProc ([] : List Breakpoint) demoTime).run fractionEnv
        [Input.newIssue 4096 demoTime, Input.request goNanRequest]).stub.log
      = [Event.sendResponse { newResponse fractionEnv with type := RspType.OK_rsp }]
    ∧ ¬ (0 : Dbl) ≤ ((Config.initial demoProc ([] : List Breakpoint) demoTime).run fractionEnv
        [Input.newIssue 4096 demoTime, Input.request goNanRequest]).stub.timeToGo := by
  refine ⟨by decide, by decide, by rfl, by decide⟩

/-- C28, amended: after any list of inputs (calls of `newIssue`, requests,
among them `go` and `go_abs` with whatever value `atof` gives their argument,
the listener seeing the interrupt byte or a closed connection, callbacks of the
pause event, wake-ups), applied to the stub as constructed, `timeToGo` is not
below 0: it is at or above 0, or it is a NaN. -/
theorem timeToGo_not_negative (processorInstance : P) (breakManager : R) (now : SimTime)
    (inputs : List Input) :
    ¬ ((Config.initial processorInstance breakManager now).run env inputs).stub.timeToGo < 0
    ∧ ((0 : Dbl)
          ≤ ((Config.initial processorInstance breakManager now).run env inputs).stub.timeToGo
        ∨ ((Config.initial processorInstance breakManager now).run env inputs).stub.timeToGo
          = Dbl.nan) :=
  ⟨(run_bounds env inputs (Config.initial processorInstance breakManager now)
      ⟨Nat.zero_le 2, Dbl.not_zero_lt_zero⟩).2,
    (Dbl.not_lt_zero_iff _).mp
      (run_bounds env inputs (Config.initial processorInstance breakManager now)
        ⟨Nat.zero_le 2, Dbl.not_zero_lt_zero⟩).2⟩

/-! ### Detach with the timer armed -/

/-- The configuration a `D` request leaves. -/
theorem detach_config (c : Config R P) (site : LoopSite) (req : GDBRequest)
    (hloc : c.loc = Loc.serving site) (hreq : req.type = ReqType.D_req) :
    c.request env req
      = { stub :=
            { c.stub with
              breakManager := env.breakManager.clearAllBreaks c.stub.breakManager
              step := 0
              isConnected := false
              breakEnabled := false
              simStartTime := c.now.toDouble
              log := c.stub.log ++
                [Event.sendResponse { newResponse env with type := RspType.OK_rsp }] ++
                (if 0 < c.stub.timeToGo then [Event.notify c.now.toDouble c.stub.timeToGo]
                  else []) }
          loc := Loc.outside (some false)
          now := c.now } := by
  have hw : waitForRequest env c.now c.stub req
      = LoopResult.leave
          { c.stub with
            breakManager := env.breakManager.clearAllBreaks c.stub.breakManager
            step := 0
            isConnected := false
            breakEnabled := false
            simStartTime := c.now.toDouble
            log := c.stub.log ++
              [Event.sendResponse { newResponse env with type := RspType.OK_rsp }] ++
              (if 0 < c.stub.timeToGo then [Event.notify c.now.toDouble c.stub.timeToGo]
                else []) } := by
    simp only [waitForRequest, hreq, detach, resumeExecution, Stub.sendResponse, Stub.emit]
    split_ifs <;> simp
  simp only [Config.request, hloc, hw]
  cases site with
  | firstRun => rfl
  | checkStep pc0 => simp [leaveLoop, newIssueBreak, checkBreakpoint]
  | checkBreakpoint => rfl

/-- C21, on the code: a `D` request that arrives after an accepted
`monitor go N` with `N` above 0 schedules the pause event, as every resume
does. With no listener activity at all, the callback of that event makes the
next `newIssue` stop with reason `TIMEOUT_stop`: it sends an Output packet and
the interrupt byte to the debugger and enters the request loop. -/
theorem detach_keeps_timer (c : Config R P) (site : LoopSite) (qreq dreq : GDBRequest)
    (N : Dbl) (pc : Nat) (t : SimTime)
    (hloc : c.loc = Loc.serving site) (hfirst : c.stub.firstRun = false)
    (hq : qreq.type = ReqType.q_req) (hcmd : qreq.command = "Rcmd")
    (hgo : custComm qreq.extension = "go") (harg : env.atof (custArg qreq.extension) = N)
    (hN : 0 < N) (hd : dreq.type = ReqType.D_req) :
    ((c.request env qreq).request env dreq).loc = Loc.outside (some false)
    ∧ ((c.request env qreq).request env dreq).stub.isConnected = false
    ∧ ((c.request env qreq).request env dreq).stub.log
        = c.stub.log ++
          [Event.sendResponse { newResponse env with type := RspType.OK_rsp },
            Event.sendResponse { newResponse env with type := RspType.OK_rsp },
            Event.notify c.now.toDouble (N * 1000)]
    ∧ ((c.request env qreq).request env dreq).enabled Input.pause = true
    ∧ (((c.request env qreq).request env dreq).pause.issue env pc t).loc
        = Loc.serving (LoopSite.checkStep pc)
    ∧ (((c.request env qreq).request env dreq).pause.issue env pc t).stub.log
        = ((c.request env qreq).request env dreq).stub.log ++
          [Event.sendResponse
            { newResponse env with
              type := RspType.OUTPUT_rsp
              message := "Specified Simulation time completed - Current simulation time: "
                ++ t.toStr ++ " (ps)\n" },
            Event.sendInterrupt] := by
  have hpos : (0 : Dbl) < N * 1000 := Dbl.mul_thousand_pos N hN
  have h1 : c.request env qreq
      = { c with
          stub :=
            { c.stub with
              timeToGo := N * 1000
              log := c.stub.log ++
                [Event.sendResponse { newResponse env with type := RspType.OK_rsp }] } } := by
    simp only [Config.request, hloc, go_accepted env c.now c.stub qreq N hq hcmd hgo harg
      (Dbl.not_lt_zero_of_pos _ hpos)]
  have h2 := detach_config env (c.request env qreq) site dreq (by rw [h1]; exact hloc) hd
  have hl : ((c.request env qreq).request env dreq).loc = Loc.outside (some false) := by rw [h2]
  have hf : ((c.request env qreq).request env dreq).stub.firstRun = false := by
    rw [h2, h1]; exact hfirst
  have hlog : ((c.request env qreq).request env dreq).stub.log
      = c.stub.log ++
        [Event.sendResponse { newResponse env with type := RspType.OK_rsp },
          Event.sendResponse { newResponse env with type := RspType.OK_rsp },
          Event.notify c.now.toDouble (N * 1000)] := by
    rw [h2, h1]
    simp [hpos]
  have h3 := (newIssue_after_pause env pc t ((c.request env qreq).request env dreq).stub hf).2
  have h4 : ((c.request env qreq).request env dreq).pause.issue env pc t
      = newIssue env pc t (pauseMethod ((c.request env qreq).request env dreq).stub) := by
    simp only [Config.pause, Config.issue, hl]
  refine ⟨hl, by rw [h2], hlog, ?_, by rw [h4, h3], ?_⟩
  · simp [Config.enabled, hl, Loc.isOutside, hlog, Event.isNotify]
  · rw [h4, h3]
    simp [Stub.sendResponse, Stub.sendInterrupt, Stub.emit]

/-- C21 at the demo stub: first-run loop, `monitor go 1`, `D`, the callback
of the pause event, then a `newIssue` that ends blocked in the request loop. -/
theorem detach_keeps_timer_witness :
    ((((newIssue monitorEnv 4096 demoTime demoStub).request monitorEnv goOneRequest).request
        monitorEnv (plainRequest ReqType.D_req)).pause.issue monitorEnv 4100
          { toDouble := 1100, toStr := "1100 ps" }).loc
      = Loc.serving (LoopSite.checkStep 4100) :=
  (detach_keeps_timer monitorEnv (newIssue monitorEnv 4096 demoTime demoStub) LoopSite.firstRun
    goOneRequest (plainRequest ReqType.D_req) 1 4100 { toDouble := 1100, toStr := "1100 ps" }
    rfl rfl rfl rfl (by decide) (by decide) (by decide) rfl).2.2.2.2.1

/-! ### Kill, end of simulation, wire error -/

/-- C22, the claim as written fails: at the running demo stub blocked in the
loop of a breakpoint stop, the `k` handler does not answer leave. The thread
is suspended in `wait()` inside `killApp`, still inside the loop, and when it
is woken the loop goes on. -/
theorem killApp_counterexample :
    waitForRequest demoEnv demoTime runningStub (plainRequest ReqType.k_req)
        = LoopResult.waiting { runningStub with isKilled := true, log := [Event.sc_stop] }
    ∧ (({ stub := runningStub, loc := Loc.serving LoopSite.checkBreakpoint, now := demoTime }
          : Config (List Breakpoint) Proc).request demoEnv (plainRequest ReqType.k_req)).loc
        = Loc.waiting LoopSite.checkBreakpoint
    ∧ (({ stub := runningStub, loc := Loc.serving LoopSite.checkBreakpoint, now := demoTime }
          : Config (List Breakpoint) Proc).request demoEnv (plainRequest ReqType.k_req)).wake.loc
        = Loc.serving LoopSite.checkBreakpoint
    ∧ (({ stub := runningStub, loc := Loc.serving LoopSite.checkBreakpoint, now := demoTime }
          : Config (List Breakpoint) Proc).request demoEnv (plainRequest ReqType.k_req)).loc
        ≠ (leaveLoop demoEnv LoopSite.checkBreakpoint demoTime
            { runningStub with isKilled := true, log := [Event.sc_stop] }).loc :=
  ⟨rfl, rfl, rfl, by decide⟩

/-- C22, amended: a `k` request marks the stub killed, calls `sc_stop()`,
sends no response, and suspends the thread in `wait()` inside the handler;
the request loop is not left: once the thread is woken the handler answers
"keep" and the loop serves the next request. -/
theorem killApp_request (c : Config R P) (site : LoopSite) (req : GDBRequest)
    (hloc : c.loc = Loc.serving site) (hreq : req.type = ReqType.k_req) :
    waitForRequest env c.now c.stub req
        = LoopResult.waiting
            { c.stub with isKilled := true, log := c.stub.log ++ [Event.sc_stop] }
    ∧ c.request env req
        = { stub := { c.stub with isKilled := true, log := c.stub.log ++ [Event.sc_stop] }
            loc := Loc.waiting site
            now := c.now }
    ∧ (c.request env req).wake
        = { stub := { c.stub with isKilled := true, log := c.stub.log ++ [Event.sc_stop] }
            loc := Loc.serving site
            now := c.now } := by
  have hw : waitForRequest env c.now c.stub req
      = LoopResult.waiting
          { c.stub with isKilled := true, log := c.stub.log ++ [Event.sc_stop] } := by
    simp only [waitForRequest, hreq, killApp, Stub.emit]
  have hc : c.request env req
      = { stub := { c.stub with isKilled := true, log := c.stub.log ++ [Event.sc_stop] }
          loc := Loc.waiting site
          now := c.now } := by
    simp only [Config.request, hloc, hw]
  exact ⟨hw, hc, by rw [hc]; rfl⟩

/-- C22 amended, at the running demo stub blocked in the first-run loop. -/
theorem killApp_request_witness :
    (({ stub := runningStub, loc := Loc.serving LoopSite.firstRun, now := demoTime }
        : Config (List Breakpoint) Proc).request demoEnv (plainRequest ReqType.k_req)).wake
      = { stub := { runningStub with isKilled := true, log := [] ++ [Event.sc_stop] }
          loc := Loc.serving LoopSite.firstRun
          now := demoTime } :=
  (killApp_request demoEnv
    { stub := runningStub, loc := Loc.serving LoopSite.firstRun, now := demoTime }
    LoopSite.firstRun (plainRequest ReqType.k_req) rfl rfl).2.2

/-- C23, the claim as written fails: a connected stub that the debugger
killed still sends the Output packet and the W packet at the end of the
simulation. -/
theorem end_of_simulation_counterexample :
    (end_of_simulation demoEnv { runningStub with isConnected := true, isKilled := true }).log
      = [Event.sendResponse
          { newResponse demoEnv with
            type := RspType.OUTPUT_rsp
            message := "Program Correctly Ended\n" },
        Event.sendResponse
          { newResponse demoEnv with
            type := RspType.W_rsp
            payload := 3
            message := "Program Correctly Ended\n" }] := by
  rfl

/-- C23, amended: at the end of the simulation the stub sends packets exactly
when it is still connected, killed by the debugger or not
(`end_of_simulation` clears `isKilled` before it calls `signalProgramEnd`):
an Output packet with the text "Program Correctly Ended" and then a W packet
carrying signal 3. A disconnected stub sends nothing and is left as it
was. -/
theorem end_of_simulation_sends (s : Stub R P) :
    (s.isConnected = true →
      end_of_simulation env s
        = { s with
            isKilled := false
            log := s.log ++
              [Event.sendResponse
                { newResponse env with
                  type := RspType.OUTPUT_rsp
                  message := "Program Correctly Ended\n" },
              Event.sendResponse
                { newResponse env with
                  type := RspType.W_rsp
                  payload := 3
                  message := "Program Correctly Ended\n" }] })
    ∧ (s.isConnected = false → end_of_simulation env s = s) := by
  constructor
  · intro h
    simp [end_of_simulation, h, signalProgramEnd, Stub.sendResponse, Stub.emit, SIGQUIT]
  · intro h
    simp [end_of_simulation, h]

/-- C25, the claim as written fails: the running demo stub with a breakpoint
at `4096` still has it in the registry after an ERROR request. -/
theorem errorRequest_counterexample :
    listRegistry.hasBreakpoint
      (waitForRequest demoEnv demoTime
        { runningStub with
          breakManager := [{ type := BreakType.HW_break, address := 4096, length := 4 }] }
        (plainRequest ReqType.ERROR_req)).state.breakManager 4096 = true
    ∧ listRegistry.hasBreakpoint
        (listRegistry.clearAllBreaks
          [{ type := BreakType.HW_break, address := 4096, length := 4 }]) 4096 = false := by
  constructor
  · have h : (waitForRequest demoEnv demoTime
        { runningStub with
          breakManager := [{ type := BreakType.HW_break, address := 4096, length := 4 }] }
        (plainRequest ReqType.ERROR_req)).state.breakManager
        = [{ type := BreakType.HW_break, address := 4096, length := 4 }] := by
      simp only [waitForRequest, plainRequest, errorRequest, LoopResult.state,
        (resumeExecution_frame _ _).2.2.2.1]
    rw [h]
    decide
  · decide

/-- C25, amended: on an ERROR request the controller leaves the registry as
it is (no breakpoint is cleared), marks the stub disconnected, resumes (which
schedules the pause event when `timeToGo` is above 0), ends with
`breakEnabled` false, sends no response and leaves the request loop. -/
theorem errorRequest_request (now : SimTime) (s : Stub R P) (req : GDBRequest)
    (hreq : req.type = ReqType.ERROR_req) :
    waitForRequest env now s req
        = LoopResult.leave
            { s with
              isConnected := false
              breakEnabled := false
              simStartTime := now.toDouble
              log := s.log ++
                (if 0 < s.timeToGo then [Event.notify now.toDouble s.timeToGo] else []) }
    ∧ (waitForRequest env now s req).state.breakManager = s.breakManager
    ∧ (waitForRequest env now s req).state.isConnected = false
    ∧ (waitForRequest env now s req).state.breakEnabled = false
    ∧ ∀ r, Event.sendResponse r ∈ (waitForRequest env now s req).state.log →
        Event.sendResponse r ∈ s.log := by
  have hw : waitForRequest env now s req
      = LoopResult.leave
          { s with
            isConnected := false
            breakEnabled := false
            simStartTime := now.toDouble
            log := s.log ++
              (if 0 < s.timeToGo then [Event.notify now.toDouble s.timeToGo] else []) } := by
    simp [waitForRequest, hreq, errorRequest, resumeExecution_eq]
  refine ⟨hw, by rw [hw]; rfl, by rw [hw]; rfl, by rw [hw]; rfl, ?_⟩
  intro r hr
  rw [hw] at hr
  simp only [LoopResult.state, List.mem_append] at hr
  rcases hr with hr | hr
  · exact hr
  · split_ifs at hr <;> simp at hr

/-- C25 amended, at the running demo stub with a breakpoint at `4096`: the
registry after the ERROR request is the registry before it. -/
theorem errorRequest_request_witness :
    (waitForRequest demoEnv demoTime
        { runningStub with
          breakManager := [{ type := BreakType.HW_break, address := 4096, length := 4 }] }
        (plainRequest ReqType.ERROR_req)).state.breakManager
      = [{ type := BreakType.HW_break, address := 4096, length := 4 }] :=
  (errorRequest_request demoEnv demoTime
    { runningStub with
      breakManager := [{ type := BreakType.HW_break, address := 4096, length := 4 }] }
    (plainRequest ReqType.ERROR_req) rfl).2.1

/-! ### A stop and the pending pause event -/

/-- The stub after `staleTimerStop`. -/
theorem staleTimerStop_eq :
    staleTimerStop
      = { stub :=
            { Stub.construct demoProc [] with
              firstRun := false
              breakEnabled := false
              timeToGo := 800
              simStartTime := 300
              log :=
                [Event.sendResponse { newResponse monitorEnv with type := RspType.OK_rsp },
                  Event.notify 100 1000,
                  Event.sendResponse
                    { newResponse monitorEnv with type := RspType.S_rsp, payload := 5 }] }
          loc := Loc.serving (LoopSite.checkStep 4104)
          now := { toDouble := 300, toStr := "300 ps" } } := by
  rfl

/-- The stub after `staleTimerResumed`. -/
theorem staleTimerResumed_eq :
    staleTimerResumed
      = { stub :=
            { Stub.construct demoProc [] with
              firstRun := false
              breakEnabled := true
              timeToGo := 0
              simStartTime := 300
              log :=
                [Event.sendResponse { newResponse monitorEnv with type := RspType.OK_rsp },
                  Event.notify 100 1000,
                  Event.sendResponse
                    { newResponse monitorEnv with type := RspType.S_rsp, payload := 5 },
                  Event.sendResponse { newResponse monitorEnv with type := RspType.OK_rsp }] }
          loc := Loc.outside (some false)
          now := { toDouble := 300, toStr := "300 ps" } } := by
  rfl

/-- Waking the debugger calls only the connection manager. -/
theorem awakeGDB_log (stopReason : stopType) (now : SimTime) (s : Stub R P) :
    ∃ l, (awakeGDB env stopReason now s).state.log = s.log ++ l
      ∧ ∀ e ∈ l, e.isNotify = false := by
  cases stopReason <;> simp only [awakeGDB]
  case BREAK_stop =>
    cases hb : s.breakReached with
    | none => exact ⟨[], by simp [Flow.state], by simp⟩
    | some b =>
      dsimp only
      split_ifs
      · exact ⟨[_], rfl, by simp [Event.isNotify]⟩
      · exact ⟨[_], rfl, by simp [Event.isNotify]⟩
  case STEP_stop => exact ⟨[_], rfl, by simp [Event.isNotify]⟩
  case SEG_stop => exact ⟨[_], rfl, by simp [Event.isNotify]⟩
  case TIMEOUT_stop =>
    exact ⟨[Event.sendResponse
        { newResponse env with
          type := RspType.OUTPUT_rsp
          message := "Specified Simulation time completed - Current simulation time: "
            ++ now.toStr ++ " (ps)\n" }, Event.sendInterrupt],
      by simp [Flow.state, Stub.sendResponse, Stub.sendInterrupt, Stub.emit],
      by simp [Event.isNotify]⟩
  case PAUSED_stop =>
    exact ⟨[Event.sendResponse
        { newResponse env with
          type := RspType.OUTPUT_rsp
          message := "Simulation Paused - Current simulation time: "
            ++ now.toStr ++ " (ps)\n" }, Event.sendInterrupt],
      by simp [Flow.state, Stub.sendResponse, Stub.sendInterrupt, Stub.emit],
      by simp [Event.isNotify]⟩
  case UNK_stop => exact ⟨[_], rfl, by simp [Event.isNotify]⟩

/-- C26, the claim as written fails: the demo stub is stopped by a step at
300 ps while the pause event scheduled at 100 ps for 1100 ps is pending; the
debugger resumes with `monitor go 0` and `c` (`timeToGo` is 0, no new event is
scheduled); the callback of the pending event still runs, and the next
`newIssue` stops with reason `TIMEOUT_stop`: it sends the Output packet and
the interrupt byte and blocks in the request loop. -/
theorem pause_after_stop_counterexample :
    staleTimerStop.loc = Loc.serving (LoopSite.checkStep 4104)
    ∧ staleTimerStop.stub.log
        = [Event.sendResponse { newResponse monitorEnv with type := RspType.OK_rsp },
            Event.notify 100 1000,
            Event.sendResponse
              { newResponse monitorEnv with type := RspType.S_rsp, payload := 5 }]
    ∧ staleTimerResumed.loc = Loc.outside (some false)
    ∧ staleTimerResumed.stub.timeToGo = 0
    ∧ staleTimerResumed.enabled Input.pause = true
    ∧ (staleTimerResumed.pause.issue monitorEnv 4108
          { toDouble := 1100, toStr := "1100 ps" }).loc
        = Loc.serving (LoopSite.checkStep 4108)
    ∧ (staleTimerResumed.pause.issue monitorEnv 4108
          { toDouble := 1100, toStr := "1100 ps" }).stub.log
        = staleTimerResumed.stub.log ++
          [Event.sendResponse
            { newResponse monitorEnv with
              type := RspType.OUTPUT_rsp
              message := "Specified Simulation time completed - Current simulation time: "
                ++ "1100 ps" ++ " (ps)\n" },
            Event.sendInterrupt] := by
  have h4 : staleTimerResumed.pause.issue monitorEnv 4108 { toDouble := 1100, toStr := "1100 ps" }
      = newIssue monitorEnv 4108 { toDouble := 1100, toStr := "1100 ps" }
          (pauseMethod staleTimerResumed.stub) := by
    rw [staleTimerResumed_eq]; rfl
  have h3 := (newIssue_after_pause monitorEnv 4108 { toDouble := 1100, toStr := "1100 ps" }
    staleTimerResumed.stub (by rw [staleTimerResumed_eq])).2
  refine ⟨by rw [staleTimerStop_eq], by rw [staleTimerStop_eq], by rw [staleTimerResumed_eq],
    by rw [staleTimerResumed_eq], ?_, by rw [h4, h3], ?_⟩
  · rw [staleTimerResumed_eq]
    simp [Config.enabled, Loc.isOutside, Event.isNotify]
  · rw [h4, h3]
    simp [Stub.sendResponse, Stub.sendInterrupt, Stub.emit]

/-- C26, amended: a stop does not cancel a pending timed continue.
`setStopped` makes no call on the pause event: for every reason the calls it
adds to the log are calls of the connection manager, so an event scheduled by
an earlier resume stays pending. When the callback of the event runs while the
thread is outside `newIssue`, after the first run, it sets `step` to 2 and the
timeout flag whatever `timeToGo` is, and the next `newIssue` stops with reason
`TIMEOUT_stop`: it sends the Output packet and the interrupt byte and blocks in
the request loop. -/
theorem stop_keeps_pause_event (stopReason : stopType) (now : SimTime) (s : Stub R P)
    (c : Config R P) (ret : Option Bool) (pc : Nat) (t : SimTime)
    (hout : c.loc = Loc.outside ret) (hfirst : c.stub.firstRun = false) :
    (∃ l, (setStopped env stopReason now s).state.log = s.log ++ l
      ∧ ∀ e ∈ l, e.isNotify = false)
    ∧ c.pause.stub = { c.stub with step := 2, timeout := true }
    ∧ checkStep env t c.pause.stub
        = setStopped env stopType.TIMEOUT_stop t { c.stub with step := 0, timeout := false }
    ∧ (c.pause.issue env pc t).loc = Loc.serving (LoopSite.checkStep pc)
    ∧ (c.pause.issue env pc t).stub.log
        = c.stub.log ++
          [Event.sendResponse
            { newResponse env with
              type := RspType.OUTPUT_rsp
              message := "Specified Simulation time completed - Current simulation time: "
                ++ t.toStr ++ " (ps)\n" },
            Event.sendInterrupt] := by
  have h4 : c.pause.issue env pc t = newIssue env pc t (pauseMethod c.stub) := by
    simp only [Config.pause, Config.issue, hout]
  have h3 := newIssue_after_pause env pc t c.stub hfirst
  refine ⟨?_, rfl, h3.1, by rw [h4, h3.2], ?_⟩
  · rw [setStopped_state]
    obtain ⟨l, hl, hn⟩ := awakeGDB_log env stopReason now (setStoppedEntry now s)
    exact ⟨l, by rw [hl, setStoppedEntry_log], hn⟩
  · rw [h4, h3.2]
    simp [Stub.sendResponse, Stub.sendInterrupt, Stub.emit]

/-- C26 amended, at the demo stub resumed with `timeToGo` 0 after a step stop:
the callback of the pause event makes the next `newIssue` block in the request
loop. -/
theorem stop_keeps_pause_event_witness :
    (staleTimerResumed.pause.issue monitorEnv 4112 { toDouble := 1200, toStr := "1200 ps" }).loc
      = Loc.serving (LoopSite.checkStep 4112) :=
  (stop_keeps_pause_event monitorEnv stopType.STEP_stop demoTime runningStub staleTimerResumed
    (some false) 4112 { toDouble := 1200, toStr := "1200 ps" }
    (by rw [staleTimerResumed_eq]) (by rw [staleTimerResumed_eq])).2.2.2.1

/-! ### The indices `bytesToValue` reads -/

/-- The inner loop of `bytesToValue` stays inside the vector exactly when the
last index it reads, `i + k + n - 1`, is inside it. -/
theorem assembleWord_isSome (wordBytes : Nat) (byteHolder : List Int) (i : Nat) :
    ∀ n k buf, (assembleWord wordBytes byteHolder i n k buf).isSome = true
      ↔ (n = 0 ∨ i + k + n ≤ byteHolder.length) := by
  intro n
  induction n with
  | zero =>
    intro k buf
    simp [assembleWord]
  | succ n ih =>
    intro k buf
    by_cases hlt : i + k < byteHolder.length
    · simp only [assembleWord, List.getElem?_eq_getElem hlt]
      rw [ih]
      omega
    · simp only [assembleWord, List.getElem?_eq_none (Nat.le_of_not_lt hlt)]
      simp
      omega

/-- The outer loop from index `i` with `q` whole words left to the end of the
vector: it pushes `q` words. -/
theorem bytesToValueLoop_whole (wordBytes : Nat) (byteHolder : List Int) (hw : 0 < wordBytes) :
    ∀ q fuel i values, byteHolder.length = i + wordBytes * q → q ≤ fuel →
      ∃ vs, bytesToValueLoop wordBytes byteHolder fuel i values = some vs
        ∧ vs.length = values.length + q := by
  intro q
  induction q with
  | zero =>
    intro fuel i values hlen _
    have hi : ¬ i < byteHolder.length := by omega
    cases fuel with
    | zero => exact ⟨values, by simp [bytesToValueLoop, hi], rfl⟩
    | succ fuel => exact ⟨values, by simp [bytesToValueLoop, hi], rfl⟩
  | succ q ih =>
    intro fuel i values hlen hfuel
    rw [Nat.mul_succ] at hlen
    cases fuel with
    | zero => omega
    | succ fuel =>
      have hi : i < byteHolder.length := by omega
      have hsome := (assembleWord_isSome wordBytes byteHolder i wordBytes 0 0).mpr
        (Or.inr (by omega))
      obtain ⟨buf, hbuf⟩ := Option.isSome_iff_exists.mp hsome
      obtain ⟨vs, hvs, hl⟩ := ih fuel (i + wordBytes) (values ++ [buf]) (by omega) (by omega)
      refine ⟨vs, ?_, ?_⟩
      · simp only [bytesToValueLoop, hi, if_true, hbuf]
        exact hvs
      · rw [hl, List.length_append, List.length_singleton]
        omega

/-- The outer loop from index `i` with `q` whole words and `r` more bytes,
fewer than a word, left to the end of the vector: an index past the end is
read. -/
theorem bytesToValueLoop_partial (wordBytes : Nat) (byteHolder : List Int) (r : Nat)
    (hr0 : 0 < r) (hr : r < wordBytes) :
    ∀ q fuel i values, byteHolder.length = i + wordBytes * q + r → q + 1 ≤ fuel →
      bytesToValueLoop wordBytes byteHolder fuel i values = none := by
  intro q
  induction q with
  | zero =>
    intro fuel i values hlen hfuel
    cases fuel with
    | zero => omega
    | succ fuel =>
      have hi : i < byteHolder.length := by omega
      have hnone : assembleWord wordBytes byteHolder i wordBytes 0 0 = none := by
        cases h : assembleWord wordBytes byteHolder i wordBytes 0 0 with
        | none => rfl
        | some buf =>
          have := (assembleWord_isSome wordBytes byteHolder i wordBytes 0 0).mp (by rw [h]; rfl)
          omega
      simp only [bytesToValueLoop, hi, if_true, hnone]
  | succ q ih =>
    intro fuel i values hlen hfuel
    rw [Nat.mul_succ] at hlen
    cases fuel with
    | zero => omega
    | succ fuel =>
      have hi : i < byteHolder.length := by omega
      have hsome := (assembleWord_isSome wordBytes byteHolder i wordBytes 0 0).mpr
        (Or.inr (by omega))
      obtain ⟨buf, hbuf⟩ := Option.isSome_iff_exists.mp hsome
      simp only [bytesToValueLoop, hi, if_true, hbuf]
      exact ih fuel (i + wordBytes) (values ++ [buf]) (by omega) (by omega)

/-- The words before the last index a whole number of words reaches are
assembled from indices inside the vector. -/
theorem assembleWord_whole_words (wordBytes : Nat) (byteHolder : List Int) (j : Nat)
    (hj : j < byteHolder.length / wordBytes) :
    (assembleWord wordBytes byteHolder (wordBytes * j) wordBytes 0 0).isSome = true := by
  refine (assembleWord_isSome wordBytes byteHolder (wordBytes * j) wordBytes 0 0).mpr (Or.inr ?_)
  have h1 : wordBytes * (j + 1) ≤ wordBytes * (byteHolder.length / wordBytes) :=
    Nat.mul_le_mul_left wordBytes hj
  have h2 : wordBytes * (byteHolder.length / wordBytes) ≤ byteHolder.length :=
    Nat.mul_div_le byteHolder.length wordBytes
  rw [Nat.mul_succ] at h1
  omega

/-- C31: for a word size of at least one byte, `bytesToValue` reads only
indices inside the payload exactly when the payload length is a multiple of
the word size. For such a payload it returns `length / wordBytes` words, each
assembled from indices inside the payload. For a payload whose length is not a
multiple, every word but the last is assembled inside the payload, the loop
still runs for the last word (its first index `wordBytes * (length /
wordBytes)` is inside), and that word is assembled from indices past the end
(its last index is at or past `length`). -/
theorem bytesToValue_in_range (wordBytes : Nat) (byteHolder : List Int) (hw : 0 < wordBytes) :
    ((bytesToValue wordBytes byteHolder).isSome = true ↔ wordBytes ∣ byteHolder.length)
    ∧ (wordBytes ∣ byteHolder.length →
        (∃ values, bytesToValue wordBytes byteHolder = some values
          ∧ values.length = byteHolder.length / wordBytes)
        ∧ ∀ j, j < byteHolder.length / wordBytes →
            (assembleWord wordBytes byteHolder (wordBytes * j) wordBytes 0 0).isSome = true)
    ∧ (¬ wordBytes ∣ byteHolder.length →
        bytesToValue wordBytes byteHolder = none
        ∧ (∀ j, j < byteHolder.length / wordBytes →
            (assembleWord wordBytes byteHolder (wordBytes * j) wordBytes 0 0).isSome = true)
        ∧ wordBytes * (byteHolder.length / wordBytes) < byteHolder.length
        ∧ byteHolder.length < wordBytes * (byteHolder.length / wordBytes) + wordBytes
        ∧ assembleWord wordBytes byteHolder (wordBytes * (byteHolder.length / wordBytes))
            wordBytes 0 0 = none) := by
  have hdm : wordBytes * (byteHolder.length / wordBytes) + byteHolder.length % wordBytes
      = byteHolder.length := Nat.div_add_mod byteHolder.length wordBytes
  have hmod : byteHolder.length % wordBytes < wordBytes := Nat.mod_lt _ hw
  have hq : byteHolder.length / wordBytes ≤ wordBytes * (byteHolder.length / wordBytes) :=
    Nat.le_mul_of_pos_left _ hw
  have hyes : wordBytes ∣ byteHolder.length →
      ∃ values, bytesToValue wordBytes byteHolder = some values
        ∧ values.length = byteHolder.length / wordBytes := by
    intro hd
    have h0 : byteHolder.length % wordBytes = 0 := Nat.mod_eq_zero_of_dvd hd
    obtain ⟨vs, hvs, hl⟩ := bytesToValueLoop_whole wordBytes byteHolder hw
      (byteHolder.length / wordBytes) byteHolder.length 0 [] (by omega) (by omega)
    exact ⟨vs, hvs, by simpa using hl⟩
  have hno : ¬ wordBytes ∣ byteHolder.length → bytesToValue wordBytes byteHolder = none := by
    intro hd
    have h0 : 0 < byteHolder.length % wordBytes :=
      Nat.pos_of_ne_zero (fun h => hd (Nat.dvd_of_mod_eq_zero h))
    exact bytesToValueLoop_partial wordBytes byteHolder (byteHolder.length % wordBytes) h0 hmod
      (byteHolder.length / wordBytes) byteHolder.length 0 [] (by omega) (by omega)
  refine ⟨⟨?_, ?_⟩, ?_, ?_⟩
  · intro hs
    by_contra hd
    rw [hno hd] at hs
    exact Bool.false_ne_true hs
  · intro hd
    obtain ⟨vs, hvs, _⟩ := hyes hd
    rw [hvs]
    rfl
  · intro hd
    exact ⟨hyes hd, fun j hj => assembleWord_whole_words wordBytes byteHolder j hj⟩
  · intro hd
    have h0 : 0 < byteHolder.length % wordBytes :=
      Nat.pos_of_ne_zero (fun h => hd (Nat.dvd_of_mod_eq_zero h))
    refine ⟨hno hd, fun j hj => assembleWord_whole_words wordBytes byteHolder j hj,
      by omega, by omega, ?_⟩
    cases h : assembleWord wordBytes byteHolder (wordBytes * (byteHolder.length / wordBytes))
        wordBytes 0 0 with
    | none => rfl
    | some buf =>
      have := (assembleWord_isSome wordBytes byteHolder
        (wordBytes * (byteHolder.length / wordBytes)) wordBytes 0 0).mp (by rw [h]; rfl)
      omega

/-- C31 on 32-bit words: a payload of eight bytes gives two words, a payload
of six bytes has its second word assembled from indices 4 to 7, past the
end. -/
theorem bytesToValue_in_range_witness :
    (∃ values, bytesToValue 4 [1, 0, 0, 0, 2, 0, 0, 0] = some values
      ∧ values.length = [1, 0, 0, 0, 2, 0, 0, 0].length / 4)
    ∧ bytesToValue 4 [1, 0, 0, 0, 2, 0] = none :=
  ⟨((bytesToValue_in_range 4 [1, 0, 0, 0, 2, 0, 0, 0] (by decide)).2.1 (by decide)).1,
    ((bytesToValue_in_range 4 [1, 0, 0, 0, 2, 0] (by decide)).2.2 (by decide)).1⟩

end Claims

end GDBStub
